import Mathlib

-- Verification of the VM layout resolution engine in src/v8_spy.rs.
-- Machine integers are modelled as Nat with explicit wrap-around at the
-- declared width (release-mode Rust semantics: `<<`, `+`, `-` on uN wrap).

namespace V8spy

-- 2^32, used by the packed version ordinal and u32 reads.
def M32 : Nat := 4294967296

-- Wrapping u8 arithmetic.
def add8 (a b : Nat) : Nat := (a + b) % 256

def sub8 (a b : Nat) : Nat := (a % 256 + (256 - b % 256)) % 256

-- Wrapping u16 arithmetic.
def add16 (a b : Nat) : Nat := (a + b) % 65536

def sub16 (a b : Nat) : Nat := (a % 65536 + (65536 - b % 65536)) % 65536

-- `let pointer_size = 8;` in V8Spy::new (u8, cast to u16 where needed).
def pointer_size : Nat := 8

-- struct Version (four u32 components read from the target).
structure Version where
  major : Nat
  minor : Nat
  build : Nat
  patch : Nat
deriving DecidableEq, Inhabited, Repr

-- fn v8_ver(major, minor, build) = (major << 24) + (minor << 16) + build on u32.
def v8_ver (major minor build : Nat) : Nat :=
  (major * 16777216 + minor * 65536 + build) % M32

-- struct Fixed: tag/mask constants (u32/u16 fields).
structure Fixed where
  heap_object_tag_mask : Nat
  smi_tag_mask : Nat
  heap_object_tag : Nat
  smi_tag : Nat
  smi_shift_size : Nat
  first_nonstring_type : Nat
  string_encoding_mask : Nat
  string_representation_mask : Nat
  seq_string_tag : Nat
  cons_string_tag : Nat
  one_byte_string_tag : Nat
  two_byte_string_tag : Nat
  sliced_string_tag : Nat
  thin_string_tag : Nat
  first_jsfunction_type : Nat
  last_jsfunction_type : Nat
deriving DecidableEq, Inhabited, Repr

-- struct FramePointer (u8 fields).
structure FramePointer where
  function : Nat
  context : Nat
  bytecode_array : Nat
  bytecode_offset : Nat
deriving DecidableEq, Inhabited, Repr

-- struct ScopeInfoIndex (u8 fields).
structure ScopeInfoIndex where
  first_vars : Nat
  ncontext_locals : Nat
deriving DecidableEq, Inhabited, Repr

-- struct DeoptimizationDataIndex (u8 fields).
structure DeoptimizationDataIndex where
  inlined_function_count : Nat
  literal_array : Nat
  shared_function_info : Nat
  inlining_positions : Nat
deriving DecidableEq, Inhabited, Repr

-- struct CodeKind (field_mask u32, field_shift u8, baseline u8).
structure CodeKind where
  field_mask : Nat
  field_shift : Nat
  baseline : Nat
deriving DecidableEq, Inhabited, Repr

-- struct FrameType (u8 fields, the 23-member frame-type enumeration plus one).
structure FrameType where
  arguments_adaptor_frame : Nat
  baseline_frame : Nat
  builtin_continuation_frame : Nat
  builtin_exit_frame : Nat
  builtin_frame : Nat
  cwasm_entry_frame : Nat
  construct_entry_frame : Nat
  construct_frame : Nat
  entry_frame : Nat
  exit_frame : Nat
  internal_frame : Nat
  interpreted_frame : Nat
  java_script_builtin_continuation_frame : Nat
  java_script_builtin_continuation_with_catch_frame : Nat
  java_script_frame : Nat
  js_to_wasm_frame : Nat
  native_frame : Nat
  optimized_frame : Nat
  stub_frame : Nat
  wasm_compile_lazy_frame : Nat
  wasm_compiled_frame : Nat
  wasm_exit_frame : Nat
  wasm_interpreter_entry_frame : Nat
  wasm_to_js_frame : Nat
deriving DecidableEq, Inhabited, Repr

-- struct Type in the source (renamed: `Type` is a sort in Lean); u16 fields.
structure Typ where
  baseline_data : Nat
  byte_array : Nat
  bytecode_array : Nat
  code : Nat
  fixed_array : Nat
  weak_fixed_array : Nat
  js_function : Nat
  map : Nat
  script : Nat
  scope_info : Nat
  shared_function_info : Nat
deriving DecidableEq, Inhabited, Repr

-- struct HeapObject (u16).
structure HeapObject where
  map : Nat
deriving DecidableEq, Inhabited, Repr

-- struct Map (u16).
structure Map where
  instance_type : Nat
deriving DecidableEq, Inhabited, Repr

-- struct FixedArrayBase (u16).
structure FixedArrayBase where
  length : Nat
deriving DecidableEq, Inhabited, Repr

-- struct FixedArray (u16).
structure FixedArray where
  data : Nat
deriving DecidableEq, Inhabited, Repr

-- struct String in the source (renamed: Lean's String is taken); u16.
structure VmString where
  length : Nat
deriving DecidableEq, Inhabited, Repr

-- struct SeqOneByteString (u16).
structure SeqOneByteString where
  chars : Nat
deriving DecidableEq, Inhabited, Repr

-- struct SeqTwoByteString (u16).
structure SeqTwoByteString where
  chars : Nat
deriving DecidableEq, Inhabited, Repr

-- struct ConsString (u16 fields).
structure ConsString where
  first : Nat
  second : Nat
deriving DecidableEq, Inhabited, Repr

-- struct ThinString (u16).
structure ThinString where
  actual : Nat
deriving DecidableEq, Inhabited, Repr

-- struct JSFunction (u16 fields).
structure JSFunction where
  code : Nat
  shared_function_info : Nat
deriving DecidableEq, Inhabited, Repr

-- struct Code (u16 fields).
structure Code where
  deoptimization_data : Nat
  source_position_table : Nat
  instruction_start : Nat
  instruction_size : Nat
  flags : Nat
deriving DecidableEq, Inhabited, Repr

-- struct SharedFunctionInfo (u16 fields).
structure SharedFunctionInfo where
  name_or_scope_info : Nat
  function_data : Nat
  script_or_debug_info : Nat
deriving DecidableEq, Inhabited, Repr

-- struct BaselineData (u16).
structure BaselineData where
  data : Nat
deriving DecidableEq, Inhabited, Repr

-- struct BytecodeArray (u16 fields).
structure BytecodeArray where
  source_position_table : Nat
  data : Nat
deriving DecidableEq, Inhabited, Repr

-- struct ScopeInfo (presence-only marker field).
structure ScopeInfo where
  heap_object : Bool
deriving DecidableEq, Inhabited, Repr

-- struct DeoptimizationLiteralArray (presence-only marker field).
structure DeoptimizationLiteralArray where
  weak_fixed_array : Bool
deriving DecidableEq, Inhabited, Repr

-- struct Script (u16 fields).
structure Script where
  name : Nat
  line_ends : Nat
  source : Nat
deriving DecidableEq, Inhabited, Repr

-- struct VMData: the full layout catalogue.
structure VMData where
  fixed : Fixed
  frame_pointer : FramePointer
  scope_info_index : ScopeInfoIndex
  deoptimization_data_index : DeoptimizationDataIndex
  code_kind : CodeKind
  frame_type : FrameType
  typ : Typ
  heap_object : HeapObject
  map : Map
  fixed_array_base : FixedArrayBase
  fixed_array : FixedArray
  string : VmString
  seq_one_byte_string : SeqOneByteString
  seq_two_byte_string : SeqTwoByteString
  cons_string : ConsString
  thin_string : ThinString
  jsfunction : JSFunction
  code : Code
  shared_function_info : SharedFunctionInfo
  baseline_data : BaselineData
  bytecode_array : BytecodeArray
  scope_info : ScopeInfo
  deoptimization_literal_array : DeoptimizationLiteralArray
  script : Script
deriving DecidableEq, Inhabited, Repr

-- The external collaborators (process attach, symbol resolution, remote
-- memory reads), abstracted as an environment: `getSymbol` models
-- `process_info.get_symbol`, `readAddr` models `process.read` at an address
-- (returning the bytes there as a Nat), `openOk` models whether
-- `remoteprocess::Process::new` succeeds and `infoOk` whether
-- `ProcessInfo::new` succeeds.
structure Env where
  openOk : Bool
  infoOk : Bool
  getSymbol : String → Option Nat
  readAddr : Nat → Option Nat

-- fn read_memory<T>(..., symbol, data) -> bool.  `none` models the
-- `panic!("Unsupported type")` branch; `some (ok, v)` models returning
-- `ok` with the destination holding `v`.  The width (1, 2 or 4 bytes) is
-- the size of T; a successful read stores the little-endian value of
-- exactly `width` bytes.  A missing frame-type symbol writes 0xff into the
-- first (lowest) byte of the destination and reports success.
def read_memory (env : Env) (symbol : String) (width : Nat) (data : Nat) :
    Option (Bool × Nat) :=
  match env.getSymbol symbol with
  | none =>
    if symbol.startsWith "v8dbg_frametype_" then
      some (true, data - data % 256 + 255)
    else
      some (false, data)
  | some addr =>
    if width = 4 ∨ width = 2 ∨ width = 1 then
      match env.readAddr addr with
      | some v => some (true, v % 2 ^ (8 * width))
      | none => some (false, data)
    else
      none

-- The same function restricted to the supported widths, where the panic
-- branch cannot fire; used to state computation lemmas.
def read_memory_total (env : Env) (symbol : String) (width : Nat) (data : Nat) :
    Bool × Nat :=
  match env.getSymbol symbol with
  | none =>
    if symbol.startsWith "v8dbg_frametype_" then (true, data - data % 256 + 255)
    else (false, data)
  | some addr =>
    match env.readAddr addr with
    | some v => (true, v % 2 ^ (8 * width))
    | none => (false, data)

-- One iteration of the loop in fn get_v8_version: look the mangled symbol
-- up (`.unwrap()` panics when it is missing, modelled as `none`), then read
-- four little-endian bytes; on read failure the component remains zero.
def read_version_component (env : Env) (name : String) : Option Nat :=
  match env.getSymbol name with
  | none => none
  | some addr =>
    match env.readAddr addr with
    | some v => some (v % M32)
    | none => some 0

-- fn get_v8_version, with the loop over the four components unrolled.
def get_v8_version (env : Env) : Option Version := do
  let major ← read_version_component env "_ZN2v88internal7Version6major_E"
  let minor ← read_version_component env "_ZN2v88internal7Version6minor_E"
  let build ← read_version_component env "_ZN2v88internal7Version6build_E"
  let patch ← read_version_component env "_ZN2v88internal7Version6patch_E"
  pure { major := major, minor := minor, build := build, patch := patch }

-- Slice of fn get_v8_data: the probes populating `fixed`.
def probe_fixed (env : Env) (d : Fixed) : Option Fixed := do
  let r ← read_memory env "v8dbg_HeapObjectTagMask" 4 d.heap_object_tag_mask
  let d := { d with heap_object_tag_mask := r.2 }
  let r ← read_memory env "v8dbg_SmiTagMask" 4 d.smi_tag_mask
  let d := { d with smi_tag_mask := r.2 }
  let r ← read_memory env "v8dbg_HeapObjectTag" 2 d.heap_object_tag
  let d := { d with heap_object_tag := r.2 }
  let r ← read_memory env "v8dbg_SmiTag" 2 d.smi_tag
  let d := { d with smi_tag := r.2 }
  let r ← read_memory env "v8dbg_SmiShiftSize" 2 d.smi_shift_size
  let d := { d with smi_shift_size := r.2 }
  let r ← read_memory env "v8dbg_FirstNonstringType" 2 d.first_nonstring_type
  let d := { d with first_nonstring_type := r.2 }
  let r ← read_memory env "v8dbg_StringEncodingMask" 2 d.string_encoding_mask
  let d := { d with string_encoding_mask := r.2 }
  let r ← read_memory env "v8dbg_StringRepresentationMask" 2 d.string_representation_mask
  let d := { d with string_representation_mask := r.2 }
  let r ← read_memory env "v8dbg_SeqStringTag" 2 d.seq_string_tag
  let d := { d with seq_string_tag := r.2 }
  let r ← read_memory env "v8dbg_ConsStringTag" 2 d.cons_string_tag
  let d := { d with cons_string_tag := r.2 }
  let r ← read_memory env "v8dbg_OneByteStringTag" 2 d.one_byte_string_tag
  let d := { d with one_byte_string_tag := r.2 }
  let r ← read_memory env "v8dbg_TwoByteStringTag" 2 d.two_byte_string_tag
  let d := { d with two_byte_string_tag := r.2 }
  let r ← read_memory env "v8dbg_SlicedStringTag" 2 d.sliced_string_tag
  let d := { d with sliced_string_tag := r.2 }
  let r ← read_memory env "v8dbg_ThinStringTag" 2 d.thin_string_tag
  let d := { d with thin_string_tag := r.2 }
  let r ← read_memory env "v8dbg_FirstJSFunctionType" 2 d.first_jsfunction_type
  let d := { d with first_jsfunction_type := r.2 }
  let r ← read_memory env "v8dbg_LastJSFunctionType" 2 d.last_jsfunction_type
  let d := { d with last_jsfunction_type := r.2 }
  return d

-- Slice of fn get_v8_data: the probes populating `frame_pointer`.
def probe_frame_pointer (env : Env) (d : FramePointer) : Option FramePointer := do
  let r ← read_memory env "v8dbg_off_fp_function" 1 d.function
  let d := { d with function := r.2 }
  let r ← read_memory env "v8dbg_off_fp_context" 1 d.context
  let d := { d with context := r.2 }
  let r ← read_memory env "v8dbg_off_fp_bytecode_array" 1 d.bytecode_array
  let d := { d with bytecode_array := r.2 }
  let r ← read_memory env "v8dbg_off_fp_bytecode_offset" 1 d.bytecode_offset
  let d := { d with bytecode_offset := r.2 }
  return d

-- Slice of fn get_v8_data: the probes populating `scope_info_index`.
def probe_scope_info_index (env : Env) (d : ScopeInfoIndex) : Option ScopeInfoIndex := do
  let r ← read_memory env "v8dbg_scopeinfo_idx_first_vars" 1 d.first_vars
  let d := { d with first_vars := r.2 }
  let r ← read_memory env "v8dbg_scopeinfo_idx_ncontextlocals" 1 d.ncontext_locals
  let d := { d with ncontext_locals := r.2 }
  return d

-- Slice of fn get_v8_data: the probes populating `deoptimization_data_index`.
def probe_deoptimization_data_index (env : Env) (d : DeoptimizationDataIndex) : Option DeoptimizationDataIndex := do
  let r ← read_memory env "v8dbg_DeoptimizationDataInlinedFunctionCountIndex" 1 d.inlined_function_count
  let d := { d with inlined_function_count := r.2 }
  let r ← read_memory env "v8dbg_DeoptimizationDataLiteralArrayIndex" 1 d.literal_array
  let d := { d with literal_array := r.2 }
  let r ← read_memory env "v8dbg_DeoptimizationDataSharedFunctionInfoIndex" 1 d.shared_function_info
  let d := { d with shared_function_info := r.2 }
  let r ← read_memory env "v8dbg_DeoptimizationDataInliningPositionsIndex" 1 d.inlining_positions
  let d := { d with inlining_positions := r.2 }
  return d

-- Slice of fn get_v8_data: the probes populating `code_kind`.
def probe_code_kind (env : Env) (d : CodeKind) : Option CodeKind := do
  let r ← read_memory env "v8dbg_CodeKindFieldMask" 4 d.field_mask
  let d := { d with field_mask := r.2 }
  let r ← read_memory env "v8dbg_CodeKindFieldShift" 1 d.field_shift
  let d := { d with field_shift := r.2 }
  let r ← read_memory env "v8dbg_CodeKindBaseline" 1 d.baseline
  let d := { d with baseline := r.2 }
  return d

-- Slice of fn get_v8_data: the probes populating `frame_type`.
def probe_frame_type_a (env : Env) (d : FrameType) : Option FrameType := do
  let r ← read_memory env "v8dbg_frametype_ArgumentsAdaptorFrame" 1 d.arguments_adaptor_frame
  let d := { d with arguments_adaptor_frame := r.2 }
  let r ← read_memory env "v8dbg_frametype_BaselineFrame" 1 d.baseline_frame
  let d := { d with baseline_frame := r.2 }
  let r ← read_memory env "v8dbg_frametype_BuiltinContinuationFrame" 1 d.builtin_continuation_frame
  let d := { d with builtin_continuation_frame := r.2 }
  let r ← read_memory env "v8dbg_frametype_BuiltinExitFrame" 1 d.builtin_exit_frame
  let d := { d with builtin_exit_frame := r.2 }
  let r ← read_memory env "v8dbg_frametype_BuiltinFrame" 1 d.builtin_frame
  let d := { d with builtin_frame := r.2 }
  let r ← read_memory env "v8dbg_frametype_CwasmEntryFrame" 1 d.cwasm_entry_frame
  let d := { d with cwasm_entry_frame := r.2 }
  let r ← read_memory env "v8dbg_frametype_ConstructEntryFrame" 1 d.construct_entry_frame
  let d := { d with construct_entry_frame := r.2 }
  let r ← read_memory env "v8dbg_frametype_ConstructFrame" 1 d.construct_frame
  let d := { d with construct_frame := r.2 }
  let r ← read_memory env "v8dbg_frametype_EntryFrame" 1 d.entry_frame
  let d := { d with entry_frame := r.2 }
  let r ← read_memory env "v8dbg_frametype_ExitFrame" 1 d.exit_frame
  let d := { d with exit_frame := r.2 }
  let r ← read_memory env "v8dbg_frametype_InternalFrame" 1 d.internal_frame
  let d := { d with internal_frame := r.2 }
  let r ← read_memory env "v8dbg_frametype_InterpretedFrame" 1 d.interpreted_frame
  let d := { d with interpreted_frame := r.2 }
  return d

-- Slice of fn get_v8_data: the probes populating `frame_type`, second half.
def probe_frame_type_b (env : Env) (d : FrameType) : Option FrameType := do
  let r ← read_memory env "v8dbg_frametype_JavaScriptBuiltinContinuationFrame" 1 d.java_script_builtin_continuation_frame
  let d := { d with java_script_builtin_continuation_frame := r.2 }
  let r ← read_memory env "v8dbg_frametype_JavaScriptBuiltinContinuationWithCatchFrame" 1 d.java_script_builtin_continuation_with_catch_frame
  let d := { d with java_script_builtin_continuation_with_catch_frame := r.2 }
  let r ← read_memory env "v8dbg_frametype_JavaScriptFrame" 1 d.java_script_frame
  let d := { d with java_script_frame := r.2 }
  let r ← read_memory env "v8dbg_frametype_JsToWasmFrame" 1 d.js_to_wasm_frame
  let d := { d with js_to_wasm_frame := r.2 }
  let r ← read_memory env "v8dbg_frametype_NativeFrame" 1 d.native_frame
  let d := { d with native_frame := r.2 }
  let r ← read_memory env "v8dbg_frametype_OptimizedFrame" 1 d.optimized_frame
  let d := { d with optimized_frame := r.2 }
  let r ← read_memory env "v8dbg_frametype_StubFrame" 1 d.stub_frame
  let d := { d with stub_frame := r.2 }
  let r ← read_memory env "v8dbg_frametype_WasmCompileLazyFrame" 1 d.wasm_compile_lazy_frame
  let d := { d with wasm_compile_lazy_frame := r.2 }
  let r ← read_memory env "v8dbg_frametype_WasmCompiledFrame" 1 d.wasm_compiled_frame
  let d := { d with wasm_compiled_frame := r.2 }
  let r ← read_memory env "v8dbg_frametype_WasmExitFrame" 1 d.wasm_exit_frame
  let d := { d with wasm_exit_frame := r.2 }
  let r ← read_memory env "v8dbg_frametype_WasmInterpreterEntryFrame" 1 d.wasm_interpreter_entry_frame
  let d := { d with wasm_interpreter_entry_frame := r.2 }
  let r ← read_memory env "v8dbg_frametype_WasmToJsFrame" 1 d.wasm_to_js_frame
  let d := { d with wasm_to_js_frame := r.2 }
  return d

-- Slice of fn get_v8_data: all frame-type probes, in source order.
def probe_frame_type (env : Env) (d : FrameType) : Option FrameType := do
  let d ← probe_frame_type_a env d
  probe_frame_type_b env d

-- Slice of fn get_v8_data: the probes populating `typ`.
def probe_typ (env : Env) (d : Typ) : Option Typ := do
  let r ← read_memory env "v8dbg_type_BaselineData__BASELINE_DATA_TYPE" 2 d.baseline_data
  let d := { d with baseline_data := r.2 }
  let r ← read_memory env "v8dbg_type_ByteArray__BYTE_ARRAY_TYPE" 2 d.byte_array
  let d := { d with byte_array := r.2 }
  let r ← read_memory env "v8dbg_type_BytecodeArray__BYTECODE_ARRAY_TYPE" 2 d.bytecode_array
  let d := { d with bytecode_array := r.2 }
  let r ← read_memory env "v8dbg_type_Code__CODE_TYPE" 2 d.code
  let d := { d with code := r.2 }
  let r ← read_memory env "v8dbg_type_FixedArray__FIXED_ARRAY_TYPE" 2 d.fixed_array
  let d := { d with fixed_array := r.2 }
  let r ← read_memory env "v8dbg_type_WeakFixedArray__WEAK_FIXED_ARRAY_TYPE" 2 d.weak_fixed_array
  let d := { d with weak_fixed_array := r.2 }
  let r ← read_memory env "v8dbg_type_JSFunction__JS_FUNCTION_TYPE" 2 d.js_function
  let d := { d with js_function := r.2 }
  let r ← read_memory env "v8dbg_type_Map__MAP_TYPE" 2 d.map
  let d := { d with map := r.2 }
  let r ← read_memory env "v8dbg_type_Script__SCRIPT_TYPE" 2 d.script
  let d := { d with script := r.2 }
  let r ← read_memory env "v8dbg_type_ScopeInfo__SCOPE_INFO_TYPE" 2 d.scope_info
  let d := { d with scope_info := r.2 }
  let r ← read_memory env "v8dbg_type_SharedFunctionInfo__SHARED_FUNCTION_INFO_TYPE" 2 d.shared_function_info
  let d := { d with shared_function_info := r.2 }
  return d

-- Slice of fn get_v8_data: the probes populating `heap_object`.
def probe_heap_object (env : Env) (d : HeapObject) : Option HeapObject := do
  let r ← read_memory env "v8dbg_class_HeapObject__map__Map" 2 d.map
  let d := { d with map := r.2 }
  return d

-- Slice of fn get_v8_data: the probes populating `map`.
def probe_map (env : Env) (d : Map) : Option Map := do
  let r ← read_memory env "v8dbg_class_Map__instance_type__uint16_t" 2 d.instance_type
  let d := { d with instance_type := r.2 }
  return d

-- Slice of fn get_v8_data: the probes populating `fixed_array_base`.
def probe_fixed_array_base (env : Env) (d : FixedArrayBase) : Option FixedArrayBase := do
  let r ← read_memory env "v8dbg_class_FixedArrayBase__length__SMI" 2 d.length
  let d := { d with length := r.2 }
  return d

-- Slice of fn get_v8_data: the probes populating `fixed_array`.
def probe_fixed_array (env : Env) (d : FixedArray) : Option FixedArray := do
  let r ← read_memory env "v8dbg_class_FixedArray__data__uintptr_t" 2 d.data
  let d := { d with data := r.2 }
  return d

-- Slice of fn get_v8_data: the probes populating `string`.
def probe_string (env : Env) (d : VmString) : Option VmString := do
  let r ← read_memory env "v8dbg_class_String__length__int32_t" 2 d.length
  let d := { d with length := r.2 }
  return d

-- Slice of fn get_v8_data: the probes populating `seq_one_byte_string`.
def probe_seq_one_byte_string (env : Env) (d : SeqOneByteString) : Option SeqOneByteString := do
  let r ← read_memory env "v8dbg_class_SeqOneByteString__chars__char" 2 d.chars
  let d := { d with chars := r.2 }
  return d

-- Slice of fn get_v8_data: the probes populating `seq_two_byte_string`.
def probe_seq_two_byte_string (env : Env) (d : SeqTwoByteString) : Option SeqTwoByteString := do
  let r ← read_memory env "v8dbg_class_SeqTwoByteString__chars__char" 2 d.chars
  let d := { d with chars := r.2 }
  return d

-- Slice of fn get_v8_data: the probes populating `cons_string`.
def probe_cons_string (env : Env) (d : ConsString) : Option ConsString := do
  let r ← read_memory env "v8dbg_class_ConsString__first__String" 2 d.first
  let d := { d with first := r.2 }
  let r ← read_memory env "v8dbg_class_ConsString__second__String" 2 d.second
  let d := { d with second := r.2 }
  return d

-- Slice of fn get_v8_data: the probes populating `thin_string`.
def probe_thin_string (env : Env) (d : ThinString) : Option ThinString := do
  let r ← read_memory env "v8dbg_class_ThinString__actual__String" 2 d.actual
  let d := { d with actual := r.2 }
  return d

-- Slice of fn get_v8_data: the probes populating `jsfunction`.
def probe_jsfunction (env : Env) (d : JSFunction) : Option JSFunction := do
  let r ← read_memory env "v8dbg_class_JSFunction__code__Code" 2 d.code
  let d := { d with code := r.2 }
  let d ← if r.1 then pure d else do
    let r ← read_memory env "v8dbg_class_JSFunction__code__Tagged_Code_" 2 d.code
    pure { d with code := r.2 }
  let r ← read_memory env "v8dbg_class_JSFunction__shared__SharedFunctionInfo" 2 d.shared_function_info
  let d := { d with shared_function_info := r.2 }
  return d

-- Slice of fn get_v8_data: the probes populating `code`.
def probe_code (env : Env) (d : Code) : Option Code := do
  let r ← read_memory env "v8dbg_class_Code__deoptimization_data__FixedArray" 2 d.deoptimization_data
  let d := { d with deoptimization_data := r.2 }
  let d ← if r.1 then pure d else do
    let r ← read_memory env "v8dbg_class_Code__deoptimization_data__Tagged_FixedArray_" 2 d.deoptimization_data
    pure { d with deoptimization_data := r.2 }
  let r ← read_memory env "v8dbg_class_Code__source_position_table__ByteArray" 2 d.source_position_table
  let d := { d with source_position_table := r.2 }
  let d ← if r.1 then pure d else do
    let r ← read_memory env "v8dbg_class_Code__source_position_table__Tagged_ByteArray_" 2 d.source_position_table
    pure { d with source_position_table := r.2 }
  let r ← read_memory env "v8dbg_class_Code__instruction_start__uintptr_t" 2 d.instruction_start
  let d := { d with instruction_start := r.2 }
  let d ← if r.1 then pure d else do
    let r ← read_memory env "v8dbg_class_Code__instruction_start__Address" 2 d.instruction_start
    pure { d with instruction_start := r.2 }
  let r ← read_memory env "v8dbg_class_Code__instruction_size__int" 2 d.instruction_size
  let d := { d with instruction_size := r.2 }
  let r ← read_memory env "v8dbg_class_Code__flags__uint32_t" 2 d.flags
  let d := { d with flags := r.2 }
  return d

-- Slice of fn get_v8_data: the probes populating `shared_function_info`.
def probe_shared_function_info (env : Env) (d : SharedFunctionInfo) : Option SharedFunctionInfo := do
  let r ← read_memory env "v8dbg_class_SharedFunctionInfo__name_or_scope_info__Object" 2 d.name_or_scope_info
  let d := { d with name_or_scope_info := r.2 }
  let d ← if r.1 then pure d else do
    let r ← read_memory env "v8dbg_class_SharedFunctionInfo__name_or_scope_info__Tagged_Object_" 2 d.name_or_scope_info
    pure { d with name_or_scope_info := r.2 }
  let r ← read_memory env "v8dbg_class_SharedFunctionInfo__function_data__Object" 2 d.function_data
  let d := { d with function_data := r.2 }
  let d ← if r.1 then pure d else do
    let r ← read_memory env "v8dbg_class_SharedFunctionInfo__function_data__Tagged_Object_" 2 d.function_data
    pure { d with function_data := r.2 }
  let r ← read_memory env "v8dbg_class_SharedFunctionInfo__script_or_debug_info__Object" 2 d.script_or_debug_info
  let d := { d with script_or_debug_info := r.2 }
  let d ← if r.1 then pure d else do
    let r ← read_memory env "v8dbg_class_SharedFunctionInfo__script_or_debug_info__HeapObject" 2 d.script_or_debug_info
    let d := { d with script_or_debug_info := r.2 }
    if r.1 then pure d else do
      let r ← read_memory env "v8dbg_class_SharedFunctionInfo__script_or_debug_info__Tagged_HeapObject_" 2 d.script_or_debug_info
      pure { d with script_or_debug_info := r.2 }
  return d

-- Slice of fn get_v8_data: the probes populating `baseline_data`.
def probe_baseline_data (env : Env) (d : BaselineData) : Option BaselineData := do
  let r ← read_memory env "v8dbg_class_BaselineData__data__Object" 2 d.data
  let d := { d with data := r.2 }
  return d

-- Slice of fn get_v8_data: the probes populating `bytecode_array`.
def probe_bytecode_array (env : Env) (d : BytecodeArray) : Option BytecodeArray := do
  let r ← read_memory env "v8dbg_class_BytecodeArray__source_position_table__Object" 2 d.source_position_table
  let d := { d with source_position_table := r.2 }
  let d ← if r.1 then pure d else do
    let r ← read_memory env "v8dbg_class_BytecodeArray__source_position_table__Tagged_HeapObject_" 2 d.source_position_table
    pure { d with source_position_table := r.2 }
  let r ← read_memory env "v8dbg_class_BytecodeArray__data__uintptr_t" 2 d.data
  let d := { d with data := r.2 }
  return d

-- Slice of fn get_v8_data: the probes populating `scope_info`.
def probe_scope_info (env : Env) (d : ScopeInfo) : Option ScopeInfo := do
  let d := if (env.getSymbol "v8dbg_parent_ScopeInfo__HeapObject").isSome then
    { d with heap_object := true } else d
  return d

-- Slice of fn get_v8_data: the probes populating `deoptimization_literal_array`.
def probe_deoptimization_literal_array (env : Env) (d : DeoptimizationLiteralArray) : Option DeoptimizationLiteralArray := do
  let d := if (env.getSymbol "v8dbg_parent_DeoptimizationLiteralArray__WeakFixedArray").isSome then
    { d with weak_fixed_array := true } else d
  return d

-- Slice of fn get_v8_data: the probes populating `script`.
def probe_script (env : Env) (d : Script) : Option Script := do
  let r ← read_memory env "v8dbg_class_Script__name__Object" 2 d.name
  let d := { d with name := r.2 }
  let r ← read_memory env "v8dbg_class_Script__line_ends__Object" 2 d.line_ends
  let d := { d with line_ends := r.2 }
  let r ← read_memory env "v8dbg_class_Script__source__Object" 2 d.source
  let d := { d with source := r.2 }
  return d

-- fn get_v8_data: the full catalogue population, in the source's probe
-- order (grouped by the sub-record each run of probes populates),
-- including the legacy-name fallback chains and the two presence-only
-- marker symbols.  `none` models the unreachable unsupported-width panic.
-- Slice of fn get_v8_data: stitching, part 1.
def get_v8_data_a (env : Env) (d : VMData) : Option VMData := do
  let g ← probe_fixed env d.fixed
  let d := { d with fixed := g }
  let g ← probe_frame_pointer env d.frame_pointer
  let d := { d with frame_pointer := g }
  let g ← probe_scope_info_index env d.scope_info_index
  let d := { d with scope_info_index := g }
  let g ← probe_deoptimization_data_index env d.deoptimization_data_index
  let d := { d with deoptimization_data_index := g }
  let g ← probe_code_kind env d.code_kind
  let d := { d with code_kind := g }
  let g ← probe_frame_type env d.frame_type
  let d := { d with frame_type := g }
  let g ← probe_typ env d.typ
  let d := { d with typ := g }
  let g ← probe_heap_object env d.heap_object
  let d := { d with heap_object := g }
  return d

-- Slice of fn get_v8_data: stitching, part 2.
def get_v8_data_b (env : Env) (d : VMData) : Option VMData := do
  let g ← probe_map env d.map
  let d := { d with map := g }
  let g ← probe_fixed_array_base env d.fixed_array_base
  let d := { d with fixed_array_base := g }
  let g ← probe_fixed_array env d.fixed_array
  let d := { d with fixed_array := g }
  let g ← probe_string env d.string
  let d := { d with string := g }
  let g ← probe_seq_one_byte_string env d.seq_one_byte_string
  let d := { d with seq_one_byte_string := g }
  let g ← probe_seq_two_byte_string env d.seq_two_byte_string
  let d := { d with seq_two_byte_string := g }
  let g ← probe_cons_string env d.cons_string
  let d := { d with cons_string := g }
  let g ← probe_thin_string env d.thin_string
  let d := { d with thin_string := g }
  return d

-- Slice of fn get_v8_data: stitching, part 3.
def get_v8_data_c (env : Env) (d : VMData) : Option VMData := do
  let g ← probe_jsfunction env d.jsfunction
  let d := { d with jsfunction := g }
  let g ← probe_code env d.code
  let d := { d with code := g }
  let g ← probe_shared_function_info env d.shared_function_info
  let d := { d with shared_function_info := g }
  let g ← probe_baseline_data env d.baseline_data
  let d := { d with baseline_data := g }
  let g ← probe_bytecode_array env d.bytecode_array
  let d := { d with bytecode_array := g }
  let g ← probe_scope_info env d.scope_info
  let d := { d with scope_info := g }
  let g ← probe_deoptimization_literal_array env d.deoptimization_literal_array
  let d := { d with deoptimization_literal_array := g }
  let g ← probe_script env d.script
  let d := { d with script := g }
  return d

-- fn get_v8_data: the full catalogue population, in the source's probe
-- order (grouped by the sub-record each run of probes populates),
-- including the legacy-name fallback chains and the two presence-only
-- marker symbols.  `none` models the unreachable unsupported-width panic.
def get_v8_data (env : Env) : Option VMData := do
  let d : VMData := default
  let d ← get_v8_data_a env d
  let d ← get_v8_data_b env d
  get_v8_data_c env d


-- Backfill rule: `if vms.frame_pointer.bytecode_array == 0` (v8_spy.rs:259).
def rule_fp_bytecode_array (ver : Nat) (v : VMData) : VMData :=
  if v.frame_pointer.bytecode_array = 0 then
    if v8_ver 8 7 198 ≤ ver then
      { v with frame_pointer.bytecode_array := sub8 v.frame_pointer.function (2 * pointer_size) }
    else
      { v with frame_pointer.bytecode_array := sub8 v.frame_pointer.function (1 * pointer_size) }
  else v

-- Backfill rule: `if vms.frame_pointer.bytecode_offset == 0` (v8_spy.rs:267).
def rule_fp_bytecode_offset (v : VMData) : VMData :=
  if v.frame_pointer.bytecode_offset = 0 then
    { v with frame_pointer.bytecode_offset := sub8 v.frame_pointer.bytecode_array pointer_size }
  else v

-- Backfill rule: `if vms.fixed.first_jsfunction_type == 0` (v8_spy.rs:271).
def rule_jsfunction_type (ver : Nat) (v : VMData) : VMData :=
  if v.fixed.first_jsfunction_type = 0 then
    { v with
        fixed.first_jsfunction_type := v.typ.js_function,
        fixed.last_jsfunction_type := sub16 (add16 v.typ.js_function
            (if v8_ver 9 6 138 ≤ ver then 15
             else if v8_ver 9 0 14 ≤ ver then 14 else 1)) 1 }
  else v

-- Backfill rule: `if vms.jsfunction.code == 0` (v8_spy.rs:286).
def rule_jsfunction_code (ver : Nat) (v : VMData) : VMData :=
  if v.jsfunction.code = 0 then
    if v8_ver 11 7 368 ≤ ver then
      { v with jsfunction.code := sub16 v.jsfunction.shared_function_info pointer_size }
    else
      { v with jsfunction.code := add16 v.jsfunction.shared_function_info (3 * pointer_size) }
  else v

-- Backfill rule: the `if vms.code.instruction_size != 0` block (v8_spy.rs:294),
-- decomposed into its sequential sub-steps.
def rule_code_then_spt (v : VMData) : VMData :=
  if v.code.source_position_table = 0 then
    { v with code.source_position_table := sub16 v.code.instruction_size (2 * pointer_size) }
  else v

def rule_code_then_flags (v : VMData) : VMData :=
  if v.code.flags = 0 then
    { v with code.flags := add16 v.code.instruction_size (2 * 4) }
  else v

def rule_code_else_deopt (v : VMData) : VMData :=
  if v.code.deoptimization_data = 0 then
    { v with code.deoptimization_data := sub16 v.code.source_position_table pointer_size }
  else v

def rule_code_else_start (v : VMData) : VMData :=
  if v.code.instruction_start = 0 then
    { v with code.instruction_start := add16 v.code.source_position_table (2 * pointer_size) }
  else v

def rule_code_else_flags (v : VMData) : VMData :=
  if v.code.flags = 0 then
    { v with code.flags := add16 v.code.instruction_start pointer_size }
  else v

def rule_code_else_size (ver : Nat) (v : VMData) : VMData :=
  if v.code.instruction_size = 0 then
    { v with code.instruction_size := if v8_ver 11 4 59 ≤ ver then add16 (add16 v.code.flags 4) (2 + 2)
        else add16 v.code.flags 4 }
  else v

def rule_code (ver : Nat) (v : VMData) : VMData :=
  if v.code.instruction_size ≠ 0 then
    rule_code_then_flags (rule_code_then_spt v)
  else if v.code.source_position_table ≠ 0 then
    rule_code_else_size ver
      (rule_code_else_flags (rule_code_else_start (rule_code_else_deopt v)))
  else v

-- Backfill rule: the standalone deoptimization-data derivation (v8_spy.rs:324).
def rule_code_deopt (v : VMData) : VMData :=
  if v.code.deoptimization_data = 0 ∧ v.code.source_position_table ≠ 0 then
    { v with code.deoptimization_data := sub16 v.code.source_position_table pointer_size }
  else v

-- Backfill rule: `if vms.script.source == 0` (v8_spy.rs:329).
def rule_script_source (v : VMData) : VMData :=
  if v.script.source = 0 then
    { v with script.source := sub16 v.script.name pointer_size }
  else v

-- Backfill rule: `if vms.bytecode_array.source_position_table == 0`
-- (v8_spy.rs:333).
def rule_ba_spt (v : VMData) : VMData :=
  if v.bytecode_array.source_position_table = 0 then
    { v with bytecode_array.source_position_table := add16 v.fixed_array_base.length (3 * pointer_size) }
  else v

-- Backfill rule: `if vms.bytecode_array.data == 0` (v8_spy.rs:337).
def rule_ba_data (v : VMData) : VMData :=
  if v.bytecode_array.data = 0 then
    { v with bytecode_array.data := add16 (add16 v.bytecode_array.source_position_table pointer_size) 14 }
  else v

-- Backfill rules for the deoptimization-data slot indices (v8_spy.rs:341-354).
def rule_deopt_inlined_function_count (v : VMData) : VMData :=
  if v.deoptimization_data_index.inlined_function_count = 0 then
    { v with deoptimization_data_index.inlined_function_count := 1 }
  else v

def rule_deopt_literal_array (v : VMData) : VMData :=
  if v.deoptimization_data_index.literal_array = 0 then
    { v with deoptimization_data_index.literal_array := add8 v.deoptimization_data_index.inlined_function_count 1 }
  else v

def rule_deopt_shared_function_info (v : VMData) : VMData :=
  if v.deoptimization_data_index.shared_function_info = 0 then
    { v with deoptimization_data_index.shared_function_info := 6 }
  else v

def rule_deopt_inlining_positions (v : VMData) : VMData :=
  if v.deoptimization_data_index.inlining_positions = 0 then
    { v with deoptimization_data_index.inlining_positions := add8 v.deoptimization_data_index.shared_function_info 1 }
  else v

-- Backfill rule: `if vms.code_kind.baseline == 0` (v8_spy.rs:355).
def rule_code_kind (ver : Nat) (v : VMData) : VMData :=
  if v.code_kind.baseline = 0 then
    if v8_ver 9 0 240 ≤ ver then
      { v with code_kind.field_mask := 15, code_kind.field_shift := 0,
               code_kind.baseline := 11 }
    else
      { v with code_kind.baseline := 255 }
  else v

-- Backfill rule: `if vms.baseline_data.data == 0 && ... != 0` (v8_spy.rs:367).
def rule_baseline_data (v : VMData) : VMData :=
  if v.baseline_data.data = 0 ∧ v.code_kind.field_mask ≠ 0 then
    { v with baseline_data.data := add16 v.heap_object.map (2 * pointer_size) }
  else v

-- The Backfill Engine: the ordered rule sequence of V8Spy::new
-- (v8_spy.rs:258-370) applied to the probed catalogue.
def backfill (ver : Nat) (v : VMData) : VMData :=
  rule_baseline_data (rule_code_kind ver
    (rule_deopt_inlining_positions (rule_deopt_shared_function_info
      (rule_deopt_literal_array (rule_deopt_inlined_function_count
        (rule_ba_data (rule_ba_spt (rule_script_source (rule_code_deopt
          (rule_code ver (rule_jsfunction_code ver (rule_jsfunction_type ver
            (rule_fp_bytecode_offset (rule_fp_bytecode_array ver v))))))))))))))

-- Code-level mirrors of the code-group rules: each acts on the Code
-- sub-record exactly as the corresponding VMData rule does; the bridge
-- lemmas below relate the two and backfill_code factors the whole pass.
def code_then_spt (c : Code) : Code :=
  if c.source_position_table = 0 then
    { c with source_position_table := sub16 c.instruction_size (2 * pointer_size) }
  else c

def code_then_flags (c : Code) : Code :=
  if c.flags = 0 then { c with flags := add16 c.instruction_size (2 * 4) } else c

def code_else_deopt (c : Code) : Code :=
  if c.deoptimization_data = 0 then
    { c with deoptimization_data := sub16 c.source_position_table pointer_size }
  else c

def code_else_start (c : Code) : Code :=
  if c.instruction_start = 0 then
    { c with instruction_start := add16 c.source_position_table (2 * pointer_size) }
  else c

def code_else_flags (c : Code) : Code :=
  if c.flags = 0 then { c with flags := add16 c.instruction_start pointer_size } else c

def code_else_size (ver : Nat) (c : Code) : Code :=
  if c.instruction_size = 0 then
    { c with instruction_size := if v8_ver 11 4 59 ≤ ver then add16 (add16 c.flags 4) (2 + 2) else add16 c.flags 4 }
  else c

def code_rule (ver : Nat) (c : Code) : Code :=
  if c.instruction_size ≠ 0 then
    code_then_flags (code_then_spt c)
  else if c.source_position_table ≠ 0 then
    code_else_size ver (code_else_flags (code_else_start (code_else_deopt c)))
  else c

def code_deopt_rule (c : Code) : Code :=
  if c.deoptimization_data = 0 ∧ c.source_position_table ≠ 0 then
    { c with deoptimization_data := sub16 c.source_position_table pointer_size }
  else c

def code_pass (ver : Nat) (c : Code) : Code := code_deopt_rule (code_rule ver c)


-- pub struct V8Spy: the value returned to the caller (the `process` handle
-- carries no layout data and is omitted; `version` is the struct Version).
structure V8Spy where
  pid : Nat
  version : Version
deriving DecidableEq, Inhabited, Repr

-- The outcome of V8Spy::new: `ok` models `Ok(Self {..})`, `errOpen` the
-- failure of `remoteprocess::Process::new`, `errInfo` the failure of
-- `ProcessInfo::new`, and `panicked` an uncaught panic (the `.unwrap()` in
-- get_v8_version or the unsupported-width branch of read_memory).
inductive NewResult where
  | ok (spy : V8Spy)
  | errOpen
  | errInfo
  | panicked
deriving DecidableEq, Inhabited, Repr

-- fn V8Spy::new (v8_spy.rs:237-373): open the process, build the process
-- info, read the version, probe the catalogue, run the backfill (the result
-- of which is printed and dropped), and return pid, process and version.
def v8spy_new (pid : Nat) (env : Env) : NewResult :=
  if env.openOk then
    if env.infoOk then
      match get_v8_version env with
      | none => .panicked
      | some version =>
        match get_v8_data env with
        | none => .panicked
        | some vms =>
          let ver := v8_ver version.major version.minor version.build
          let _vms := backfill ver vms
          .ok { pid := pid, version := version }
    else .errInfo
  else .errOpen

-- The packed ordinal as used by the driver (v8_spy.rs:255): the patch
-- component of the version does not enter it.
def packed_ordinal (vv : Version) : Nat := v8_ver vv.major vv.minor vv.build

-- Lexicographic order on (major, minor, build) triples, as the spec uses it.
def lex_lt (a b : Nat × Nat × Nat) : Prop :=
  a.1 < b.1 ∨ (a.1 = b.1 ∧ (a.2.1 < b.2.1 ∨ (a.2.1 = b.2.1 ∧ a.2.2 < b.2.2)))

instance (a b : Nat × Nat × Nat) : Decidable (lex_lt a b) := by
  unfold lex_lt
  infer_instance

-- The four mangled version symbol names read by get_v8_version.
def version_symbol_names : List String :=
  ["_ZN2v88internal7Version6major_E", "_ZN2v88internal7Version6minor_E",
   "_ZN2v88internal7Version6build_E", "_ZN2v88internal7Version6patch_E"]

-- A target in which no symbol at all resolves.
def env_missing_all : Env :=
  { openOk := true, infoOk := true, getSymbol := fun _ => none,
    readAddr := fun _ => none }

-- A target in which every symbol resolves (version symbols at addresses
-- 1000-1003, all others at 0) but every memory read fails.
def env_reads_fail : Env :=
  { openOk := true, infoOk := true,
    getSymbol := fun s =>
      if s = "_ZN2v88internal7Version6major_E" then some 1000
      else if s = "_ZN2v88internal7Version6minor_E" then some 1001
      else if s = "_ZN2v88internal7Version6build_E" then some 1002
      else if s = "_ZN2v88internal7Version6patch_E" then some 1003
      else some 0,
    readAddr := fun _ => none }

-- A family of targets: every symbol resolves, the version components all
-- read as 9, and every other symbol's memory reads as the parameter x.
def env_probe_values (x : Nat) : Env :=
  { openOk := true, infoOk := true,
    getSymbol := fun s =>
      if s = "_ZN2v88internal7Version6major_E" then some 1000
      else if s = "_ZN2v88internal7Version6minor_E" then some 1001
      else if s = "_ZN2v88internal7Version6build_E" then some 1002
      else if s = "_ZN2v88internal7Version6patch_E" then some 1003
      else some 0,
    readAddr := fun a => if 1000 ≤ a then some 9 else some x }

-- A probed catalogue whose code-kind field mask and shift are non-sentinel
-- but whose baseline tag is still at the sentinel.
def vms_ck_probed : VMData :=
  { (default : VMData) with code_kind.field_mask := 31, code_kind.field_shift := 3 }

-- A probed catalogue exercising the u16 wrap-around in the recovery branch
-- of the Code rules: source position table probed as 0xFFE8.
def vms_c8 : VMData :=
  { (default : VMData) with code.source_position_table := 65512 }

-- A probed catalogue with a known base JS-function instance-type tag.
def vms_c7 : VMData := { (default : VMData) with typ.js_function := 1057 }

-- A probed catalogue with a non-sentinel frame-pointer bytecode-array slot
-- and a non-sentinel code-kind group.
def vms_c1w : VMData :=
  { (default : VMData) with frame_pointer.bytecode_array := 7, code_kind.baseline := 5, code_kind.field_mask := 31 }

-- Projections distribute over if-then-else: one push lemma per field,
-- so that simp can compute any projection of the backfill pipeline.
@[simp] theorem ite_VMData_fixed (P : Prop) [Decidable P] (a b : VMData) : (if P then a else b).fixed = if P then a.fixed else b.fixed := apply_ite (fun s : VMData => s.fixed) P a b

@[simp] theorem ite_VMData_frame_pointer (P : Prop) [Decidable P] (a b : VMData) : (if P then a else b).frame_pointer = if P then a.frame_pointer else b.frame_pointer := apply_ite (fun s : VMData => s.frame_pointer) P a b

@[simp] theorem ite_VMData_scope_info_index (P : Prop) [Decidable P] (a b : VMData) : (if P then a else b).scope_info_index = if P then a.scope_info_index else b.scope_info_index := apply_ite (fun s : VMData => s.scope_info_index) P a b

@[simp] theorem ite_VMData_deoptimization_data_index (P : Prop) [Decidable P] (a b : VMData) : (if P then a else b).deoptimization_data_index = if P then a.deoptimization_data_index else b.deoptimization_data_index := apply_ite (fun s : VMData => s.deoptimization_data_index) P a b

@[simp] theorem ite_VMData_code_kind (P : Prop) [Decidable P] (a b : VMData) : (if P then a else b).code_kind = if P then a.code_kind else b.code_kind := apply_ite (fun s : VMData => s.code_kind) P a b

@[simp] theorem ite_VMData_frame_type (P : Prop) [Decidable P] (a b : VMData) : (if P then a else b).frame_type = if P then a.frame_type else b.frame_type := apply_ite (fun s : VMData => s.frame_type) P a b

@[simp] theorem ite_VMData_typ (P : Prop) [Decidable P] (a b : VMData) : (if P then a else b).typ = if P then a.typ else b.typ := apply_ite (fun s : VMData => s.typ) P a b

@[simp] theorem ite_VMData_heap_object (P : Prop) [Decidable P] (a b : VMData) : (if P then a else b).heap_object = if P then a.heap_object else b.heap_object := apply_ite (fun s : VMData => s.heap_object) P a b

@[simp] theorem ite_VMData_map (P : Prop) [Decidable P] (a b : VMData) : (if P then a else b).map = if P then a.map else b.map := apply_ite (fun s : VMData => s.map) P a b

@[simp] theorem ite_VMData_fixed_array_base (P : Prop) [Decidable P] (a b : VMData) : (if P then a else b).fixed_array_base = if P then a.fixed_array_base else b.fixed_array_base := apply_ite (fun s : VMData => s.fixed_array_base) P a b

@[simp] theorem ite_VMData_fixed_array (P : Prop) [Decidable P] (a b : VMData) : (if P then a else b).fixed_array = if P then a.fixed_array else b.fixed_array := apply_ite (fun s : VMData => s.fixed_array) P a b

@[simp] theorem ite_VMData_string (P : Prop) [Decidable P] (a b : VMData) : (if P then a else b).string = if P then a.string else b.string := apply_ite (fun s : VMData => s.string) P a b

@[simp] theorem ite_VMData_seq_one_byte_string (P : Prop) [Decidable P] (a b : VMData) : (if P then a else b).seq_one_byte_string = if P then a.seq_one_byte_string else b.seq_one_byte_string := apply_ite (fun s : VMData => s.seq_one_byte_string) P a b

@[simp] theorem ite_VMData_seq_two_byte_string (P : Prop) [Decidable P] (a b : VMData) : (if P then a else b).seq_two_byte_string = if P then a.seq_two_byte_string else b.seq_two_byte_string := apply_ite (fun s : VMData => s.seq_two_byte_string) P a b

@[simp] theorem ite_VMData_cons_string (P : Prop) [Decidable P] (a b : VMData) : (if P then a else b).cons_string = if P then a.cons_string else b.cons_string := apply_ite (fun s : VMData => s.cons_string) P a b

@[simp] theorem ite_VMData_thin_string (P : Prop) [Decidable P] (a b : VMData) : (if P then a else b).thin_string = if P then a.thin_string else b.thin_string := apply_ite (fun s : VMData => s.thin_string) P a b

@[simp] theorem ite_VMData_jsfunction (P : Prop) [Decidable P] (a b : VMData) : (if P then a else b).jsfunction = if P then a.jsfunction else b.jsfunction := apply_ite (fun s : VMData => s.jsfunction) P a b

@[simp] theorem ite_VMData_code (P : Prop) [Decidable P] (a b : VMData) : (if P then a else b).code = if P then a.code else b.code := apply_ite (fun s : VMData => s.code) P a b

@[simp] theorem ite_VMData_shared_function_info (P : Prop) [Decidable P] (a b : VMData) : (if P then a else b).shared_function_info = if P then a.shared_function_info else b.shared_function_info := apply_ite (fun s : VMData => s.shared_function_info) P a b

@[simp] theorem ite_VMData_baseline_data (P : Prop) [Decidable P] (a b : VMData) : (if P then a else b).baseline_data = if P then a.baseline_data else b.baseline_data := apply_ite (fun s : VMData => s.baseline_data) P a b

@[simp] theorem ite_VMData_bytecode_array (P : Prop) [Decidable P] (a b : VMData) : (if P then a else b).bytecode_array = if P then a.bytecode_array else b.bytecode_array := apply_ite (fun s : VMData => s.bytecode_array) P a b

@[simp] theorem ite_VMData_scope_info (P : Prop) [Decidable P] (a b : VMData) : (if P then a else b).scope_info = if P then a.scope_info else b.scope_info := apply_ite (fun s : VMData => s.scope_info) P a b

@[simp] theorem ite_VMData_deoptimization_literal_array (P : Prop) [Decidable P] (a b : VMData) : (if P then a else b).deoptimization_literal_array = if P then a.deoptimization_literal_array else b.deoptimization_literal_array := apply_ite (fun s : VMData => s.deoptimization_literal_array) P a b

@[simp] theorem ite_VMData_script (P : Prop) [Decidable P] (a b : VMData) : (if P then a else b).script = if P then a.script else b.script := apply_ite (fun s : VMData => s.script) P a b

@[simp] theorem ite_Fixed_heap_object_tag_mask (P : Prop) [Decidable P] (a b : Fixed) : (if P then a else b).heap_object_tag_mask = if P then a.heap_object_tag_mask else b.heap_object_tag_mask := apply_ite (fun s : Fixed => s.heap_object_tag_mask) P a b

@[simp] theorem ite_Fixed_smi_tag_mask (P : Prop) [Decidable P] (a b : Fixed) : (if P then a else b).smi_tag_mask = if P then a.smi_tag_mask else b.smi_tag_mask := apply_ite (fun s : Fixed => s.smi_tag_mask) P a b

@[simp] theorem ite_Fixed_heap_object_tag (P : Prop) [Decidable P] (a b : Fixed) : (if P then a else b).heap_object_tag = if P then a.heap_object_tag else b.heap_object_tag := apply_ite (fun s : Fixed => s.heap_object_tag) P a b

@[simp] theorem ite_Fixed_smi_tag (P : Prop) [Decidable P] (a b : Fixed) : (if P then a else b).smi_tag = if P then a.smi_tag else b.smi_tag := apply_ite (fun s : Fixed => s.smi_tag) P a b

@[simp] theorem ite_Fixed_smi_shift_size (P : Prop) [Decidable P] (a b : Fixed) : (if P then a else b).smi_shift_size = if P then a.smi_shift_size else b.smi_shift_size := apply_ite (fun s : Fixed => s.smi_shift_size) P a b

@[simp] theorem ite_Fixed_first_nonstring_type (P : Prop) [Decidable P] (a b : Fixed) : (if P then a else b).first_nonstring_type = if P then a.first_nonstring_type else b.first_nonstring_type := apply_ite (fun s : Fixed => s.first_nonstring_type) P a b

@[simp] theorem ite_Fixed_string_encoding_mask (P : Prop) [Decidable P] (a b : Fixed) : (if P then a else b).string_encoding_mask = if P then a.string_encoding_mask else b.string_encoding_mask := apply_ite (fun s : Fixed => s.string_encoding_mask) P a b

@[simp] theorem ite_Fixed_string_representation_mask (P : Prop) [Decidable P] (a b : Fixed) : (if P then a else b).string_representation_mask = if P then a.string_representation_mask else b.string_representation_mask := apply_ite (fun s : Fixed => s.string_representation_mask) P a b

@[simp] theorem ite_Fixed_seq_string_tag (P : Prop) [Decidable P] (a b : Fixed) : (if P then a else b).seq_string_tag = if P then a.seq_string_tag else b.seq_string_tag := apply_ite (fun s : Fixed => s.seq_string_tag) P a b

@[simp] theorem ite_Fixed_cons_string_tag (P : Prop) [Decidable P] (a b : Fixed) : (if P then a else b).cons_string_tag = if P then a.cons_string_tag else b.cons_string_tag := apply_ite (fun s : Fixed => s.cons_string_tag) P a b

@[simp] theorem ite_Fixed_one_byte_string_tag (P : Prop) [Decidable P] (a b : Fixed) : (if P then a else b).one_byte_string_tag = if P then a.one_byte_string_tag else b.one_byte_string_tag := apply_ite (fun s : Fixed => s.one_byte_string_tag) P a b

@[simp] theorem ite_Fixed_two_byte_string_tag (P : Prop) [Decidable P] (a b : Fixed) : (if P then a else b).two_byte_string_tag = if P then a.two_byte_string_tag else b.two_byte_string_tag := apply_ite (fun s : Fixed => s.two_byte_string_tag) P a b

@[simp] theorem ite_Fixed_sliced_string_tag (P : Prop) [Decidable P] (a b : Fixed) : (if P then a else b).sliced_string_tag = if P then a.sliced_string_tag else b.sliced_string_tag := apply_ite (fun s : Fixed => s.sliced_string_tag) P a b

@[simp] theorem ite_Fixed_thin_string_tag (P : Prop) [Decidable P] (a b : Fixed) : (if P then a else b).thin_string_tag = if P then a.thin_string_tag else b.thin_string_tag := apply_ite (fun s : Fixed => s.thin_string_tag) P a b

@[simp] theorem ite_Fixed_first_jsfunction_type (P : Prop) [Decidable P] (a b : Fixed) : (if P then a else b).first_jsfunction_type = if P then a.first_jsfunction_type else b.first_jsfunction_type := apply_ite (fun s : Fixed => s.first_jsfunction_type) P a b

@[simp] theorem ite_Fixed_last_jsfunction_type (P : Prop) [Decidable P] (a b : Fixed) : (if P then a else b).last_jsfunction_type = if P then a.last_jsfunction_type else b.last_jsfunction_type := apply_ite (fun s : Fixed => s.last_jsfunction_type) P a b

@[simp] theorem ite_FramePointer_function (P : Prop) [Decidable P] (a b : FramePointer) : (if P then a else b).function = if P then a.function else b.function := apply_ite (fun s : FramePointer => s.function) P a b

@[simp] theorem ite_FramePointer_context (P : Prop) [Decidable P] (a b : FramePointer) : (if P then a else b).context = if P then a.context else b.context := apply_ite (fun s : FramePointer => s.context) P a b

@[simp] theorem ite_FramePointer_bytecode_array (P : Prop) [Decidable P] (a b : FramePointer) : (if P then a else b).bytecode_array = if P then a.bytecode_array else b.bytecode_array := apply_ite (fun s : FramePointer => s.bytecode_array) P a b

@[simp] theorem ite_FramePointer_bytecode_offset (P : Prop) [Decidable P] (a b : FramePointer) : (if P then a else b).bytecode_offset = if P then a.bytecode_offset else b.bytecode_offset := apply_ite (fun s : FramePointer => s.bytecode_offset) P a b

@[simp] theorem ite_ScopeInfoIndex_first_vars (P : Prop) [Decidable P] (a b : ScopeInfoIndex) : (if P then a else b).first_vars = if P then a.first_vars else b.first_vars := apply_ite (fun s : ScopeInfoIndex => s.first_vars) P a b

@[simp] theorem ite_ScopeInfoIndex_ncontext_locals (P : Prop) [Decidable P] (a b : ScopeInfoIndex) : (if P then a else b).ncontext_locals = if P then a.ncontext_locals else b.ncontext_locals := apply_ite (fun s : ScopeInfoIndex => s.ncontext_locals) P a b

@[simp] theorem ite_DeoptimizationDataIndex_inlined_function_count (P : Prop) [Decidable P] (a b : DeoptimizationDataIndex) : (if P then a else b).inlined_function_count = if P then a.inlined_function_count else b.inlined_function_count := apply_ite (fun s : DeoptimizationDataIndex => s.inlined_function_count) P a b

@[simp] theorem ite_DeoptimizationDataIndex_literal_array (P : Prop) [Decidable P] (a b : DeoptimizationDataIndex) : (if P then a else b).literal_array = if P then a.literal_array else b.literal_array := apply_ite (fun s : DeoptimizationDataIndex => s.literal_array) P a b

@[simp] theorem ite_DeoptimizationDataIndex_shared_function_info (P : Prop) [Decidable P] (a b : DeoptimizationDataIndex) : (if P then a else b).shared_function_info = if P then a.shared_function_info else b.shared_function_info := apply_ite (fun s : DeoptimizationDataIndex => s.shared_function_info) P a b

@[simp] theorem ite_DeoptimizationDataIndex_inlining_positions (P : Prop) [Decidable P] (a b : DeoptimizationDataIndex) : (if P then a else b).inlining_positions = if P then a.inlining_positions else b.inlining_positions := apply_ite (fun s : DeoptimizationDataIndex => s.inlining_positions) P a b

@[simp] theorem ite_CodeKind_field_mask (P : Prop) [Decidable P] (a b : CodeKind) : (if P then a else b).field_mask = if P then a.field_mask else b.field_mask := apply_ite (fun s : CodeKind => s.field_mask) P a b

@[simp] theorem ite_CodeKind_field_shift (P : Prop) [Decidable P] (a b : CodeKind) : (if P then a else b).field_shift = if P then a.field_shift else b.field_shift := apply_ite (fun s : CodeKind => s.field_shift) P a b

@[simp] theorem ite_CodeKind_baseline (P : Prop) [Decidable P] (a b : CodeKind) : (if P then a else b).baseline = if P then a.baseline else b.baseline := apply_ite (fun s : CodeKind => s.baseline) P a b

@[simp] theorem ite_FrameType_arguments_adaptor_frame (P : Prop) [Decidable P] (a b : FrameType) : (if P then a else b).arguments_adaptor_frame = if P then a.arguments_adaptor_frame else b.arguments_adaptor_frame := apply_ite (fun s : FrameType => s.arguments_adaptor_frame) P a b

@[simp] theorem ite_FrameType_baseline_frame (P : Prop) [Decidable P] (a b : FrameType) : (if P then a else b).baseline_frame = if P then a.baseline_frame else b.baseline_frame := apply_ite (fun s : FrameType => s.baseline_frame) P a b

@[simp] theorem ite_FrameType_builtin_continuation_frame (P : Prop) [Decidable P] (a b : FrameType) : (if P then a else b).builtin_continuation_frame = if P then a.builtin_continuation_frame else b.builtin_continuation_frame := apply_ite (fun s : FrameType => s.builtin_continuation_frame) P a b

@[simp] theorem ite_FrameType_builtin_exit_frame (P : Prop) [Decidable P] (a b : FrameType) : (if P then a else b).builtin_exit_frame = if P then a.builtin_exit_frame else b.builtin_exit_frame := apply_ite (fun s : FrameType => s.builtin_exit_frame) P a b

@[simp] theorem ite_FrameType_builtin_frame (P : Prop) [Decidable P] (a b : FrameType) : (if P then a else b).builtin_frame = if P then a.builtin_frame else b.builtin_frame := apply_ite (fun s : FrameType => s.builtin_frame) P a b

@[simp] theorem ite_FrameType_cwasm_entry_frame (P : Prop) [Decidable P] (a b : FrameType) : (if P then a else b).cwasm_entry_frame = if P then a.cwasm_entry_frame else b.cwasm_entry_frame := apply_ite (fun s : FrameType => s.cwasm_entry_frame) P a b

@[simp] theorem ite_FrameType_construct_entry_frame (P : Prop) [Decidable P] (a b : FrameType) : (if P then a else b).construct_entry_frame = if P then a.construct_entry_frame else b.construct_entry_frame := apply_ite (fun s : FrameType => s.construct_entry_frame) P a b

@[simp] theorem ite_FrameType_construct_frame (P : Prop) [Decidable P] (a b : FrameType) : (if P then a else b).construct_frame = if P then a.construct_frame else b.construct_frame := apply_ite (fun s : FrameType => s.construct_frame) P a b

@[simp] theorem ite_FrameType_entry_frame (P : Prop) [Decidable P] (a b : FrameType) : (if P then a else b).entry_frame = if P then a.entry_frame else b.entry_frame := apply_ite (fun s : FrameType => s.entry_frame) P a b

@[simp] theorem ite_FrameType_exit_frame (P : Prop) [Decidable P] (a b : FrameType) : (if P then a else b).exit_frame = if P then a.exit_frame else b.exit_frame := apply_ite (fun s : FrameType => s.exit_frame) P a b

@[simp] theorem ite_FrameType_internal_frame (P : Prop) [Decidable P] (a b : FrameType) : (if P then a else b).internal_frame = if P then a.internal_frame else b.internal_frame := apply_ite (fun s : FrameType => s.internal_frame) P a b

@[simp] theorem ite_FrameType_interpreted_frame (P : Prop) [Decidable P] (a b : FrameType) : (if P then a else b).interpreted_frame = if P then a.interpreted_frame else b.interpreted_frame := apply_ite (fun s : FrameType => s.interpreted_frame) P a b

@[simp] theorem ite_FrameType_java_script_builtin_continuation_frame (P : Prop) [Decidable P] (a b : FrameType) : (if P then a else b).java_script_builtin_continuation_frame = if P then a.java_script_builtin_continuation_frame else b.java_script_builtin_continuation_frame := apply_ite (fun s : FrameType => s.java_script_builtin_continuation_frame) P a b

@[simp] theorem ite_FrameType_java_script_builtin_continuation_with_catch_frame (P : Prop) [Decidable P] (a b : FrameType) : (if P then a else b).java_script_builtin_continuation_with_catch_frame = if P then a.java_script_builtin_continuation_with_catch_frame else b.java_script_builtin_continuation_with_catch_frame := apply_ite (fun s : FrameType => s.java_script_builtin_continuation_with_catch_frame) P a b

@[simp] theorem ite_FrameType_java_script_frame (P : Prop) [Decidable P] (a b : FrameType) : (if P then a else b).java_script_frame = if P then a.java_script_frame else b.java_script_frame := apply_ite (fun s : FrameType => s.java_script_frame) P a b

@[simp] theorem ite_FrameType_js_to_wasm_frame (P : Prop) [Decidable P] (a b : FrameType) : (if P then a else b).js_to_wasm_frame = if P then a.js_to_wasm_frame else b.js_to_wasm_frame := apply_ite (fun s : FrameType => s.js_to_wasm_frame) P a b

@[simp] theorem ite_FrameType_native_frame (P : Prop) [Decidable P] (a b : FrameType) : (if P then a else b).native_frame = if P then a.native_frame else b.native_frame := apply_ite (fun s : FrameType => s.native_frame) P a b

@[simp] theorem ite_FrameType_optimized_frame (P : Prop) [Decidable P] (a b : FrameType) : (if P then a else b).optimized_frame = if P then a.optimized_frame else b.optimized_frame := apply_ite (fun s : FrameType => s.optimized_frame) P a b

@[simp] theorem ite_FrameType_stub_frame (P : Prop) [Decidable P] (a b : FrameType) : (if P then a else b).stub_frame = if P then a.stub_frame else b.stub_frame := apply_ite (fun s : FrameType => s.stub_frame) P a b

@[simp] theorem ite_FrameType_wasm_compile_lazy_frame (P : Prop) [Decidable P] (a b : FrameType) : (if P then a else b).wasm_compile_lazy_frame = if P then a.wasm_compile_lazy_frame else b.wasm_compile_lazy_frame := apply_ite (fun s : FrameType => s.wasm_compile_lazy_frame) P a b

@[simp] theorem ite_FrameType_wasm_compiled_frame (P : Prop) [Decidable P] (a b : FrameType) : (if P then a else b).wasm_compiled_frame = if P then a.wasm_compiled_frame else b.wasm_compiled_frame := apply_ite (fun s : FrameType => s.wasm_compiled_frame) P a b

@[simp] theorem ite_FrameType_wasm_exit_frame (P : Prop) [Decidable P] (a b : FrameType) : (if P then a else b).wasm_exit_frame = if P then a.wasm_exit_frame else b.wasm_exit_frame := apply_ite (fun s : FrameType => s.wasm_exit_frame) P a b

@[simp] theorem ite_FrameType_wasm_interpreter_entry_frame (P : Prop) [Decidable P] (a b : FrameType) : (if P then a else b).wasm_interpreter_entry_frame = if P then a.wasm_interpreter_entry_frame else b.wasm_interpreter_entry_frame := apply_ite (fun s : FrameType => s.wasm_interpreter_entry_frame) P a b

@[simp] theorem ite_FrameType_wasm_to_js_frame (P : Prop) [Decidable P] (a b : FrameType) : (if P then a else b).wasm_to_js_frame = if P then a.wasm_to_js_frame else b.wasm_to_js_frame := apply_ite (fun s : FrameType => s.wasm_to_js_frame) P a b

@[simp] theorem ite_Typ_baseline_data (P : Prop) [Decidable P] (a b : Typ) : (if P then a else b).baseline_data = if P then a.baseline_data else b.baseline_data := apply_ite (fun s : Typ => s.baseline_data) P a b

@[simp] theorem ite_Typ_byte_array (P : Prop) [Decidable P] (a b : Typ) : (if P then a else b).byte_array = if P then a.byte_array else b.byte_array := apply_ite (fun s : Typ => s.byte_array) P a b

@[simp] theorem ite_Typ_bytecode_array (P : Prop) [Decidable P] (a b : Typ) : (if P then a else b).bytecode_array = if P then a.bytecode_array else b.bytecode_array := apply_ite (fun s : Typ => s.bytecode_array) P a b

@[simp] theorem ite_Typ_code (P : Prop) [Decidable P] (a b : Typ) : (if P then a else b).code = if P then a.code else b.code := apply_ite (fun s : Typ => s.code) P a b

@[simp] theorem ite_Typ_fixed_array (P : Prop) [Decidable P] (a b : Typ) : (if P then a else b).fixed_array = if P then a.fixed_array else b.fixed_array := apply_ite (fun s : Typ => s.fixed_array) P a b

@[simp] theorem ite_Typ_weak_fixed_array (P : Prop) [Decidable P] (a b : Typ) : (if P then a else b).weak_fixed_array = if P then a.weak_fixed_array else b.weak_fixed_array := apply_ite (fun s : Typ => s.weak_fixed_array) P a b

@[simp] theorem ite_Typ_js_function (P : Prop) [Decidable P] (a b : Typ) : (if P then a else b).js_function = if P then a.js_function else b.js_function := apply_ite (fun s : Typ => s.js_function) P a b

@[simp] theorem ite_Typ_map (P : Prop) [Decidable P] (a b : Typ) : (if P then a else b).map = if P then a.map else b.map := apply_ite (fun s : Typ => s.map) P a b

@[simp] theorem ite_Typ_script (P : Prop) [Decidable P] (a b : Typ) : (if P then a else b).script = if P then a.script else b.script := apply_ite (fun s : Typ => s.script) P a b

@[simp] theorem ite_Typ_scope_info (P : Prop) [Decidable P] (a b : Typ) : (if P then a else b).scope_info = if P then a.scope_info else b.scope_info := apply_ite (fun s : Typ => s.scope_info) P a b

@[simp] theorem ite_Typ_shared_function_info (P : Prop) [Decidable P] (a b : Typ) : (if P then a else b).shared_function_info = if P then a.shared_function_info else b.shared_function_info := apply_ite (fun s : Typ => s.shared_function_info) P a b

@[simp] theorem ite_HeapObject_map (P : Prop) [Decidable P] (a b : HeapObject) : (if P then a else b).map = if P then a.map else b.map := apply_ite (fun s : HeapObject => s.map) P a b

@[simp] theorem ite_Map_instance_type (P : Prop) [Decidable P] (a b : Map) : (if P then a else b).instance_type = if P then a.instance_type else b.instance_type := apply_ite (fun s : Map => s.instance_type) P a b

@[simp] theorem ite_FixedArrayBase_length (P : Prop) [Decidable P] (a b : FixedArrayBase) : (if P then a else b).length = if P then a.length else b.length := apply_ite (fun s : FixedArrayBase => s.length) P a b

@[simp] theorem ite_FixedArray_data (P : Prop) [Decidable P] (a b : FixedArray) : (if P then a else b).data = if P then a.data else b.data := apply_ite (fun s : FixedArray => s.data) P a b

@[simp] theorem ite_VmString_length (P : Prop) [Decidable P] (a b : VmString) : (if P then a else b).length = if P then a.length else b.length := apply_ite (fun s : VmString => s.length) P a b

@[simp] theorem ite_SeqOneByteString_chars (P : Prop) [Decidable P] (a b : SeqOneByteString) : (if P then a else b).chars = if P then a.chars else b.chars := apply_ite (fun s : SeqOneByteString => s.chars) P a b

@[simp] theorem ite_SeqTwoByteString_chars (P : Prop) [Decidable P] (a b : SeqTwoByteString) : (if P then a else b).chars = if P then a.chars else b.chars := apply_ite (fun s : SeqTwoByteString => s.chars) P a b

@[simp] theorem ite_ConsString_first (P : Prop) [Decidable P] (a b : ConsString) : (if P then a else b).first = if P then a.first else b.first := apply_ite (fun s : ConsString => s.first) P a b

@[simp] theorem ite_ConsString_second (P : Prop) [Decidable P] (a b : ConsString) : (if P then a else b).second = if P then a.second else b.second := apply_ite (fun s : ConsString => s.second) P a b

@[simp] theorem ite_ThinString_actual (P : Prop) [Decidable P] (a b : ThinString) : (if P then a else b).actual = if P then a.actual else b.actual := apply_ite (fun s : ThinString => s.actual) P a b

@[simp] theorem ite_JSFunction_code (P : Prop) [Decidable P] (a b : JSFunction) : (if P then a else b).code = if P then a.code else b.code := apply_ite (fun s : JSFunction => s.code) P a b

@[simp] theorem ite_JSFunction_shared_function_info (P : Prop) [Decidable P] (a b : JSFunction) : (if P then a else b).shared_function_info = if P then a.shared_function_info else b.shared_function_info := apply_ite (fun s : JSFunction => s.shared_function_info) P a b

@[simp] theorem ite_Code_deoptimization_data (P : Prop) [Decidable P] (a b : Code) : (if P then a else b).deoptimization_data = if P then a.deoptimization_data else b.deoptimization_data := apply_ite (fun s : Code => s.deoptimization_data) P a b

@[simp] theorem ite_Code_source_position_table (P : Prop) [Decidable P] (a b : Code) : (if P then a else b).source_position_table = if P then a.source_position_table else b.source_position_table := apply_ite (fun s : Code => s.source_position_table) P a b

@[simp] theorem ite_Code_instruction_start (P : Prop) [Decidable P] (a b : Code) : (if P then a else b).instruction_start = if P then a.instruction_start else b.instruction_start := apply_ite (fun s : Code => s.instruction_start) P a b

@[simp] theorem ite_Code_instruction_size (P : Prop) [Decidable P] (a b : Code) : (if P then a else b).instruction_size = if P then a.instruction_size else b.instruction_size := apply_ite (fun s : Code => s.instruction_size) P a b

@[simp] theorem ite_Code_flags (P : Prop) [Decidable P] (a b : Code) : (if P then a else b).flags = if P then a.flags else b.flags := apply_ite (fun s : Code => s.flags) P a b

@[simp] theorem ite_SharedFunctionInfo_name_or_scope_info (P : Prop) [Decidable P] (a b : SharedFunctionInfo) : (if P then a else b).name_or_scope_info = if P then a.name_or_scope_info else b.name_or_scope_info := apply_ite (fun s : SharedFunctionInfo => s.name_or_scope_info) P a b

@[simp] theorem ite_SharedFunctionInfo_function_data (P : Prop) [Decidable P] (a b : SharedFunctionInfo) : (if P then a else b).function_data = if P then a.function_data else b.function_data := apply_ite (fun s : SharedFunctionInfo => s.function_data) P a b

@[simp] theorem ite_SharedFunctionInfo_script_or_debug_info (P : Prop) [Decidable P] (a b : SharedFunctionInfo) : (if P then a else b).script_or_debug_info = if P then a.script_or_debug_info else b.script_or_debug_info := apply_ite (fun s : SharedFunctionInfo => s.script_or_debug_info) P a b

@[simp] theorem ite_BaselineData_data (P : Prop) [Decidable P] (a b : BaselineData) : (if P then a else b).data = if P then a.data else b.data := apply_ite (fun s : BaselineData => s.data) P a b

@[simp] theorem ite_BytecodeArray_source_position_table (P : Prop) [Decidable P] (a b : BytecodeArray) : (if P then a else b).source_position_table = if P then a.source_position_table else b.source_position_table := apply_ite (fun s : BytecodeArray => s.source_position_table) P a b

@[simp] theorem ite_BytecodeArray_data (P : Prop) [Decidable P] (a b : BytecodeArray) : (if P then a else b).data = if P then a.data else b.data := apply_ite (fun s : BytecodeArray => s.data) P a b

@[simp] theorem ite_ScopeInfo_heap_object (P : Prop) [Decidable P] (a b : ScopeInfo) : (if P then a else b).heap_object = if P then a.heap_object else b.heap_object := apply_ite (fun s : ScopeInfo => s.heap_object) P a b

@[simp] theorem ite_DeoptimizationLiteralArray_weak_fixed_array (P : Prop) [Decidable P] (a b : DeoptimizationLiteralArray) : (if P then a else b).weak_fixed_array = if P then a.weak_fixed_array else b.weak_fixed_array := apply_ite (fun s : DeoptimizationLiteralArray => s.weak_fixed_array) P a b

@[simp] theorem ite_Script_name (P : Prop) [Decidable P] (a b : Script) : (if P then a else b).name = if P then a.name else b.name := apply_ite (fun s : Script => s.name) P a b

@[simp] theorem ite_Script_line_ends (P : Prop) [Decidable P] (a b : Script) : (if P then a else b).line_ends = if P then a.line_ends else b.line_ends := apply_ite (fun s : Script => s.line_ends) P a b

@[simp] theorem ite_Script_source (P : Prop) [Decidable P] (a b : Script) : (if P then a else b).source = if P then a.source else b.source := apply_ite (fun s : Script => s.source) P a b


-- read_memory never reaches the unsupported-width panic for the widths
-- actually used (1, 2, 4): it always returns, and agrees with the total
-- function read_memory_total.
theorem read_memory_eq_total (env : Env) (s : String) (w d : Nat) (hw : w = 4 ∨ w = 2 ∨ w = 1) : read_memory env s w d = some (read_memory_total env s w d) := by
  unfold read_memory read_memory_total
  cases henv : env.getSymbol s
  · by_cases hp : s.startsWith "v8dbg_frametype_" <;> simp [hp]
  · dsimp only
    rw [if_pos hw]
    cases ha : env.readAddr _ <;> rfl

@[simp] theorem rm4 (env : Env) (s : String) (d : Nat) : read_memory env s 4 d = some (read_memory_total env s 4 d) := read_memory_eq_total env s 4 d (Or.inl rfl)

@[simp] theorem rm2 (env : Env) (s : String) (d : Nat) : read_memory env s 2 d = some (read_memory_total env s 2 d) := read_memory_eq_total env s 2 d (Or.inr (Or.inl rfl))

@[simp] theorem rm1 (env : Env) (s : String) (d : Nat) : read_memory env s 1 d = some (read_memory_total env s 1 d) := read_memory_eq_total env s 1 d (Or.inr (Or.inr rfl))

-- A bind of two fallible steps that both always return a value returns a
-- value.
theorem bind_some_of_some {α β : Type} {x : Option α} {f : α → Option β} (h : ∃ a, x = some a) (hf : ∀ a, ∃ b, f a = some b) : ∃ b, x >>= f = some b := by
  obtain ⟨a, ha⟩ := h
  rw [ha]
  simpa using hf a

-- Every probe slice always returns a catalogue: the unsupported-width
-- panic branch is unreachable because every probe uses width 1, 2 or 4.
theorem probe_fixed_some (env : Env) (d : Fixed) : ∃ g, probe_fixed env d = some g := by
  simp only [probe_fixed, rm4, rm2, rm1, Option.bind_eq_bind, Option.some_bind, Option.pure_def]
  repeat' (split <;> try simp only [Option.some_bind, Option.pure_def])
  all_goals exact ⟨_, rfl⟩

theorem probe_frame_pointer_some (env : Env) (d : FramePointer) : ∃ g, probe_frame_pointer env d = some g := by
  simp only [probe_frame_pointer, rm4, rm2, rm1, Option.bind_eq_bind, Option.some_bind, Option.pure_def]
  repeat' (split <;> try simp only [Option.some_bind, Option.pure_def])
  all_goals exact ⟨_, rfl⟩

theorem probe_scope_info_index_some (env : Env) (d : ScopeInfoIndex) : ∃ g, probe_scope_info_index env d = some g := by
  simp only [probe_scope_info_index, rm4, rm2, rm1, Option.bind_eq_bind, Option.some_bind, Option.pure_def]
  repeat' (split <;> try simp only [Option.some_bind, Option.pure_def])
  all_goals exact ⟨_, rfl⟩

theorem probe_deoptimization_data_index_some (env : Env) (d : DeoptimizationDataIndex) : ∃ g, probe_deoptimization_data_index env d = some g := by
  simp only [probe_deoptimization_data_index, rm4, rm2, rm1, Option.bind_eq_bind, Option.some_bind, Option.pure_def]
  repeat' (split <;> try simp only [Option.some_bind, Option.pure_def])
  all_goals exact ⟨_, rfl⟩

theorem probe_code_kind_some (env : Env) (d : CodeKind) : ∃ g, probe_code_kind env d = some g := by
  simp only [probe_code_kind, rm4, rm2, rm1, Option.bind_eq_bind, Option.some_bind, Option.pure_def]
  repeat' (split <;> try simp only [Option.some_bind, Option.pure_def])
  all_goals exact ⟨_, rfl⟩

theorem probe_frame_type_a_some (env : Env) (d : FrameType) : ∃ g, probe_frame_type_a env d = some g := by
  simp only [probe_frame_type_a, rm4, rm2, rm1, Option.bind_eq_bind, Option.some_bind, Option.pure_def]
  repeat' (split <;> try simp only [Option.some_bind, Option.pure_def])
  all_goals exact ⟨_, rfl⟩

theorem probe_frame_type_b_some (env : Env) (d : FrameType) : ∃ g, probe_frame_type_b env d = some g := by
  simp only [probe_frame_type_b, rm4, rm2, rm1, Option.bind_eq_bind, Option.some_bind, Option.pure_def]
  repeat' (split <;> try simp only [Option.some_bind, Option.pure_def])
  all_goals exact ⟨_, rfl⟩

theorem probe_typ_some (env : Env) (d : Typ) : ∃ g, probe_typ env d = some g := by
  simp only [probe_typ, rm4, rm2, rm1, Option.bind_eq_bind, Option.some_bind, Option.pure_def]
  repeat' (split <;> try simp only [Option.some_bind, Option.pure_def])
  all_goals exact ⟨_, rfl⟩

theorem probe_heap_object_some (env : Env) (d : HeapObject) : ∃ g, probe_heap_object env d = some g := by
  simp only [probe_heap_object, rm4, rm2, rm1, Option.bind_eq_bind, Option.some_bind, Option.pure_def]
  repeat' (split <;> try simp only [Option.some_bind, Option.pure_def])
  all_goals exact ⟨_, rfl⟩

theorem probe_map_some (env : Env) (d : Map) : ∃ g, probe_map env d = some g := by
  simp only [probe_map, rm4, rm2, rm1, Option.bind_eq_bind, Option.some_bind, Option.pure_def]
  repeat' (split <;> try simp only [Option.some_bind, Option.pure_def])
  all_goals exact ⟨_, rfl⟩

theorem probe_fixed_array_base_some (env : Env) (d : FixedArrayBase) : ∃ g, probe_fixed_array_base env d = some g := by
  simp only [probe_fixed_array_base, rm4, rm2, rm1, Option.bind_eq_bind, Option.some_bind, Option.pure_def]
  repeat' (split <;> try simp only [Option.some_bind, Option.pure_def])
  all_goals exact ⟨_, rfl⟩

theorem probe_fixed_array_some (env : Env) (d : FixedArray) : ∃ g, probe_fixed_array env d = some g := by
  simp only [probe_fixed_array, rm4, rm2, rm1, Option.bind_eq_bind, Option.some_bind, Option.pure_def]
  repeat' (split <;> try simp only [Option.some_bind, Option.pure_def])
  all_goals exact ⟨_, rfl⟩

theorem probe_string_some (env : Env) (d : VmString) : ∃ g, probe_string env d = some g := by
  simp only [probe_string, rm4, rm2, rm1, Option.bind_eq_bind, Option.some_bind, Option.pure_def]
  repeat' (split <;> try simp only [Option.some_bind, Option.pure_def])
  all_goals exact ⟨_, rfl⟩

theorem probe_seq_one_byte_string_some (env : Env) (d : SeqOneByteString) : ∃ g, probe_seq_one_byte_string env d = some g := by
  simp only [probe_seq_one_byte_string, rm4, rm2, rm1, Option.bind_eq_bind, Option.some_bind, Option.pure_def]
  repeat' (split <;> try simp only [Option.some_bind, Option.pure_def])
  all_goals exact ⟨_, rfl⟩

theorem probe_seq_two_byte_string_some (env : Env) (d : SeqTwoByteString) : ∃ g, probe_seq_two_byte_string env d = some g := by
  simp only [probe_seq_two_byte_string, rm4, rm2, rm1, Option.bind_eq_bind, Option.some_bind, Option.pure_def]
  repeat' (split <;> try simp only [Option.some_bind, Option.pure_def])
  all_goals exact ⟨_, rfl⟩

theorem probe_cons_string_some (env : Env) (d : ConsString) : ∃ g, probe_cons_string env d = some g := by
  simp only [probe_cons_string, rm4, rm2, rm1, Option.bind_eq_bind, Option.some_bind, Option.pure_def]
  repeat' (split <;> try simp only [Option.some_bind, Option.pure_def])
  all_goals exact ⟨_, rfl⟩

theorem probe_thin_string_some (env : Env) (d : ThinString) : ∃ g, probe_thin_string env d = some g := by
  simp only [probe_thin_string, rm4, rm2, rm1, Option.bind_eq_bind, Option.some_bind, Option.pure_def]
  repeat' (split <;> try simp only [Option.some_bind, Option.pure_def])
  all_goals exact ⟨_, rfl⟩

theorem probe_jsfunction_some (env : Env) (d : JSFunction) : ∃ g, probe_jsfunction env d = some g := by
  simp only [probe_jsfunction, rm4, rm2, rm1, Option.bind_eq_bind, Option.some_bind, Option.pure_def]
  repeat' (split <;> try simp only [Option.some_bind, Option.pure_def])
  all_goals exact ⟨_, rfl⟩

theorem probe_code_some (env : Env) (d : Code) : ∃ g, probe_code env d = some g := by
  simp only [probe_code, rm4, rm2, rm1, Option.bind_eq_bind, Option.some_bind, Option.pure_def]
  repeat' (split <;> try simp only [Option.some_bind, Option.pure_def])
  all_goals exact ⟨_, rfl⟩

theorem probe_shared_function_info_some (env : Env) (d : SharedFunctionInfo) : ∃ g, probe_shared_function_info env d = some g := by
  simp only [probe_shared_function_info, rm4, rm2, rm1, Option.bind_eq_bind, Option.some_bind, Option.pure_def]
  repeat' (split <;> try simp only [Option.some_bind, Option.pure_def])
  all_goals exact ⟨_, rfl⟩

theorem probe_baseline_data_some (env : Env) (d : BaselineData) : ∃ g, probe_baseline_data env d = some g := by
  simp only [probe_baseline_data, rm4, rm2, rm1, Option.bind_eq_bind, Option.some_bind, Option.pure_def]
  repeat' (split <;> try simp only [Option.some_bind, Option.pure_def])
  all_goals exact ⟨_, rfl⟩

theorem probe_bytecode_array_some (env : Env) (d : BytecodeArray) : ∃ g, probe_bytecode_array env d = some g := by
  simp only [probe_bytecode_array, rm4, rm2, rm1, Option.bind_eq_bind, Option.some_bind, Option.pure_def]
  repeat' (split <;> try simp only [Option.some_bind, Option.pure_def])
  all_goals exact ⟨_, rfl⟩

theorem probe_scope_info_some (env : Env) (d : ScopeInfo) : ∃ g, probe_scope_info env d = some g := by
  simp only [probe_scope_info, rm4, rm2, rm1, Option.bind_eq_bind, Option.some_bind, Option.pure_def]
  repeat' (split <;> try simp only [Option.some_bind, Option.pure_def])
  all_goals exact ⟨_, rfl⟩

theorem probe_deoptimization_literal_array_some (env : Env) (d : DeoptimizationLiteralArray) : ∃ g, probe_deoptimization_literal_array env d = some g := by
  simp only [probe_deoptimization_literal_array, rm4, rm2, rm1, Option.bind_eq_bind, Option.some_bind, Option.pure_def]
  repeat' (split <;> try simp only [Option.some_bind, Option.pure_def])
  all_goals exact ⟨_, rfl⟩

theorem probe_script_some (env : Env) (d : Script) : ∃ g, probe_script env d = some g := by
  simp only [probe_script, rm4, rm2, rm1, Option.bind_eq_bind, Option.some_bind, Option.pure_def]
  repeat' (split <;> try simp only [Option.some_bind, Option.pure_def])
  all_goals exact ⟨_, rfl⟩

theorem probe_frame_type_some (env : Env) (d : FrameType) : ∃ g, probe_frame_type env d = some g := by
  unfold probe_frame_type
  simp only [Option.bind_eq_bind]
  refine bind_some_of_some (probe_frame_type_a_some env _) fun g => ?_
  exact probe_frame_type_b_some env g

theorem get_v8_data_a_some (env : Env) (d : VMData) : ∃ g, get_v8_data_a env d = some g := by
  unfold get_v8_data_a
  simp only [Option.bind_eq_bind]
  refine bind_some_of_some (probe_fixed_some env _) fun g => ?_
  try dsimp only
  refine bind_some_of_some (probe_frame_pointer_some env _) fun g => ?_
  try dsimp only
  refine bind_some_of_some (probe_scope_info_index_some env _) fun g => ?_
  try dsimp only
  refine bind_some_of_some (probe_deoptimization_data_index_some env _) fun g => ?_
  try dsimp only
  refine bind_some_of_some (probe_code_kind_some env _) fun g => ?_
  try dsimp only
  refine bind_some_of_some (probe_frame_type_some env _) fun g => ?_
  try dsimp only
  refine bind_some_of_some (probe_typ_some env _) fun g => ?_
  try dsimp only
  refine bind_some_of_some (probe_heap_object_some env _) fun g => ?_
  exact ⟨_, rfl⟩

theorem get_v8_data_b_some (env : Env) (d : VMData) : ∃ g, get_v8_data_b env d = some g := by
  unfold get_v8_data_b
  simp only [Option.bind_eq_bind]
  refine bind_some_of_some (probe_map_some env _) fun g => ?_
  try dsimp only
  refine bind_some_of_some (probe_fixed_array_base_some env _) fun g => ?_
  try dsimp only
  refine bind_some_of_some (probe_fixed_array_some env _) fun g => ?_
  try dsimp only
  refine bind_some_of_some (probe_string_some env _) fun g => ?_
  try dsimp only
  refine bind_some_of_some (probe_seq_one_byte_string_some env _) fun g => ?_
  try dsimp only
  refine bind_some_of_some (probe_seq_two_byte_string_some env _) fun g => ?_
  try dsimp only
  refine bind_some_of_some (probe_cons_string_some env _) fun g => ?_
  try dsimp only
  refine bind_some_of_some (probe_thin_string_some env _) fun g => ?_
  exact ⟨_, rfl⟩

theorem get_v8_data_c_some (env : Env) (d : VMData) : ∃ g, get_v8_data_c env d = some g := by
  unfold get_v8_data_c
  simp only [Option.bind_eq_bind]
  refine bind_some_of_some (probe_jsfunction_some env _) fun g => ?_
  try dsimp only
  refine bind_some_of_some (probe_code_some env _) fun g => ?_
  try dsimp only
  refine bind_some_of_some (probe_shared_function_info_some env _) fun g => ?_
  try dsimp only
  refine bind_some_of_some (probe_baseline_data_some env _) fun g => ?_
  try dsimp only
  refine bind_some_of_some (probe_bytecode_array_some env _) fun g => ?_
  try dsimp only
  refine bind_some_of_some (probe_scope_info_some env _) fun g => ?_
  try dsimp only
  refine bind_some_of_some (probe_deoptimization_literal_array_some env _) fun g => ?_
  try dsimp only
  refine bind_some_of_some (probe_script_some env _) fun g => ?_
  exact ⟨_, rfl⟩

-- fn get_v8_data never panics: every probe's destination width is 1, 2 or
-- 4 bytes, so the unsupported-width branch never fires on any environment.
theorem get_v8_data_some (env : Env) : ∃ d, get_v8_data env = some d := by
  unfold get_v8_data
  simp only [Option.bind_eq_bind]
  refine bind_some_of_some (get_v8_data_a_some env _) fun g => ?_
  try dsimp only
  refine bind_some_of_some (get_v8_data_b_some env _) fun g => ?_
  try dsimp only
  exact get_v8_data_c_some env g


-- Per-rule projection lemmas: what each backfill rule does to every
-- sub-record of interest, so that simp can evaluate any projection of the
-- pipeline one rule at a time.
@[simp] theorem rule_fp_bytecode_array_fixed (ver : Nat) (v : VMData) : (rule_fp_bytecode_array ver v).fixed = v.fixed := by unfold rule_fp_bytecode_array; split_ifs <;> rfl

@[simp] theorem rule_fp_bytecode_array_deoptimization_data_index (ver : Nat) (v : VMData) : (rule_fp_bytecode_array ver v).deoptimization_data_index = v.deoptimization_data_index := by unfold rule_fp_bytecode_array; split_ifs <;> rfl

@[simp] theorem rule_fp_bytecode_array_code_kind (ver : Nat) (v : VMData) : (rule_fp_bytecode_array ver v).code_kind = v.code_kind := by unfold rule_fp_bytecode_array; split_ifs <;> rfl

@[simp] theorem rule_fp_bytecode_array_typ (ver : Nat) (v : VMData) : (rule_fp_bytecode_array ver v).typ = v.typ := by unfold rule_fp_bytecode_array; split_ifs <;> rfl

@[simp] theorem rule_fp_bytecode_array_heap_object (ver : Nat) (v : VMData) : (rule_fp_bytecode_array ver v).heap_object = v.heap_object := by unfold rule_fp_bytecode_array; split_ifs <;> rfl

@[simp] theorem rule_fp_bytecode_array_fixed_array_base (ver : Nat) (v : VMData) : (rule_fp_bytecode_array ver v).fixed_array_base = v.fixed_array_base := by unfold rule_fp_bytecode_array; split_ifs <;> rfl

@[simp] theorem rule_fp_bytecode_array_jsfunction (ver : Nat) (v : VMData) : (rule_fp_bytecode_array ver v).jsfunction = v.jsfunction := by unfold rule_fp_bytecode_array; split_ifs <;> rfl

@[simp] theorem rule_fp_bytecode_array_code (ver : Nat) (v : VMData) : (rule_fp_bytecode_array ver v).code = v.code := by unfold rule_fp_bytecode_array; split_ifs <;> rfl

@[simp] theorem rule_fp_bytecode_array_baseline_data (ver : Nat) (v : VMData) : (rule_fp_bytecode_array ver v).baseline_data = v.baseline_data := by unfold rule_fp_bytecode_array; split_ifs <;> rfl

@[simp] theorem rule_fp_bytecode_array_bytecode_array (ver : Nat) (v : VMData) : (rule_fp_bytecode_array ver v).bytecode_array = v.bytecode_array := by unfold rule_fp_bytecode_array; split_ifs <;> rfl

@[simp] theorem rule_fp_bytecode_array_script (ver : Nat) (v : VMData) : (rule_fp_bytecode_array ver v).script = v.script := by unfold rule_fp_bytecode_array; split_ifs <;> rfl

@[simp] theorem rule_fp_bytecode_array_frame_pointer_function (ver : Nat) (v : VMData) : (rule_fp_bytecode_array ver v).frame_pointer.function = v.frame_pointer.function := by unfold rule_fp_bytecode_array; split_ifs <;> rfl

@[simp] theorem rule_fp_bytecode_array_frame_pointer_context (ver : Nat) (v : VMData) : (rule_fp_bytecode_array ver v).frame_pointer.context = v.frame_pointer.context := by unfold rule_fp_bytecode_array; split_ifs <;> rfl

@[simp] theorem rule_fp_bytecode_array_frame_pointer_bytecode_array (ver : Nat) (v : VMData) : (rule_fp_bytecode_array ver v).frame_pointer.bytecode_array = if v.frame_pointer.bytecode_array = 0 then (if v8_ver 8 7 198 ≤ ver then sub8 v.frame_pointer.function (2 * pointer_size) else sub8 v.frame_pointer.function (1 * pointer_size)) else v.frame_pointer.bytecode_array := by unfold rule_fp_bytecode_array; split_ifs <;> rfl

@[simp] theorem rule_fp_bytecode_array_frame_pointer_bytecode_offset (ver : Nat) (v : VMData) : (rule_fp_bytecode_array ver v).frame_pointer.bytecode_offset = v.frame_pointer.bytecode_offset := by unfold rule_fp_bytecode_array; split_ifs <;> rfl

@[simp] theorem rule_fp_bytecode_offset_fixed (v : VMData) : (rule_fp_bytecode_offset v).fixed = v.fixed := by unfold rule_fp_bytecode_offset; split_ifs <;> rfl

@[simp] theorem rule_fp_bytecode_offset_deoptimization_data_index (v : VMData) : (rule_fp_bytecode_offset v).deoptimization_data_index = v.deoptimization_data_index := by unfold rule_fp_bytecode_offset; split_ifs <;> rfl

@[simp] theorem rule_fp_bytecode_offset_code_kind (v : VMData) : (rule_fp_bytecode_offset v).code_kind = v.code_kind := by unfold rule_fp_bytecode_offset; split_ifs <;> rfl

@[simp] theorem rule_fp_bytecode_offset_typ (v : VMData) : (rule_fp_bytecode_offset v).typ = v.typ := by unfold rule_fp_bytecode_offset; split_ifs <;> rfl

@[simp] theorem rule_fp_bytecode_offset_heap_object (v : VMData) : (rule_fp_bytecode_offset v).heap_object = v.heap_object := by unfold rule_fp_bytecode_offset; split_ifs <;> rfl

@[simp] theorem rule_fp_bytecode_offset_fixed_array_base (v : VMData) : (rule_fp_bytecode_offset v).fixed_array_base = v.fixed_array_base := by unfold rule_fp_bytecode_offset; split_ifs <;> rfl

@[simp] theorem rule_fp_bytecode_offset_jsfunction (v : VMData) : (rule_fp_bytecode_offset v).jsfunction = v.jsfunction := by unfold rule_fp_bytecode_offset; split_ifs <;> rfl

@[simp] theorem rule_fp_bytecode_offset_code (v : VMData) : (rule_fp_bytecode_offset v).code = v.code := by unfold rule_fp_bytecode_offset; split_ifs <;> rfl

@[simp] theorem rule_fp_bytecode_offset_baseline_data (v : VMData) : (rule_fp_bytecode_offset v).baseline_data = v.baseline_data := by unfold rule_fp_bytecode_offset; split_ifs <;> rfl

@[simp] theorem rule_fp_bytecode_offset_bytecode_array (v : VMData) : (rule_fp_bytecode_offset v).bytecode_array = v.bytecode_array := by unfold rule_fp_bytecode_offset; split_ifs <;> rfl

@[simp] theorem rule_fp_bytecode_offset_script (v : VMData) : (rule_fp_bytecode_offset v).script = v.script := by unfold rule_fp_bytecode_offset; split_ifs <;> rfl

@[simp] theorem rule_fp_bytecode_offset_frame_pointer_function (v : VMData) : (rule_fp_bytecode_offset v).frame_pointer.function = v.frame_pointer.function := by unfold rule_fp_bytecode_offset; split_ifs <;> rfl

@[simp] theorem rule_fp_bytecode_offset_frame_pointer_context (v : VMData) : (rule_fp_bytecode_offset v).frame_pointer.context = v.frame_pointer.context := by unfold rule_fp_bytecode_offset; split_ifs <;> rfl

@[simp] theorem rule_fp_bytecode_offset_frame_pointer_bytecode_array (v : VMData) : (rule_fp_bytecode_offset v).frame_pointer.bytecode_array = v.frame_pointer.bytecode_array := by unfold rule_fp_bytecode_offset; split_ifs <;> rfl

@[simp] theorem rule_fp_bytecode_offset_frame_pointer_bytecode_offset (v : VMData) : (rule_fp_bytecode_offset v).frame_pointer.bytecode_offset = if v.frame_pointer.bytecode_offset = 0 then sub8 v.frame_pointer.bytecode_array pointer_size else v.frame_pointer.bytecode_offset := by unfold rule_fp_bytecode_offset; split_ifs <;> rfl

@[simp] theorem rule_jsfunction_type_frame_pointer (ver : Nat) (v : VMData) : (rule_jsfunction_type ver v).frame_pointer = v.frame_pointer := by unfold rule_jsfunction_type; split_ifs <;> rfl

@[simp] theorem rule_jsfunction_type_deoptimization_data_index (ver : Nat) (v : VMData) : (rule_jsfunction_type ver v).deoptimization_data_index = v.deoptimization_data_index := by unfold rule_jsfunction_type; split_ifs <;> rfl

@[simp] theorem rule_jsfunction_type_code_kind (ver : Nat) (v : VMData) : (rule_jsfunction_type ver v).code_kind = v.code_kind := by unfold rule_jsfunction_type; split_ifs <;> rfl

@[simp] theorem rule_jsfunction_type_typ (ver : Nat) (v : VMData) : (rule_jsfunction_type ver v).typ = v.typ := by unfold rule_jsfunction_type; split_ifs <;> rfl

@[simp] theorem rule_jsfunction_type_heap_object (ver : Nat) (v : VMData) : (rule_jsfunction_type ver v).heap_object = v.heap_object := by unfold rule_jsfunction_type; split_ifs <;> rfl

@[simp] theorem rule_jsfunction_type_fixed_array_base (ver : Nat) (v : VMData) : (rule_jsfunction_type ver v).fixed_array_base = v.fixed_array_base := by unfold rule_jsfunction_type; split_ifs <;> rfl

@[simp] theorem rule_jsfunction_type_jsfunction (ver : Nat) (v : VMData) : (rule_jsfunction_type ver v).jsfunction = v.jsfunction := by unfold rule_jsfunction_type; split_ifs <;> rfl

@[simp] theorem rule_jsfunction_type_code (ver : Nat) (v : VMData) : (rule_jsfunction_type ver v).code = v.code := by unfold rule_jsfunction_type; split_ifs <;> rfl

@[simp] theorem rule_jsfunction_type_baseline_data (ver : Nat) (v : VMData) : (rule_jsfunction_type ver v).baseline_data = v.baseline_data := by unfold rule_jsfunction_type; split_ifs <;> rfl

@[simp] theorem rule_jsfunction_type_bytecode_array (ver : Nat) (v : VMData) : (rule_jsfunction_type ver v).bytecode_array = v.bytecode_array := by unfold rule_jsfunction_type; split_ifs <;> rfl

@[simp] theorem rule_jsfunction_type_script (ver : Nat) (v : VMData) : (rule_jsfunction_type ver v).script = v.script := by unfold rule_jsfunction_type; split_ifs <;> rfl

@[simp] theorem rule_jsfunction_type_fixed_heap_object_tag_mask (ver : Nat) (v : VMData) : (rule_jsfunction_type ver v).fixed.heap_object_tag_mask = v.fixed.heap_object_tag_mask := by unfold rule_jsfunction_type; split_ifs <;> rfl

@[simp] theorem rule_jsfunction_type_fixed_smi_tag_mask (ver : Nat) (v : VMData) : (rule_jsfunction_type ver v).fixed.smi_tag_mask = v.fixed.smi_tag_mask := by unfold rule_jsfunction_type; split_ifs <;> rfl

@[simp] theorem rule_jsfunction_type_fixed_heap_object_tag (ver : Nat) (v : VMData) : (rule_jsfunction_type ver v).fixed.heap_object_tag = v.fixed.heap_object_tag := by unfold rule_jsfunction_type; split_ifs <;> rfl

@[simp] theorem rule_jsfunction_type_fixed_smi_tag (ver : Nat) (v : VMData) : (rule_jsfunction_type ver v).fixed.smi_tag = v.fixed.smi_tag := by unfold rule_jsfunction_type; split_ifs <;> rfl

@[simp] theorem rule_jsfunction_type_fixed_smi_shift_size (ver : Nat) (v : VMData) : (rule_jsfunction_type ver v).fixed.smi_shift_size = v.fixed.smi_shift_size := by unfold rule_jsfunction_type; split_ifs <;> rfl

@[simp] theorem rule_jsfunction_type_fixed_first_nonstring_type (ver : Nat) (v : VMData) : (rule_jsfunction_type ver v).fixed.first_nonstring_type = v.fixed.first_nonstring_type := by unfold rule_jsfunction_type; split_ifs <;> rfl

@[simp] theorem rule_jsfunction_type_fixed_string_encoding_mask (ver : Nat) (v : VMData) : (rule_jsfunction_type ver v).fixed.string_encoding_mask = v.fixed.string_encoding_mask := by unfold rule_jsfunction_type; split_ifs <;> rfl

@[simp] theorem rule_jsfunction_type_fixed_string_representation_mask (ver : Nat) (v : VMData) : (rule_jsfunction_type ver v).fixed.string_representation_mask = v.fixed.string_representation_mask := by unfold rule_jsfunction_type; split_ifs <;> rfl

@[simp] theorem rule_jsfunction_type_fixed_seq_string_tag (ver : Nat) (v : VMData) : (rule_jsfunction_type ver v).fixed.seq_string_tag = v.fixed.seq_string_tag := by unfold rule_jsfunction_type; split_ifs <;> rfl

@[simp] theorem rule_jsfunction_type_fixed_cons_string_tag (ver : Nat) (v : VMData) : (rule_jsfunction_type ver v).fixed.cons_string_tag = v.fixed.cons_string_tag := by unfold rule_jsfunction_type; split_ifs <;> rfl

@[simp] theorem rule_jsfunction_type_fixed_one_byte_string_tag (ver : Nat) (v : VMData) : (rule_jsfunction_type ver v).fixed.one_byte_string_tag = v.fixed.one_byte_string_tag := by unfold rule_jsfunction_type; split_ifs <;> rfl

@[simp] theorem rule_jsfunction_type_fixed_two_byte_string_tag (ver : Nat) (v : VMData) : (rule_jsfunction_type ver v).fixed.two_byte_string_tag = v.fixed.two_byte_string_tag := by unfold rule_jsfunction_type; split_ifs <;> rfl

@[simp] theorem rule_jsfunction_type_fixed_sliced_string_tag (ver : Nat) (v : VMData) : (rule_jsfunction_type ver v).fixed.sliced_string_tag = v.fixed.sliced_string_tag := by unfold rule_jsfunction_type; split_ifs <;> rfl

@[simp] theorem rule_jsfunction_type_fixed_thin_string_tag (ver : Nat) (v : VMData) : (rule_jsfunction_type ver v).fixed.thin_string_tag = v.fixed.thin_string_tag := by unfold rule_jsfunction_type; split_ifs <;> rfl

@[simp] theorem rule_jsfunction_type_fixed_first_jsfunction_type (ver : Nat) (v : VMData) : (rule_jsfunction_type ver v).fixed.first_jsfunction_type = if v.fixed.first_jsfunction_type = 0 then v.typ.js_function else v.fixed.first_jsfunction_type := by unfold rule_jsfunction_type; split_ifs <;> rfl

@[simp] theorem rule_jsfunction_type_fixed_last_jsfunction_type (ver : Nat) (v : VMData) : (rule_jsfunction_type ver v).fixed.last_jsfunction_type = if v.fixed.first_jsfunction_type = 0 then sub16 (add16 v.typ.js_function (if v8_ver 9 6 138 ≤ ver then 15 else if v8_ver 9 0 14 ≤ ver then 14 else 1)) 1 else v.fixed.last_jsfunction_type := by unfold rule_jsfunction_type; split_ifs <;> rfl

@[simp] theorem rule_jsfunction_code_fixed (ver : Nat) (v : VMData) : (rule_jsfunction_code ver v).fixed = v.fixed := by unfold rule_jsfunction_code; split_ifs <;> rfl

@[simp] theorem rule_jsfunction_code_frame_pointer (ver : Nat) (v : VMData) : (rule_jsfunction_code ver v).frame_pointer = v.frame_pointer := by unfold rule_jsfunction_code; split_ifs <;> rfl

@[simp] theorem rule_jsfunction_code_deoptimization_data_index (ver : Nat) (v : VMData) : (rule_jsfunction_code ver v).deoptimization_data_index = v.deoptimization_data_index := by unfold rule_jsfunction_code; split_ifs <;> rfl

@[simp] theorem rule_jsfunction_code_code_kind (ver : Nat) (v : VMData) : (rule_jsfunction_code ver v).code_kind = v.code_kind := by unfold rule_jsfunction_code; split_ifs <;> rfl

@[simp] theorem rule_jsfunction_code_typ (ver : Nat) (v : VMData) : (rule_jsfunction_code ver v).typ = v.typ := by unfold rule_jsfunction_code; split_ifs <;> rfl

@[simp] theorem rule_jsfunction_code_heap_object (ver : Nat) (v : VMData) : (rule_jsfunction_code ver v).heap_object = v.heap_object := by unfold rule_jsfunction_code; split_ifs <;> rfl

@[simp] theorem rule_jsfunction_code_fixed_array_base (ver : Nat) (v : VMData) : (rule_jsfunction_code ver v).fixed_array_base = v.fixed_array_base := by unfold rule_jsfunction_code; split_ifs <;> rfl

@[simp] theorem rule_jsfunction_code_code (ver : Nat) (v : VMData) : (rule_jsfunction_code ver v).code = v.code := by unfold rule_jsfunction_code; split_ifs <;> rfl

@[simp] theorem rule_jsfunction_code_baseline_data (ver : Nat) (v : VMData) : (rule_jsfunction_code ver v).baseline_data = v.baseline_data := by unfold rule_jsfunction_code; split_ifs <;> rfl

@[simp] theorem rule_jsfunction_code_bytecode_array (ver : Nat) (v : VMData) : (rule_jsfunction_code ver v).bytecode_array = v.bytecode_array := by unfold rule_jsfunction_code; split_ifs <;> rfl

@[simp] theorem rule_jsfunction_code_script (ver : Nat) (v : VMData) : (rule_jsfunction_code ver v).script = v.script := by unfold rule_jsfunction_code; split_ifs <;> rfl

@[simp] theorem rule_jsfunction_code_jsfunction_code (ver : Nat) (v : VMData) : (rule_jsfunction_code ver v).jsfunction.code = if v.jsfunction.code = 0 then (if v8_ver 11 7 368 ≤ ver then sub16 v.jsfunction.shared_function_info pointer_size else add16 v.jsfunction.shared_function_info (3 * pointer_size)) else v.jsfunction.code := by unfold rule_jsfunction_code; split_ifs <;> rfl

@[simp] theorem rule_jsfunction_code_jsfunction_shared_function_info (ver : Nat) (v : VMData) : (rule_jsfunction_code ver v).jsfunction.shared_function_info = v.jsfunction.shared_function_info := by unfold rule_jsfunction_code; split_ifs <;> rfl

@[simp] theorem rule_code_then_spt_fixed (v : VMData) : (rule_code_then_spt v).fixed = v.fixed := by unfold rule_code_then_spt; split_ifs <;> rfl

@[simp] theorem rule_code_then_spt_frame_pointer (v : VMData) : (rule_code_then_spt v).frame_pointer = v.frame_pointer := by unfold rule_code_then_spt; split_ifs <;> rfl

@[simp] theorem rule_code_then_spt_deoptimization_data_index (v : VMData) : (rule_code_then_spt v).deoptimization_data_index = v.deoptimization_data_index := by unfold rule_code_then_spt; split_ifs <;> rfl

@[simp] theorem rule_code_then_spt_code_kind (v : VMData) : (rule_code_then_spt v).code_kind = v.code_kind := by unfold rule_code_then_spt; split_ifs <;> rfl

@[simp] theorem rule_code_then_spt_typ (v : VMData) : (rule_code_then_spt v).typ = v.typ := by unfold rule_code_then_spt; split_ifs <;> rfl

@[simp] theorem rule_code_then_spt_heap_object (v : VMData) : (rule_code_then_spt v).heap_object = v.heap_object := by unfold rule_code_then_spt; split_ifs <;> rfl

@[simp] theorem rule_code_then_spt_fixed_array_base (v : VMData) : (rule_code_then_spt v).fixed_array_base = v.fixed_array_base := by unfold rule_code_then_spt; split_ifs <;> rfl

@[simp] theorem rule_code_then_spt_jsfunction (v : VMData) : (rule_code_then_spt v).jsfunction = v.jsfunction := by unfold rule_code_then_spt; split_ifs <;> rfl

@[simp] theorem rule_code_then_spt_baseline_data (v : VMData) : (rule_code_then_spt v).baseline_data = v.baseline_data := by unfold rule_code_then_spt; split_ifs <;> rfl

@[simp] theorem rule_code_then_spt_bytecode_array (v : VMData) : (rule_code_then_spt v).bytecode_array = v.bytecode_array := by unfold rule_code_then_spt; split_ifs <;> rfl

@[simp] theorem rule_code_then_spt_script (v : VMData) : (rule_code_then_spt v).script = v.script := by unfold rule_code_then_spt; split_ifs <;> rfl

@[simp] theorem rule_code_then_spt_code_deoptimization_data (v : VMData) : (rule_code_then_spt v).code.deoptimization_data = v.code.deoptimization_data := by unfold rule_code_then_spt; split_ifs <;> rfl

@[simp] theorem rule_code_then_spt_code_source_position_table (v : VMData) : (rule_code_then_spt v).code.source_position_table = if v.code.source_position_table = 0 then sub16 v.code.instruction_size (2 * pointer_size) else v.code.source_position_table := by unfold rule_code_then_spt; split_ifs <;> rfl

@[simp] theorem rule_code_then_spt_code_instruction_start (v : VMData) : (rule_code_then_spt v).code.instruction_start = v.code.instruction_start := by unfold rule_code_then_spt; split_ifs <;> rfl

@[simp] theorem rule_code_then_spt_code_instruction_size (v : VMData) : (rule_code_then_spt v).code.instruction_size = v.code.instruction_size := by unfold rule_code_then_spt; split_ifs <;> rfl

@[simp] theorem rule_code_then_spt_code_flags (v : VMData) : (rule_code_then_spt v).code.flags = v.code.flags := by unfold rule_code_then_spt; split_ifs <;> rfl

@[simp] theorem rule_code_then_flags_fixed (v : VMData) : (rule_code_then_flags v).fixed = v.fixed := by unfold rule_code_then_flags; split_ifs <;> rfl

@[simp] theorem rule_code_then_flags_frame_pointer (v : VMData) : (rule_code_then_flags v).frame_pointer = v.frame_pointer := by unfold rule_code_then_flags; split_ifs <;> rfl

@[simp] theorem rule_code_then_flags_deoptimization_data_index (v : VMData) : (rule_code_then_flags v).deoptimization_data_index = v.deoptimization_data_index := by unfold rule_code_then_flags; split_ifs <;> rfl

@[simp] theorem rule_code_then_flags_code_kind (v : VMData) : (rule_code_then_flags v).code_kind = v.code_kind := by unfold rule_code_then_flags; split_ifs <;> rfl

@[simp] theorem rule_code_then_flags_typ (v : VMData) : (rule_code_then_flags v).typ = v.typ := by unfold rule_code_then_flags; split_ifs <;> rfl

@[simp] theorem rule_code_then_flags_heap_object (v : VMData) : (rule_code_then_flags v).heap_object = v.heap_object := by unfold rule_code_then_flags; split_ifs <;> rfl

@[simp] theorem rule_code_then_flags_fixed_array_base (v : VMData) : (rule_code_then_flags v).fixed_array_base = v.fixed_array_base := by unfold rule_code_then_flags; split_ifs <;> rfl

@[simp] theorem rule_code_then_flags_jsfunction (v : VMData) : (rule_code_then_flags v).jsfunction = v.jsfunction := by unfold rule_code_then_flags; split_ifs <;> rfl

@[simp] theorem rule_code_then_flags_baseline_data (v : VMData) : (rule_code_then_flags v).baseline_data = v.baseline_data := by unfold rule_code_then_flags; split_ifs <;> rfl

@[simp] theorem rule_code_then_flags_bytecode_array (v : VMData) : (rule_code_then_flags v).bytecode_array = v.bytecode_array := by unfold rule_code_then_flags; split_ifs <;> rfl

@[simp] theorem rule_code_then_flags_script (v : VMData) : (rule_code_then_flags v).script = v.script := by unfold rule_code_then_flags; split_ifs <;> rfl

@[simp] theorem rule_code_then_flags_code_deoptimization_data (v : VMData) : (rule_code_then_flags v).code.deoptimization_data = v.code.deoptimization_data := by unfold rule_code_then_flags; split_ifs <;> rfl

@[simp] theorem rule_code_then_flags_code_source_position_table (v : VMData) : (rule_code_then_flags v).code.source_position_table = v.code.source_position_table := by unfold rule_code_then_flags; split_ifs <;> rfl

@[simp] theorem rule_code_then_flags_code_instruction_start (v : VMData) : (rule_code_then_flags v).code.instruction_start = v.code.instruction_start := by unfold rule_code_then_flags; split_ifs <;> rfl

@[simp] theorem rule_code_then_flags_code_instruction_size (v : VMData) : (rule_code_then_flags v).code.instruction_size = v.code.instruction_size := by unfold rule_code_then_flags; split_ifs <;> rfl

@[simp] theorem rule_code_then_flags_code_flags (v : VMData) : (rule_code_then_flags v).code.flags = if v.code.flags = 0 then add16 v.code.instruction_size (2 * 4) else v.code.flags := by unfold rule_code_then_flags; split_ifs <;> rfl

@[simp] theorem rule_code_else_deopt_fixed (v : VMData) : (rule_code_else_deopt v).fixed = v.fixed := by unfold rule_code_else_deopt; split_ifs <;> rfl

@[simp] theorem rule_code_else_deopt_frame_pointer (v : VMData) : (rule_code_else_deopt v).frame_pointer = v.frame_pointer := by unfold rule_code_else_deopt; split_ifs <;> rfl

@[simp] theorem rule_code_else_deopt_deoptimization_data_index (v : VMData) : (rule_code_else_deopt v).deoptimization_data_index = v.deoptimization_data_index := by unfold rule_code_else_deopt; split_ifs <;> rfl

@[simp] theorem rule_code_else_deopt_code_kind (v : VMData) : (rule_code_else_deopt v).code_kind = v.code_kind := by unfold rule_code_else_deopt; split_ifs <;> rfl

@[simp] theorem rule_code_else_deopt_typ (v : VMData) : (rule_code_else_deopt v).typ = v.typ := by unfold rule_code_else_deopt; split_ifs <;> rfl

@[simp] theorem rule_code_else_deopt_heap_object (v : VMData) : (rule_code_else_deopt v).heap_object = v.heap_object := by unfold rule_code_else_deopt; split_ifs <;> rfl

@[simp] theorem rule_code_else_deopt_fixed_array_base (v : VMData) : (rule_code_else_deopt v).fixed_array_base = v.fixed_array_base := by unfold rule_code_else_deopt; split_ifs <;> rfl

@[simp] theorem rule_code_else_deopt_jsfunction (v : VMData) : (rule_code_else_deopt v).jsfunction = v.jsfunction := by unfold rule_code_else_deopt; split_ifs <;> rfl

@[simp] theorem rule_code_else_deopt_baseline_data (v : VMData) : (rule_code_else_deopt v).baseline_data = v.baseline_data := by unfold rule_code_else_deopt; split_ifs <;> rfl

@[simp] theorem rule_code_else_deopt_bytecode_array (v : VMData) : (rule_code_else_deopt v).bytecode_array = v.bytecode_array := by unfold rule_code_else_deopt; split_ifs <;> rfl

@[simp] theorem rule_code_else_deopt_script (v : VMData) : (rule_code_else_deopt v).script = v.script := by unfold rule_code_else_deopt; split_ifs <;> rfl

@[simp] theorem rule_code_else_deopt_code_deoptimization_data (v : VMData) : (rule_code_else_deopt v).code.deoptimization_data = if v.code.deoptimization_data = 0 then sub16 v.code.source_position_table pointer_size else v.code.deoptimization_data := by unfold rule_code_else_deopt; split_ifs <;> rfl

@[simp] theorem rule_code_else_deopt_code_source_position_table (v : VMData) : (rule_code_else_deopt v).code.source_position_table = v.code.source_position_table := by unfold rule_code_else_deopt; split_ifs <;> rfl

@[simp] theorem rule_code_else_deopt_code_instruction_start (v : VMData) : (rule_code_else_deopt v).code.instruction_start = v.code.instruction_start := by unfold rule_code_else_deopt; split_ifs <;> rfl

@[simp] theorem rule_code_else_deopt_code_instruction_size (v : VMData) : (rule_code_else_deopt v).code.instruction_size = v.code.instruction_size := by unfold rule_code_else_deopt; split_ifs <;> rfl

@[simp] theorem rule_code_else_deopt_code_flags (v : VMData) : (rule_code_else_deopt v).code.flags = v.code.flags := by unfold rule_code_else_deopt; split_ifs <;> rfl

@[simp] theorem rule_code_else_start_fixed (v : VMData) : (rule_code_else_start v).fixed = v.fixed := by unfold rule_code_else_start; split_ifs <;> rfl

@[simp] theorem rule_code_else_start_frame_pointer (v : VMData) : (rule_code_else_start v).frame_pointer = v.frame_pointer := by unfold rule_code_else_start; split_ifs <;> rfl

@[simp] theorem rule_code_else_start_deoptimization_data_index (v : VMData) : (rule_code_else_start v).deoptimization_data_index = v.deoptimization_data_index := by unfold rule_code_else_start; split_ifs <;> rfl

@[simp] theorem rule_code_else_start_code_kind (v : VMData) : (rule_code_else_start v).code_kind = v.code_kind := by unfold rule_code_else_start; split_ifs <;> rfl

@[simp] theorem rule_code_else_start_typ (v : VMData) : (rule_code_else_start v).typ = v.typ := by unfold rule_code_else_start; split_ifs <;> rfl

@[simp] theorem rule_code_else_start_heap_object (v : VMData) : (rule_code_else_start v).heap_object = v.heap_object := by unfold rule_code_else_start; split_ifs <;> rfl

@[simp] theorem rule_code_else_start_fixed_array_base (v : VMData) : (rule_code_else_start v).fixed_array_base = v.fixed_array_base := by unfold rule_code_else_start; split_ifs <;> rfl

@[simp] theorem rule_code_else_start_jsfunction (v : VMData) : (rule_code_else_start v).jsfunction = v.jsfunction := by unfold rule_code_else_start; split_ifs <;> rfl

@[simp] theorem rule_code_else_start_baseline_data (v : VMData) : (rule_code_else_start v).baseline_data = v.baseline_data := by unfold rule_code_else_start; split_ifs <;> rfl

@[simp] theorem rule_code_else_start_bytecode_array (v : VMData) : (rule_code_else_start v).bytecode_array = v.bytecode_array := by unfold rule_code_else_start; split_ifs <;> rfl

@[simp] theorem rule_code_else_start_script (v : VMData) : (rule_code_else_start v).script = v.script := by unfold rule_code_else_start; split_ifs <;> rfl

@[simp] theorem rule_code_else_start_code_deoptimization_data (v : VMData) : (rule_code_else_start v).code.deoptimization_data = v.code.deoptimization_data := by unfold rule_code_else_start; split_ifs <;> rfl

@[simp] theorem rule_code_else_start_code_source_position_table (v : VMData) : (rule_code_else_start v).code.source_position_table = v.code.source_position_table := by unfold rule_code_else_start; split_ifs <;> rfl

@[simp] theorem rule_code_else_start_code_instruction_start (v : VMData) : (rule_code_else_start v).code.instruction_start = if v.code.instruction_start = 0 then add16 v.code.source_position_table (2 * pointer_size) else v.code.instruction_start := by unfold rule_code_else_start; split_ifs <;> rfl

@[simp] theorem rule_code_else_start_code_instruction_size (v : VMData) : (rule_code_else_start v).code.instruction_size = v.code.instruction_size := by unfold rule_code_else_start; split_ifs <;> rfl

@[simp] theorem rule_code_else_start_code_flags (v : VMData) : (rule_code_else_start v).code.flags = v.code.flags := by unfold rule_code_else_start; split_ifs <;> rfl

@[simp] theorem rule_code_else_flags_fixed (v : VMData) : (rule_code_else_flags v).fixed = v.fixed := by unfold rule_code_else_flags; split_ifs <;> rfl

@[simp] theorem rule_code_else_flags_frame_pointer (v : VMData) : (rule_code_else_flags v).frame_pointer = v.frame_pointer := by unfold rule_code_else_flags; split_ifs <;> rfl

@[simp] theorem rule_code_else_flags_deoptimization_data_index (v : VMData) : (rule_code_else_flags v).deoptimization_data_index = v.deoptimization_data_index := by unfold rule_code_else_flags; split_ifs <;> rfl

@[simp] theorem rule_code_else_flags_code_kind (v : VMData) : (rule_code_else_flags v).code_kind = v.code_kind := by unfold rule_code_else_flags; split_ifs <;> rfl

@[simp] theorem rule_code_else_flags_typ (v : VMData) : (rule_code_else_flags v).typ = v.typ := by unfold rule_code_else_flags; split_ifs <;> rfl

@[simp] theorem rule_code_else_flags_heap_object (v : VMData) : (rule_code_else_flags v).heap_object = v.heap_object := by unfold rule_code_else_flags; split_ifs <;> rfl

@[simp] theorem rule_code_else_flags_fixed_array_base (v : VMData) : (rule_code_else_flags v).fixed_array_base = v.fixed_array_base := by unfold rule_code_else_flags; split_ifs <;> rfl

@[simp] theorem rule_code_else_flags_jsfunction (v : VMData) : (rule_code_else_flags v).jsfunction = v.jsfunction := by unfold rule_code_else_flags; split_ifs <;> rfl

@[simp] theorem rule_code_else_flags_baseline_data (v : VMData) : (rule_code_else_flags v).baseline_data = v.baseline_data := by unfold rule_code_else_flags; split_ifs <;> rfl

@[simp] theorem rule_code_else_flags_bytecode_array (v : VMData) : (rule_code_else_flags v).bytecode_array = v.bytecode_array := by unfold rule_code_else_flags; split_ifs <;> rfl

@[simp] theorem rule_code_else_flags_script (v : VMData) : (rule_code_else_flags v).script = v.script := by unfold rule_code_else_flags; split_ifs <;> rfl

@[simp] theorem rule_code_else_flags_code_deoptimization_data (v : VMData) : (rule_code_else_flags v).code.deoptimization_data = v.code.deoptimization_data := by unfold rule_code_else_flags; split_ifs <;> rfl

@[simp] theorem rule_code_else_flags_code_source_position_table (v : VMData) : (rule_code_else_flags v).code.source_position_table = v.code.source_position_table := by unfold rule_code_else_flags; split_ifs <;> rfl

@[simp] theorem rule_code_else_flags_code_instruction_start (v : VMData) : (rule_code_else_flags v).code.instruction_start = v.code.instruction_start := by unfold rule_code_else_flags; split_ifs <;> rfl

@[simp] theorem rule_code_else_flags_code_instruction_size (v : VMData) : (rule_code_else_flags v).code.instruction_size = v.code.instruction_size := by unfold rule_code_else_flags; split_ifs <;> rfl

@[simp] theorem rule_code_else_flags_code_flags (v : VMData) : (rule_code_else_flags v).code.flags = if v.code.flags = 0 then add16 v.code.instruction_start pointer_size else v.code.flags := by unfold rule_code_else_flags; split_ifs <;> rfl

@[simp] theorem rule_code_else_size_fixed (ver : Nat) (v : VMData) : (rule_code_else_size ver v).fixed = v.fixed := by unfold rule_code_else_size; split_ifs <;> rfl

@[simp] theorem rule_code_else_size_frame_pointer (ver : Nat) (v : VMData) : (rule_code_else_size ver v).frame_pointer = v.frame_pointer := by unfold rule_code_else_size; split_ifs <;> rfl

@[simp] theorem rule_code_else_size_deoptimization_data_index (ver : Nat) (v : VMData) : (rule_code_else_size ver v).deoptimization_data_index = v.deoptimization_data_index := by unfold rule_code_else_size; split_ifs <;> rfl

@[simp] theorem rule_code_else_size_code_kind (ver : Nat) (v : VMData) : (rule_code_else_size ver v).code_kind = v.code_kind := by unfold rule_code_else_size; split_ifs <;> rfl

@[simp] theorem rule_code_else_size_typ (ver : Nat) (v : VMData) : (rule_code_else_size ver v).typ = v.typ := by unfold rule_code_else_size; split_ifs <;> rfl

@[simp] theorem rule_code_else_size_heap_object (ver : Nat) (v : VMData) : (rule_code_else_size ver v).heap_object = v.heap_object := by unfold rule_code_else_size; split_ifs <;> rfl

@[simp] theorem rule_code_else_size_fixed_array_base (ver : Nat) (v : VMData) : (rule_code_else_size ver v).fixed_array_base = v.fixed_array_base := by unfold rule_code_else_size; split_ifs <;> rfl

@[simp] theorem rule_code_else_size_jsfunction (ver : Nat) (v : VMData) : (rule_code_else_size ver v).jsfunction = v.jsfunction := by unfold rule_code_else_size; split_ifs <;> rfl

@[simp] theorem rule_code_else_size_baseline_data (ver : Nat) (v : VMData) : (rule_code_else_size ver v).baseline_data = v.baseline_data := by unfold rule_code_else_size; split_ifs <;> rfl

@[simp] theorem rule_code_else_size_bytecode_array (ver : Nat) (v : VMData) : (rule_code_else_size ver v).bytecode_array = v.bytecode_array := by unfold rule_code_else_size; split_ifs <;> rfl

@[simp] theorem rule_code_else_size_script (ver : Nat) (v : VMData) : (rule_code_else_size ver v).script = v.script := by unfold rule_code_else_size; split_ifs <;> rfl

@[simp] theorem rule_code_else_size_code_deoptimization_data (ver : Nat) (v : VMData) : (rule_code_else_size ver v).code.deoptimization_data = v.code.deoptimization_data := by unfold rule_code_else_size; split_ifs <;> rfl

@[simp] theorem rule_code_else_size_code_source_position_table (ver : Nat) (v : VMData) : (rule_code_else_size ver v).code.source_position_table = v.code.source_position_table := by unfold rule_code_else_size; split_ifs <;> rfl

@[simp] theorem rule_code_else_size_code_instruction_start (ver : Nat) (v : VMData) : (rule_code_else_size ver v).code.instruction_start = v.code.instruction_start := by unfold rule_code_else_size; split_ifs <;> rfl

@[simp] theorem rule_code_else_size_code_instruction_size (ver : Nat) (v : VMData) : (rule_code_else_size ver v).code.instruction_size = if v.code.instruction_size = 0 then (if v8_ver 11 4 59 ≤ ver then add16 (add16 v.code.flags 4) (2 + 2) else add16 v.code.flags 4) else v.code.instruction_size := by unfold rule_code_else_size; split_ifs <;> rfl

@[simp] theorem rule_code_else_size_code_flags (ver : Nat) (v : VMData) : (rule_code_else_size ver v).code.flags = v.code.flags := by unfold rule_code_else_size; split_ifs <;> rfl

@[simp] theorem rule_code_fixed (ver : Nat) (v : VMData) : (rule_code ver v).fixed = v.fixed := by unfold rule_code; split_ifs <;> simp

@[simp] theorem rule_code_frame_pointer (ver : Nat) (v : VMData) : (rule_code ver v).frame_pointer = v.frame_pointer := by unfold rule_code; split_ifs <;> simp

@[simp] theorem rule_code_deoptimization_data_index (ver : Nat) (v : VMData) : (rule_code ver v).deoptimization_data_index = v.deoptimization_data_index := by unfold rule_code; split_ifs <;> simp

@[simp] theorem rule_code_code_kind (ver : Nat) (v : VMData) : (rule_code ver v).code_kind = v.code_kind := by unfold rule_code; split_ifs <;> simp

@[simp] theorem rule_code_typ (ver : Nat) (v : VMData) : (rule_code ver v).typ = v.typ := by unfold rule_code; split_ifs <;> simp

@[simp] theorem rule_code_heap_object (ver : Nat) (v : VMData) : (rule_code ver v).heap_object = v.heap_object := by unfold rule_code; split_ifs <;> simp

@[simp] theorem rule_code_fixed_array_base (ver : Nat) (v : VMData) : (rule_code ver v).fixed_array_base = v.fixed_array_base := by unfold rule_code; split_ifs <;> simp

@[simp] theorem rule_code_jsfunction (ver : Nat) (v : VMData) : (rule_code ver v).jsfunction = v.jsfunction := by unfold rule_code; split_ifs <;> simp

@[simp] theorem rule_code_baseline_data (ver : Nat) (v : VMData) : (rule_code ver v).baseline_data = v.baseline_data := by unfold rule_code; split_ifs <;> simp

@[simp] theorem rule_code_bytecode_array (ver : Nat) (v : VMData) : (rule_code ver v).bytecode_array = v.bytecode_array := by unfold rule_code; split_ifs <;> simp

@[simp] theorem rule_code_script (ver : Nat) (v : VMData) : (rule_code ver v).script = v.script := by unfold rule_code; split_ifs <;> simp

@[simp] theorem rule_code_deopt_fixed (v : VMData) : (rule_code_deopt v).fixed = v.fixed := by unfold rule_code_deopt; split_ifs <;> rfl

@[simp] theorem rule_code_deopt_frame_pointer (v : VMData) : (rule_code_deopt v).frame_pointer = v.frame_pointer := by unfold rule_code_deopt; split_ifs <;> rfl

@[simp] theorem rule_code_deopt_deoptimization_data_index (v : VMData) : (rule_code_deopt v).deoptimization_data_index = v.deoptimization_data_index := by unfold rule_code_deopt; split_ifs <;> rfl

@[simp] theorem rule_code_deopt_code_kind (v : VMData) : (rule_code_deopt v).code_kind = v.code_kind := by unfold rule_code_deopt; split_ifs <;> rfl

@[simp] theorem rule_code_deopt_typ (v : VMData) : (rule_code_deopt v).typ = v.typ := by unfold rule_code_deopt; split_ifs <;> rfl

@[simp] theorem rule_code_deopt_heap_object (v : VMData) : (rule_code_deopt v).heap_object = v.heap_object := by unfold rule_code_deopt; split_ifs <;> rfl

@[simp] theorem rule_code_deopt_fixed_array_base (v : VMData) : (rule_code_deopt v).fixed_array_base = v.fixed_array_base := by unfold rule_code_deopt; split_ifs <;> rfl

@[simp] theorem rule_code_deopt_jsfunction (v : VMData) : (rule_code_deopt v).jsfunction = v.jsfunction := by unfold rule_code_deopt; split_ifs <;> rfl

@[simp] theorem rule_code_deopt_baseline_data (v : VMData) : (rule_code_deopt v).baseline_data = v.baseline_data := by unfold rule_code_deopt; split_ifs <;> rfl

@[simp] theorem rule_code_deopt_bytecode_array (v : VMData) : (rule_code_deopt v).bytecode_array = v.bytecode_array := by unfold rule_code_deopt; split_ifs <;> rfl

@[simp] theorem rule_code_deopt_script (v : VMData) : (rule_code_deopt v).script = v.script := by unfold rule_code_deopt; split_ifs <;> rfl

@[simp] theorem rule_code_deopt_code_deoptimization_data (v : VMData) : (rule_code_deopt v).code.deoptimization_data = if v.code.deoptimization_data = 0 ∧ v.code.source_position_table ≠ 0 then sub16 v.code.source_position_table pointer_size else v.code.deoptimization_data := by unfold rule_code_deopt; split_ifs <;> rfl

@[simp] theorem rule_code_deopt_code_source_position_table (v : VMData) : (rule_code_deopt v).code.source_position_table = v.code.source_position_table := by unfold rule_code_deopt; split_ifs <;> rfl

@[simp] theorem rule_code_deopt_code_instruction_start (v : VMData) : (rule_code_deopt v).code.instruction_start = v.code.instruction_start := by unfold rule_code_deopt; split_ifs <;> rfl

@[simp] theorem rule_code_deopt_code_instruction_size (v : VMData) : (rule_code_deopt v).code.instruction_size = v.code.instruction_size := by unfold rule_code_deopt; split_ifs <;> rfl

@[simp] theorem rule_code_deopt_code_flags (v : VMData) : (rule_code_deopt v).code.flags = v.code.flags := by unfold rule_code_deopt; split_ifs <;> rfl

@[simp] theorem rule_script_source_fixed (v : VMData) : (rule_script_source v).fixed = v.fixed := by unfold rule_script_source; split_ifs <;> rfl

@[simp] theorem rule_script_source_frame_pointer (v : VMData) : (rule_script_source v).frame_pointer = v.frame_pointer := by unfold rule_script_source; split_ifs <;> rfl

@[simp] theorem rule_script_source_deoptimization_data_index (v : VMData) : (rule_script_source v).deoptimization_data_index = v.deoptimization_data_index := by unfold rule_script_source; split_ifs <;> rfl

@[simp] theorem rule_script_source_code_kind (v : VMData) : (rule_script_source v).code_kind = v.code_kind := by unfold rule_script_source; split_ifs <;> rfl

@[simp] theorem rule_script_source_typ (v : VMData) : (rule_script_source v).typ = v.typ := by unfold rule_script_source; split_ifs <;> rfl

@[simp] theorem rule_script_source_heap_object (v : VMData) : (rule_script_source v).heap_object = v.heap_object := by unfold rule_script_source; split_ifs <;> rfl

@[simp] theorem rule_script_source_fixed_array_base (v : VMData) : (rule_script_source v).fixed_array_base = v.fixed_array_base := by unfold rule_script_source; split_ifs <;> rfl

@[simp] theorem rule_script_source_jsfunction (v : VMData) : (rule_script_source v).jsfunction = v.jsfunction := by unfold rule_script_source; split_ifs <;> rfl

@[simp] theorem rule_script_source_code (v : VMData) : (rule_script_source v).code = v.code := by unfold rule_script_source; split_ifs <;> rfl

@[simp] theorem rule_script_source_baseline_data (v : VMData) : (rule_script_source v).baseline_data = v.baseline_data := by unfold rule_script_source; split_ifs <;> rfl

@[simp] theorem rule_script_source_bytecode_array (v : VMData) : (rule_script_source v).bytecode_array = v.bytecode_array := by unfold rule_script_source; split_ifs <;> rfl

@[simp] theorem rule_script_source_script_name (v : VMData) : (rule_script_source v).script.name = v.script.name := by unfold rule_script_source; split_ifs <;> rfl

@[simp] theorem rule_script_source_script_line_ends (v : VMData) : (rule_script_source v).script.line_ends = v.script.line_ends := by unfold rule_script_source; split_ifs <;> rfl

@[simp] theorem rule_script_source_script_source (v : VMData) : (rule_script_source v).script.source = if v.script.source = 0 then sub16 v.script.name pointer_size else v.script.source := by unfold rule_script_source; split_ifs <;> rfl

@[simp] theorem rule_ba_spt_fixed (v : VMData) : (rule_ba_spt v).fixed = v.fixed := by unfold rule_ba_spt; split_ifs <;> rfl

@[simp] theorem rule_ba_spt_frame_pointer (v : VMData) : (rule_ba_spt v).frame_pointer = v.frame_pointer := by unfold rule_ba_spt; split_ifs <;> rfl

@[simp] theorem rule_ba_spt_deoptimization_data_index (v : VMData) : (rule_ba_spt v).deoptimization_data_index = v.deoptimization_data_index := by unfold rule_ba_spt; split_ifs <;> rfl

@[simp] theorem rule_ba_spt_code_kind (v : VMData) : (rule_ba_spt v).code_kind = v.code_kind := by unfold rule_ba_spt; split_ifs <;> rfl

@[simp] theorem rule_ba_spt_typ (v : VMData) : (rule_ba_spt v).typ = v.typ := by unfold rule_ba_spt; split_ifs <;> rfl

@[simp] theorem rule_ba_spt_heap_object (v : VMData) : (rule_ba_spt v).heap_object = v.heap_object := by unfold rule_ba_spt; split_ifs <;> rfl

@[simp] theorem rule_ba_spt_fixed_array_base (v : VMData) : (rule_ba_spt v).fixed_array_base = v.fixed_array_base := by unfold rule_ba_spt; split_ifs <;> rfl

@[simp] theorem rule_ba_spt_jsfunction (v : VMData) : (rule_ba_spt v).jsfunction = v.jsfunction := by unfold rule_ba_spt; split_ifs <;> rfl

@[simp] theorem rule_ba_spt_code (v : VMData) : (rule_ba_spt v).code = v.code := by unfold rule_ba_spt; split_ifs <;> rfl

@[simp] theorem rule_ba_spt_baseline_data (v : VMData) : (rule_ba_spt v).baseline_data = v.baseline_data := by unfold rule_ba_spt; split_ifs <;> rfl

@[simp] theorem rule_ba_spt_script (v : VMData) : (rule_ba_spt v).script = v.script := by unfold rule_ba_spt; split_ifs <;> rfl

@[simp] theorem rule_ba_spt_bytecode_array_source_position_table (v : VMData) : (rule_ba_spt v).bytecode_array.source_position_table = if v.bytecode_array.source_position_table = 0 then add16 v.fixed_array_base.length (3 * pointer_size) else v.bytecode_array.source_position_table := by unfold rule_ba_spt; split_ifs <;> rfl

@[simp] theorem rule_ba_spt_bytecode_array_data (v : VMData) : (rule_ba_spt v).bytecode_array.data = v.bytecode_array.data := by unfold rule_ba_spt; split_ifs <;> rfl

@[simp] theorem rule_ba_data_fixed (v : VMData) : (rule_ba_data v).fixed = v.fixed := by unfold rule_ba_data; split_ifs <;> rfl

@[simp] theorem rule_ba_data_frame_pointer (v : VMData) : (rule_ba_data v).frame_pointer = v.frame_pointer := by unfold rule_ba_data; split_ifs <;> rfl

@[simp] theorem rule_ba_data_deoptimization_data_index (v : VMData) : (rule_ba_data v).deoptimization_data_index = v.deoptimization_data_index := by unfold rule_ba_data; split_ifs <;> rfl

@[simp] theorem rule_ba_data_code_kind (v : VMData) : (rule_ba_data v).code_kind = v.code_kind := by unfold rule_ba_data; split_ifs <;> rfl

@[simp] theorem rule_ba_data_typ (v : VMData) : (rule_ba_data v).typ = v.typ := by unfold rule_ba_data; split_ifs <;> rfl

@[simp] theorem rule_ba_data_heap_object (v : VMData) : (rule_ba_data v).heap_object = v.heap_object := by unfold rule_ba_data; split_ifs <;> rfl

@[simp] theorem rule_ba_data_fixed_array_base (v : VMData) : (rule_ba_data v).fixed_array_base = v.fixed_array_base := by unfold rule_ba_data; split_ifs <;> rfl

@[simp] theorem rule_ba_data_jsfunction (v : VMData) : (rule_ba_data v).jsfunction = v.jsfunction := by unfold rule_ba_data; split_ifs <;> rfl

@[simp] theorem rule_ba_data_code (v : VMData) : (rule_ba_data v).code = v.code := by unfold rule_ba_data; split_ifs <;> rfl

@[simp] theorem rule_ba_data_baseline_data (v : VMData) : (rule_ba_data v).baseline_data = v.baseline_data := by unfold rule_ba_data; split_ifs <;> rfl

@[simp] theorem rule_ba_data_script (v : VMData) : (rule_ba_data v).script = v.script := by unfold rule_ba_data; split_ifs <;> rfl

@[simp] theorem rule_ba_data_bytecode_array_source_position_table (v : VMData) : (rule_ba_data v).bytecode_array.source_position_table = v.bytecode_array.source_position_table := by unfold rule_ba_data; split_ifs <;> rfl

@[simp] theorem rule_ba_data_bytecode_array_data (v : VMData) : (rule_ba_data v).bytecode_array.data = if v.bytecode_array.data = 0 then add16 (add16 v.bytecode_array.source_position_table pointer_size) 14 else v.bytecode_array.data := by unfold rule_ba_data; split_ifs <;> rfl

@[simp] theorem rule_deopt_inlined_function_count_fixed (v : VMData) : (rule_deopt_inlined_function_count v).fixed = v.fixed := by unfold rule_deopt_inlined_function_count; split_ifs <;> rfl

@[simp] theorem rule_deopt_inlined_function_count_frame_pointer (v : VMData) : (rule_deopt_inlined_function_count v).frame_pointer = v.frame_pointer := by unfold rule_deopt_inlined_function_count; split_ifs <;> rfl

@[simp] theorem rule_deopt_inlined_function_count_code_kind (v : VMData) : (rule_deopt_inlined_function_count v).code_kind = v.code_kind := by unfold rule_deopt_inlined_function_count; split_ifs <;> rfl

@[simp] theorem rule_deopt_inlined_function_count_typ (v : VMData) : (rule_deopt_inlined_function_count v).typ = v.typ := by unfold rule_deopt_inlined_function_count; split_ifs <;> rfl

@[simp] theorem rule_deopt_inlined_function_count_heap_object (v : VMData) : (rule_deopt_inlined_function_count v).heap_object = v.heap_object := by unfold rule_deopt_inlined_function_count; split_ifs <;> rfl

@[simp] theorem rule_deopt_inlined_function_count_fixed_array_base (v : VMData) : (rule_deopt_inlined_function_count v).fixed_array_base = v.fixed_array_base := by unfold rule_deopt_inlined_function_count; split_ifs <;> rfl

@[simp] theorem rule_deopt_inlined_function_count_jsfunction (v : VMData) : (rule_deopt_inlined_function_count v).jsfunction = v.jsfunction := by unfold rule_deopt_inlined_function_count; split_ifs <;> rfl

@[simp] theorem rule_deopt_inlined_function_count_code (v : VMData) : (rule_deopt_inlined_function_count v).code = v.code := by unfold rule_deopt_inlined_function_count; split_ifs <;> rfl

@[simp] theorem rule_deopt_inlined_function_count_baseline_data (v : VMData) : (rule_deopt_inlined_function_count v).baseline_data = v.baseline_data := by unfold rule_deopt_inlined_function_count; split_ifs <;> rfl

@[simp] theorem rule_deopt_inlined_function_count_bytecode_array (v : VMData) : (rule_deopt_inlined_function_count v).bytecode_array = v.bytecode_array := by unfold rule_deopt_inlined_function_count; split_ifs <;> rfl

@[simp] theorem rule_deopt_inlined_function_count_script (v : VMData) : (rule_deopt_inlined_function_count v).script = v.script := by unfold rule_deopt_inlined_function_count; split_ifs <;> rfl

@[simp] theorem rule_deopt_inlined_function_count_deoptimization_data_index_inlined_function_count (v : VMData) : (rule_deopt_inlined_function_count v).deoptimization_data_index.inlined_function_count = if v.deoptimization_data_index.inlined_function_count = 0 then 1 else v.deoptimization_data_index.inlined_function_count := by unfold rule_deopt_inlined_function_count; split_ifs <;> rfl

@[simp] theorem rule_deopt_inlined_function_count_deoptimization_data_index_literal_array (v : VMData) : (rule_deopt_inlined_function_count v).deoptimization_data_index.literal_array = v.deoptimization_data_index.literal_array := by unfold rule_deopt_inlined_function_count; split_ifs <;> rfl

@[simp] theorem rule_deopt_inlined_function_count_deoptimization_data_index_shared_function_info (v : VMData) : (rule_deopt_inlined_function_count v).deoptimization_data_index.shared_function_info = v.deoptimization_data_index.shared_function_info := by unfold rule_deopt_inlined_function_count; split_ifs <;> rfl

@[simp] theorem rule_deopt_inlined_function_count_deoptimization_data_index_inlining_positions (v : VMData) : (rule_deopt_inlined_function_count v).deoptimization_data_index.inlining_positions = v.deoptimization_data_index.inlining_positions := by unfold rule_deopt_inlined_function_count; split_ifs <;> rfl

@[simp] theorem rule_deopt_literal_array_fixed (v : VMData) : (rule_deopt_literal_array v).fixed = v.fixed := by unfold rule_deopt_literal_array; split_ifs <;> rfl

@[simp] theorem rule_deopt_literal_array_frame_pointer (v : VMData) : (rule_deopt_literal_array v).frame_pointer = v.frame_pointer := by unfold rule_deopt_literal_array; split_ifs <;> rfl

@[simp] theorem rule_deopt_literal_array_code_kind (v : VMData) : (rule_deopt_literal_array v).code_kind = v.code_kind := by unfold rule_deopt_literal_array; split_ifs <;> rfl

@[simp] theorem rule_deopt_literal_array_typ (v : VMData) : (rule_deopt_literal_array v).typ = v.typ := by unfold rule_deopt_literal_array; split_ifs <;> rfl

@[simp] theorem rule_deopt_literal_array_heap_object (v : VMData) : (rule_deopt_literal_array v).heap_object = v.heap_object := by unfold rule_deopt_literal_array; split_ifs <;> rfl

@[simp] theorem rule_deopt_literal_array_fixed_array_base (v : VMData) : (rule_deopt_literal_array v).fixed_array_base = v.fixed_array_base := by unfold rule_deopt_literal_array; split_ifs <;> rfl

@[simp] theorem rule_deopt_literal_array_jsfunction (v : VMData) : (rule_deopt_literal_array v).jsfunction = v.jsfunction := by unfold rule_deopt_literal_array; split_ifs <;> rfl

@[simp] theorem rule_deopt_literal_array_code (v : VMData) : (rule_deopt_literal_array v).code = v.code := by unfold rule_deopt_literal_array; split_ifs <;> rfl

@[simp] theorem rule_deopt_literal_array_baseline_data (v : VMData) : (rule_deopt_literal_array v).baseline_data = v.baseline_data := by unfold rule_deopt_literal_array; split_ifs <;> rfl

@[simp] theorem rule_deopt_literal_array_bytecode_array (v : VMData) : (rule_deopt_literal_array v).bytecode_array = v.bytecode_array := by unfold rule_deopt_literal_array; split_ifs <;> rfl

@[simp] theorem rule_deopt_literal_array_script (v : VMData) : (rule_deopt_literal_array v).script = v.script := by unfold rule_deopt_literal_array; split_ifs <;> rfl

@[simp] theorem rule_deopt_literal_array_deoptimization_data_index_inlined_function_count (v : VMData) : (rule_deopt_literal_array v).deoptimization_data_index.inlined_function_count = v.deoptimization_data_index.inlined_function_count := by unfold rule_deopt_literal_array; split_ifs <;> rfl

@[simp] theorem rule_deopt_literal_array_deoptimization_data_index_literal_array (v : VMData) : (rule_deopt_literal_array v).deoptimization_data_index.literal_array = if v.deoptimization_data_index.literal_array = 0 then add8 v.deoptimization_data_index.inlined_function_count 1 else v.deoptimization_data_index.literal_array := by unfold rule_deopt_literal_array; split_ifs <;> rfl

@[simp] theorem rule_deopt_literal_array_deoptimization_data_index_shared_function_info (v : VMData) : (rule_deopt_literal_array v).deoptimization_data_index.shared_function_info = v.deoptimization_data_index.shared_function_info := by unfold rule_deopt_literal_array; split_ifs <;> rfl

@[simp] theorem rule_deopt_literal_array_deoptimization_data_index_inlining_positions (v : VMData) : (rule_deopt_literal_array v).deoptimization_data_index.inlining_positions = v.deoptimization_data_index.inlining_positions := by unfold rule_deopt_literal_array; split_ifs <;> rfl

@[simp] theorem rule_deopt_shared_function_info_fixed (v : VMData) : (rule_deopt_shared_function_info v).fixed = v.fixed := by unfold rule_deopt_shared_function_info; split_ifs <;> rfl

@[simp] theorem rule_deopt_shared_function_info_frame_pointer (v : VMData) : (rule_deopt_shared_function_info v).frame_pointer = v.frame_pointer := by unfold rule_deopt_shared_function_info; split_ifs <;> rfl

@[simp] theorem rule_deopt_shared_function_info_code_kind (v : VMData) : (rule_deopt_shared_function_info v).code_kind = v.code_kind := by unfold rule_deopt_shared_function_info; split_ifs <;> rfl

@[simp] theorem rule_deopt_shared_function_info_typ (v : VMData) : (rule_deopt_shared_function_info v).typ = v.typ := by unfold rule_deopt_shared_function_info; split_ifs <;> rfl

@[simp] theorem rule_deopt_shared_function_info_heap_object (v : VMData) : (rule_deopt_shared_function_info v).heap_object = v.heap_object := by unfold rule_deopt_shared_function_info; split_ifs <;> rfl

@[simp] theorem rule_deopt_shared_function_info_fixed_array_base (v : VMData) : (rule_deopt_shared_function_info v).fixed_array_base = v.fixed_array_base := by unfold rule_deopt_shared_function_info; split_ifs <;> rfl

@[simp] theorem rule_deopt_shared_function_info_jsfunction (v : VMData) : (rule_deopt_shared_function_info v).jsfunction = v.jsfunction := by unfold rule_deopt_shared_function_info; split_ifs <;> rfl

@[simp] theorem rule_deopt_shared_function_info_code (v : VMData) : (rule_deopt_shared_function_info v).code = v.code := by unfold rule_deopt_shared_function_info; split_ifs <;> rfl

@[simp] theorem rule_deopt_shared_function_info_baseline_data (v : VMData) : (rule_deopt_shared_function_info v).baseline_data = v.baseline_data := by unfold rule_deopt_shared_function_info; split_ifs <;> rfl

@[simp] theorem rule_deopt_shared_function_info_bytecode_array (v : VMData) : (rule_deopt_shared_function_info v).bytecode_array = v.bytecode_array := by unfold rule_deopt_shared_function_info; split_ifs <;> rfl

@[simp] theorem rule_deopt_shared_function_info_script (v : VMData) : (rule_deopt_shared_function_info v).script = v.script := by unfold rule_deopt_shared_function_info; split_ifs <;> rfl

@[simp] theorem rule_deopt_shared_function_info_deoptimization_data_index_inlined_function_count (v : VMData) : (rule_deopt_shared_function_info v).deoptimization_data_index.inlined_function_count = v.deoptimization_data_index.inlined_function_count := by unfold rule_deopt_shared_function_info; split_ifs <;> rfl

@[simp] theorem rule_deopt_shared_function_info_deoptimization_data_index_literal_array (v : VMData) : (rule_deopt_shared_function_info v).deoptimization_data_index.literal_array = v.deoptimization_data_index.literal_array := by unfold rule_deopt_shared_function_info; split_ifs <;> rfl

@[simp] theorem rule_deopt_shared_function_info_deoptimization_data_index_shared_function_info (v : VMData) : (rule_deopt_shared_function_info v).deoptimization_data_index.shared_function_info = if v.deoptimization_data_index.shared_function_info = 0 then 6 else v.deoptimization_data_index.shared_function_info := by unfold rule_deopt_shared_function_info; split_ifs <;> rfl

@[simp] theorem rule_deopt_shared_function_info_deoptimization_data_index_inlining_positions (v : VMData) : (rule_deopt_shared_function_info v).deoptimization_data_index.inlining_positions = v.deoptimization_data_index.inlining_positions := by unfold rule_deopt_shared_function_info; split_ifs <;> rfl

@[simp] theorem rule_deopt_inlining_positions_fixed (v : VMData) : (rule_deopt_inlining_positions v).fixed = v.fixed := by unfold rule_deopt_inlining_positions; split_ifs <;> rfl

@[simp] theorem rule_deopt_inlining_positions_frame_pointer (v : VMData) : (rule_deopt_inlining_positions v).frame_pointer = v.frame_pointer := by unfold rule_deopt_inlining_positions; split_ifs <;> rfl

@[simp] theorem rule_deopt_inlining_positions_code_kind (v : VMData) : (rule_deopt_inlining_positions v).code_kind = v.code_kind := by unfold rule_deopt_inlining_positions; split_ifs <;> rfl

@[simp] theorem rule_deopt_inlining_positions_typ (v : VMData) : (rule_deopt_inlining_positions v).typ = v.typ := by unfold rule_deopt_inlining_positions; split_ifs <;> rfl

@[simp] theorem rule_deopt_inlining_positions_heap_object (v : VMData) : (rule_deopt_inlining_positions v).heap_object = v.heap_object := by unfold rule_deopt_inlining_positions; split_ifs <;> rfl

@[simp] theorem rule_deopt_inlining_positions_fixed_array_base (v : VMData) : (rule_deopt_inlining_positions v).fixed_array_base = v.fixed_array_base := by unfold rule_deopt_inlining_positions; split_ifs <;> rfl

@[simp] theorem rule_deopt_inlining_positions_jsfunction (v : VMData) : (rule_deopt_inlining_positions v).jsfunction = v.jsfunction := by unfold rule_deopt_inlining_positions; split_ifs <;> rfl

@[simp] theorem rule_deopt_inlining_positions_code (v : VMData) : (rule_deopt_inlining_positions v).code = v.code := by unfold rule_deopt_inlining_positions; split_ifs <;> rfl

@[simp] theorem rule_deopt_inlining_positions_baseline_data (v : VMData) : (rule_deopt_inlining_positions v).baseline_data = v.baseline_data := by unfold rule_deopt_inlining_positions; split_ifs <;> rfl

@[simp] theorem rule_deopt_inlining_positions_bytecode_array (v : VMData) : (rule_deopt_inlining_positions v).bytecode_array = v.bytecode_array := by unfold rule_deopt_inlining_positions; split_ifs <;> rfl

@[simp] theorem rule_deopt_inlining_positions_script (v : VMData) : (rule_deopt_inlining_positions v).script = v.script := by unfold rule_deopt_inlining_positions; split_ifs <;> rfl

@[simp] theorem rule_deopt_inlining_positions_deoptimization_data_index_inlined_function_count (v : VMData) : (rule_deopt_inlining_positions v).deoptimization_data_index.inlined_function_count = v.deoptimization_data_index.inlined_function_count := by unfold rule_deopt_inlining_positions; split_ifs <;> rfl

@[simp] theorem rule_deopt_inlining_positions_deoptimization_data_index_literal_array (v : VMData) : (rule_deopt_inlining_positions v).deoptimization_data_index.literal_array = v.deoptimization_data_index.literal_array := by unfold rule_deopt_inlining_positions; split_ifs <;> rfl

@[simp] theorem rule_deopt_inlining_positions_deoptimization_data_index_shared_function_info (v : VMData) : (rule_deopt_inlining_positions v).deoptimization_data_index.shared_function_info = v.deoptimization_data_index.shared_function_info := by unfold rule_deopt_inlining_positions; split_ifs <;> rfl

@[simp] theorem rule_deopt_inlining_positions_deoptimization_data_index_inlining_positions (v : VMData) : (rule_deopt_inlining_positions v).deoptimization_data_index.inlining_positions = if v.deoptimization_data_index.inlining_positions = 0 then add8 v.deoptimization_data_index.shared_function_info 1 else v.deoptimization_data_index.inlining_positions := by unfold rule_deopt_inlining_positions; split_ifs <;> rfl

@[simp] theorem rule_code_kind_fixed (ver : Nat) (v : VMData) : (rule_code_kind ver v).fixed = v.fixed := by unfold rule_code_kind; split_ifs <;> rfl

@[simp] theorem rule_code_kind_frame_pointer (ver : Nat) (v : VMData) : (rule_code_kind ver v).frame_pointer = v.frame_pointer := by unfold rule_code_kind; split_ifs <;> rfl

@[simp] theorem rule_code_kind_deoptimization_data_index (ver : Nat) (v : VMData) : (rule_code_kind ver v).deoptimization_data_index = v.deoptimization_data_index := by unfold rule_code_kind; split_ifs <;> rfl

@[simp] theorem rule_code_kind_typ (ver : Nat) (v : VMData) : (rule_code_kind ver v).typ = v.typ := by unfold rule_code_kind; split_ifs <;> rfl

@[simp] theorem rule_code_kind_heap_object (ver : Nat) (v : VMData) : (rule_code_kind ver v).heap_object = v.heap_object := by unfold rule_code_kind; split_ifs <;> rfl

@[simp] theorem rule_code_kind_fixed_array_base (ver : Nat) (v : VMData) : (rule_code_kind ver v).fixed_array_base = v.fixed_array_base := by unfold rule_code_kind; split_ifs <;> rfl

@[simp] theorem rule_code_kind_jsfunction (ver : Nat) (v : VMData) : (rule_code_kind ver v).jsfunction = v.jsfunction := by unfold rule_code_kind; split_ifs <;> rfl

@[simp] theorem rule_code_kind_code (ver : Nat) (v : VMData) : (rule_code_kind ver v).code = v.code := by unfold rule_code_kind; split_ifs <;> rfl

@[simp] theorem rule_code_kind_baseline_data (ver : Nat) (v : VMData) : (rule_code_kind ver v).baseline_data = v.baseline_data := by unfold rule_code_kind; split_ifs <;> rfl

@[simp] theorem rule_code_kind_bytecode_array (ver : Nat) (v : VMData) : (rule_code_kind ver v).bytecode_array = v.bytecode_array := by unfold rule_code_kind; split_ifs <;> rfl

@[simp] theorem rule_code_kind_script (ver : Nat) (v : VMData) : (rule_code_kind ver v).script = v.script := by unfold rule_code_kind; split_ifs <;> rfl

@[simp] theorem rule_code_kind_code_kind_field_mask (ver : Nat) (v : VMData) : (rule_code_kind ver v).code_kind.field_mask = if v.code_kind.baseline = 0 then (if v8_ver 9 0 240 ≤ ver then 15 else v.code_kind.field_mask) else v.code_kind.field_mask := by unfold rule_code_kind; split_ifs <;> rfl

@[simp] theorem rule_code_kind_code_kind_field_shift (ver : Nat) (v : VMData) : (rule_code_kind ver v).code_kind.field_shift = if v.code_kind.baseline = 0 then (if v8_ver 9 0 240 ≤ ver then 0 else v.code_kind.field_shift) else v.code_kind.field_shift := by unfold rule_code_kind; split_ifs <;> rfl

@[simp] theorem rule_code_kind_code_kind_baseline (ver : Nat) (v : VMData) : (rule_code_kind ver v).code_kind.baseline = if v.code_kind.baseline = 0 then (if v8_ver 9 0 240 ≤ ver then 11 else 255) else v.code_kind.baseline := by unfold rule_code_kind; split_ifs <;> rfl

@[simp] theorem rule_baseline_data_fixed (v : VMData) : (rule_baseline_data v).fixed = v.fixed := by unfold rule_baseline_data; split_ifs <;> rfl

@[simp] theorem rule_baseline_data_frame_pointer (v : VMData) : (rule_baseline_data v).frame_pointer = v.frame_pointer := by unfold rule_baseline_data; split_ifs <;> rfl

@[simp] theorem rule_baseline_data_deoptimization_data_index (v : VMData) : (rule_baseline_data v).deoptimization_data_index = v.deoptimization_data_index := by unfold rule_baseline_data; split_ifs <;> rfl

@[simp] theorem rule_baseline_data_code_kind (v : VMData) : (rule_baseline_data v).code_kind = v.code_kind := by unfold rule_baseline_data; split_ifs <;> rfl

@[simp] theorem rule_baseline_data_typ (v : VMData) : (rule_baseline_data v).typ = v.typ := by unfold rule_baseline_data; split_ifs <;> rfl

@[simp] theorem rule_baseline_data_heap_object (v : VMData) : (rule_baseline_data v).heap_object = v.heap_object := by unfold rule_baseline_data; split_ifs <;> rfl

@[simp] theorem rule_baseline_data_fixed_array_base (v : VMData) : (rule_baseline_data v).fixed_array_base = v.fixed_array_base := by unfold rule_baseline_data; split_ifs <;> rfl

@[simp] theorem rule_baseline_data_jsfunction (v : VMData) : (rule_baseline_data v).jsfunction = v.jsfunction := by unfold rule_baseline_data; split_ifs <;> rfl

@[simp] theorem rule_baseline_data_code (v : VMData) : (rule_baseline_data v).code = v.code := by unfold rule_baseline_data; split_ifs <;> rfl

@[simp] theorem rule_baseline_data_bytecode_array (v : VMData) : (rule_baseline_data v).bytecode_array = v.bytecode_array := by unfold rule_baseline_data; split_ifs <;> rfl

@[simp] theorem rule_baseline_data_script (v : VMData) : (rule_baseline_data v).script = v.script := by unfold rule_baseline_data; split_ifs <;> rfl

@[simp] theorem rule_baseline_data_baseline_data_data (v : VMData) : (rule_baseline_data v).baseline_data.data = if v.baseline_data.data = 0 ∧ v.code_kind.field_mask ≠ 0 then add16 v.heap_object.map (2 * pointer_size) else v.baseline_data.data := by unfold rule_baseline_data; split_ifs <;> rfl




@[simp] theorem code_then_spt_dd (c : Code) : (code_then_spt c).deoptimization_data = c.deoptimization_data := by unfold code_then_spt; split_ifs <;> rfl

@[simp] theorem code_then_spt_spt (c : Code) : (code_then_spt c).source_position_table = if c.source_position_table = 0 then sub16 c.instruction_size (2 * pointer_size) else c.source_position_table := by unfold code_then_spt; split_ifs <;> rfl

@[simp] theorem code_then_spt_istart (c : Code) : (code_then_spt c).instruction_start = c.instruction_start := by unfold code_then_spt; split_ifs <;> rfl

@[simp] theorem code_then_spt_isize (c : Code) : (code_then_spt c).instruction_size = c.instruction_size := by unfold code_then_spt; split_ifs <;> rfl

@[simp] theorem code_then_spt_flags (c : Code) : (code_then_spt c).flags = c.flags := by unfold code_then_spt; split_ifs <;> rfl

@[simp] theorem code_then_flags_dd (c : Code) : (code_then_flags c).deoptimization_data = c.deoptimization_data := by unfold code_then_flags; split_ifs <;> rfl

@[simp] theorem code_then_flags_spt (c : Code) : (code_then_flags c).source_position_table = c.source_position_table := by unfold code_then_flags; split_ifs <;> rfl

@[simp] theorem code_then_flags_istart (c : Code) : (code_then_flags c).instruction_start = c.instruction_start := by unfold code_then_flags; split_ifs <;> rfl

@[simp] theorem code_then_flags_isize (c : Code) : (code_then_flags c).instruction_size = c.instruction_size := by unfold code_then_flags; split_ifs <;> rfl

@[simp] theorem code_then_flags_flags (c : Code) : (code_then_flags c).flags = if c.flags = 0 then add16 c.instruction_size (2 * 4) else c.flags := by unfold code_then_flags; split_ifs <;> rfl

@[simp] theorem code_else_deopt_dd (c : Code) : (code_else_deopt c).deoptimization_data = if c.deoptimization_data = 0 then sub16 c.source_position_table pointer_size else c.deoptimization_data := by unfold code_else_deopt; split_ifs <;> rfl

@[simp] theorem code_else_deopt_spt (c : Code) : (code_else_deopt c).source_position_table = c.source_position_table := by unfold code_else_deopt; split_ifs <;> rfl

@[simp] theorem code_else_deopt_istart (c : Code) : (code_else_deopt c).instruction_start = c.instruction_start := by unfold code_else_deopt; split_ifs <;> rfl

@[simp] theorem code_else_deopt_isize (c : Code) : (code_else_deopt c).instruction_size = c.instruction_size := by unfold code_else_deopt; split_ifs <;> rfl

@[simp] theorem code_else_deopt_flags (c : Code) : (code_else_deopt c).flags = c.flags := by unfold code_else_deopt; split_ifs <;> rfl

@[simp] theorem code_else_start_dd (c : Code) : (code_else_start c).deoptimization_data = c.deoptimization_data := by unfold code_else_start; split_ifs <;> rfl

@[simp] theorem code_else_start_spt (c : Code) : (code_else_start c).source_position_table = c.source_position_table := by unfold code_else_start; split_ifs <;> rfl

@[simp] theorem code_else_start_istart (c : Code) : (code_else_start c).instruction_start = if c.instruction_start = 0 then add16 c.source_position_table (2 * pointer_size) else c.instruction_start := by unfold code_else_start; split_ifs <;> rfl

@[simp] theorem code_else_start_isize (c : Code) : (code_else_start c).instruction_size = c.instruction_size := by unfold code_else_start; split_ifs <;> rfl

@[simp] theorem code_else_start_flags (c : Code) : (code_else_start c).flags = c.flags := by unfold code_else_start; split_ifs <;> rfl

@[simp] theorem code_else_flags_dd (c : Code) : (code_else_flags c).deoptimization_data = c.deoptimization_data := by unfold code_else_flags; split_ifs <;> rfl

@[simp] theorem code_else_flags_spt (c : Code) : (code_else_flags c).source_position_table = c.source_position_table := by unfold code_else_flags; split_ifs <;> rfl

@[simp] theorem code_else_flags_istart (c : Code) : (code_else_flags c).instruction_start = c.instruction_start := by unfold code_else_flags; split_ifs <;> rfl

@[simp] theorem code_else_flags_isize (c : Code) : (code_else_flags c).instruction_size = c.instruction_size := by unfold code_else_flags; split_ifs <;> rfl

@[simp] theorem code_else_flags_flags (c : Code) : (code_else_flags c).flags = if c.flags = 0 then add16 c.instruction_start pointer_size else c.flags := by unfold code_else_flags; split_ifs <;> rfl

@[simp] theorem code_else_size_dd (ver : Nat) (c : Code) : (code_else_size ver c).deoptimization_data = c.deoptimization_data := by unfold code_else_size; split_ifs <;> rfl

@[simp] theorem code_else_size_spt (ver : Nat) (c : Code) : (code_else_size ver c).source_position_table = c.source_position_table := by unfold code_else_size; split_ifs <;> rfl

@[simp] theorem code_else_size_istart (ver : Nat) (c : Code) : (code_else_size ver c).instruction_start = c.instruction_start := by unfold code_else_size; split_ifs <;> rfl

@[simp] theorem code_else_size_isize (ver : Nat) (c : Code) : (code_else_size ver c).instruction_size = if c.instruction_size = 0 then (if v8_ver 11 4 59 ≤ ver then add16 (add16 c.flags 4) (2 + 2) else add16 c.flags 4) else c.instruction_size := by unfold code_else_size; split_ifs <;> rfl

@[simp] theorem code_else_size_flags (ver : Nat) (c : Code) : (code_else_size ver c).flags = c.flags := by unfold code_else_size; split_ifs <;> rfl

@[simp] theorem code_deopt_rule_dd (c : Code) : (code_deopt_rule c).deoptimization_data = if c.deoptimization_data = 0 ∧ c.source_position_table ≠ 0 then sub16 c.source_position_table pointer_size else c.deoptimization_data := by unfold code_deopt_rule; split_ifs <;> rfl

@[simp] theorem code_deopt_rule_spt (c : Code) : (code_deopt_rule c).source_position_table = c.source_position_table := by unfold code_deopt_rule; split_ifs <;> rfl

@[simp] theorem code_deopt_rule_istart (c : Code) : (code_deopt_rule c).instruction_start = c.instruction_start := by unfold code_deopt_rule; split_ifs <;> rfl

@[simp] theorem code_deopt_rule_isize (c : Code) : (code_deopt_rule c).instruction_size = c.instruction_size := by unfold code_deopt_rule; split_ifs <;> rfl

@[simp] theorem code_deopt_rule_flags (c : Code) : (code_deopt_rule c).flags = c.flags := by unfold code_deopt_rule; split_ifs <;> rfl

@[simp] theorem code_rule_dd (ver : Nat) (c : Code) : (code_rule ver c).deoptimization_data = if c.instruction_size ≠ 0 then c.deoptimization_data else if c.source_position_table ≠ 0 then (if c.deoptimization_data = 0 then sub16 c.source_position_table pointer_size else c.deoptimization_data) else c.deoptimization_data := by unfold code_rule; split_ifs <;> simp_all

@[simp] theorem code_rule_spt (ver : Nat) (c : Code) : (code_rule ver c).source_position_table = if c.instruction_size ≠ 0 then (if c.source_position_table = 0 then sub16 c.instruction_size (2 * pointer_size) else c.source_position_table) else c.source_position_table := by unfold code_rule; split_ifs <;> simp_all

@[simp] theorem code_rule_istart (ver : Nat) (c : Code) : (code_rule ver c).instruction_start = if c.instruction_size ≠ 0 then c.instruction_start else if c.source_position_table ≠ 0 then (if c.instruction_start = 0 then add16 c.source_position_table (2 * pointer_size) else c.instruction_start) else c.instruction_start := by unfold code_rule; split_ifs <;> simp_all

@[simp] theorem code_rule_isize (ver : Nat) (c : Code) : (code_rule ver c).instruction_size = if c.instruction_size ≠ 0 then c.instruction_size else if c.source_position_table ≠ 0 then (if v8_ver 11 4 59 ≤ ver then add16 (add16 (if c.flags = 0 then add16 (if c.instruction_start = 0 then add16 c.source_position_table (2 * pointer_size) else c.instruction_start) pointer_size else c.flags) 4) (2 + 2) else add16 (if c.flags = 0 then add16 (if c.instruction_start = 0 then add16 c.source_position_table (2 * pointer_size) else c.instruction_start) pointer_size else c.flags) 4) else c.instruction_size := by unfold code_rule; split_ifs <;> simp_all

@[simp] theorem code_rule_flags (ver : Nat) (c : Code) : (code_rule ver c).flags = if c.instruction_size ≠ 0 then (if c.flags = 0 then add16 c.instruction_size (2 * 4) else c.flags) else if c.source_position_table ≠ 0 then (if c.flags = 0 then add16 (if c.instruction_start = 0 then add16 c.source_position_table (2 * pointer_size) else c.instruction_start) pointer_size else c.flags) else c.flags := by unfold code_rule; split_ifs <;> simp_all

theorem bridge_then_spt (v : VMData) : (rule_code_then_spt v).code = code_then_spt v.code := by unfold rule_code_then_spt code_then_spt; split_ifs <;> rfl

theorem bridge_then_flags (v : VMData) : (rule_code_then_flags v).code = code_then_flags v.code := by unfold rule_code_then_flags code_then_flags; split_ifs <;> rfl

theorem bridge_else_deopt (v : VMData) : (rule_code_else_deopt v).code = code_else_deopt v.code := by unfold rule_code_else_deopt code_else_deopt; split_ifs <;> rfl

theorem bridge_else_start (v : VMData) : (rule_code_else_start v).code = code_else_start v.code := by unfold rule_code_else_start code_else_start; split_ifs <;> rfl

theorem bridge_else_flags (v : VMData) : (rule_code_else_flags v).code = code_else_flags v.code := by unfold rule_code_else_flags code_else_flags; split_ifs <;> rfl

theorem bridge_else_size (ver : Nat) (v : VMData) : (rule_code_else_size ver v).code = code_else_size ver v.code := by unfold rule_code_else_size code_else_size; split_ifs <;> rfl

theorem bridge_code_rule (ver : Nat) (v : VMData) : (rule_code ver v).code = code_rule ver v.code := by
  unfold rule_code code_rule
  split_ifs with h1 h2
  · rw [bridge_then_flags, bridge_then_spt]
  · rw [bridge_else_size, bridge_else_flags, bridge_else_start, bridge_else_deopt]
  · rfl

theorem bridge_code_deopt (v : VMData) : (rule_code_deopt v).code = code_deopt_rule v.code := by unfold rule_code_deopt code_deopt_rule; split_ifs <;> rfl

theorem backfill_code (ver : Nat) (v : VMData) : (backfill ver v).code = code_pass ver v.code := by
  unfold backfill code_pass
  rw [rule_baseline_data_code, rule_code_kind_code]
  rw [rule_deopt_inlining_positions_code, rule_deopt_shared_function_info_code]
  rw [rule_deopt_literal_array_code, rule_deopt_inlined_function_count_code]
  rw [rule_ba_data_code, rule_ba_spt_code, rule_script_source_code]
  rw [bridge_code_deopt, bridge_code_rule]
  rw [rule_jsfunction_code_code, rule_jsfunction_type_code]
  rw [rule_fp_bytecode_offset_code, rule_fp_bytecode_array_code]

theorem cp_spt (ver : Nat) (c : Code) :
    (code_pass ver c).instruction_size ≠ 0 →
      ((code_pass ver c).source_position_table ≠ 0 ∨
       (code_pass ver c).source_position_table =
         sub16 (code_pass ver c).instruction_size (2 * pointer_size)) := by
  by_cases h1 : c.instruction_size = 0 <;>
    by_cases h2 : c.source_position_table = 0 <;>
    by_cases ht : v8_ver 11 4 59 ≤ ver <;>
    simp [code_pass, h1, h2, ht]

theorem cp_flags (ver : Nat) (c : Code)
    (H : c.instruction_size ≠ 0 ∨ (code_pass ver c).flags ≠ 0 ∨
         (code_pass ver c).instruction_size = 0) :
    (code_pass ver c).instruction_size ≠ 0 →
      ((code_pass ver c).flags ≠ 0 ∨
       (code_pass ver c).flags = add16 (code_pass ver c).instruction_size (2 * 4)) := by
  rcases H with H | H | H
  · by_cases h2 : c.flags = 0 <;>
      by_cases ht : v8_ver 11 4 59 ≤ ver <;>
      simp [code_pass, H, h2, ht]
  · exact fun _ => Or.inl H
  · exact fun h => absurd H h

theorem cp_deopt (ver : Nat) (c : Code) :
    (code_pass ver c).deoptimization_data ≠ 0 ∨
    (code_pass ver c).source_position_table = 0 ∨
    (code_pass ver c).deoptimization_data =
      sub16 (code_pass ver c).source_position_table pointer_size := by
  by_cases h1 : c.instruction_size = 0 <;>
    by_cases h2 : c.source_position_table = 0 <;>
    by_cases h3 : c.deoptimization_data = 0 <;>
    by_cases ht : v8_ver 11 4 59 ≤ ver <;>
    simp [code_pass, h1, h2, h3, ht] <;> exact Or.inr (dite _ (fun hA => Or.inl hA) (fun hA => Or.inr (fun h => absurd h hA)))

theorem cp_else_start (ver : Nat) (c : Code) :
    (code_pass ver c).instruction_size = 0 →
    (code_pass ver c).source_position_table ≠ 0 →
      ((code_pass ver c).instruction_start ≠ 0 ∨
       (code_pass ver c).instruction_start =
         add16 (code_pass ver c).source_position_table (2 * pointer_size)) := by
  by_cases h1 : c.instruction_size = 0 <;>
    by_cases h2 : c.source_position_table = 0 <;>
    by_cases h3 : c.instruction_start = 0 <;>
    by_cases ht : v8_ver 11 4 59 ≤ ver <;>
    simp [code_pass, h1, h2, h3, ht]

theorem cp_else_flags (ver : Nat) (c : Code) :
    (code_pass ver c).instruction_size = 0 →
    (code_pass ver c).source_position_table ≠ 0 →
      ((code_pass ver c).flags ≠ 0 ∨
       (code_pass ver c).flags = add16 (code_pass ver c).instruction_start pointer_size) := by
  by_cases h1 : c.instruction_size = 0 <;>
    by_cases h2 : c.source_position_table = 0 <;>
    by_cases h3 : c.flags = 0 <;>
    by_cases h4 : c.instruction_start = 0 <;>
    by_cases ht : v8_ver 11 4 59 ≤ ver <;>
    simp [code_pass, h1, h2, h3, h4, ht]

theorem cp_else_size (ver : Nat) (c : Code) :
    (code_pass ver c).instruction_size = 0 →
    (code_pass ver c).source_position_table ≠ 0 →
      (code_pass ver c).instruction_size =
        (if v8_ver 11 4 59 ≤ ver then add16 (add16 (code_pass ver c).flags 4) (2 + 2)
         else add16 (code_pass ver c).flags 4) := by
  by_cases h1 : c.instruction_size = 0 <;>
    by_cases h2 : c.source_position_table = 0 <;>
    by_cases h3 : c.flags = 0 <;>
    by_cases ht : v8_ver 11 4 59 ≤ ver <;>
    simp [code_pass, h1, h2, h3, ht]

set_option maxRecDepth 2000

-- Post-facts: after one backfill pass, every rule's guard field is either
-- non-sentinel or already equal to what the rule would recompute, so a
-- second pass cannot change it (except for the documented flags wrap case).

set_option maxHeartbeats 2000000 in
theorem post_fp_ba (ver : Nat) (v : VMData) :
    (backfill ver v).frame_pointer.bytecode_array ≠ 0 ∨
    (backfill ver v).frame_pointer.bytecode_array =
      (if v8_ver 8 7 198 ≤ ver then
        sub8 (backfill ver v).frame_pointer.function (2 * pointer_size)
      else sub8 (backfill ver v).frame_pointer.function (1 * pointer_size)) := by
  by_cases h : v.frame_pointer.bytecode_array = 0 <;>
    by_cases ht : v8_ver 8 7 198 ≤ ver <;>
    simp [backfill, rule_code, h, ht] <;> (try split_ifs) <;> (try simp_all) <;> (try tauto)

set_option maxHeartbeats 2000000 in
theorem post_fp_bo (ver : Nat) (v : VMData) :
    (backfill ver v).frame_pointer.bytecode_offset ≠ 0 ∨
    (backfill ver v).frame_pointer.bytecode_offset =
      sub8 (backfill ver v).frame_pointer.bytecode_array pointer_size := by
  by_cases h : v.frame_pointer.bytecode_offset = 0 <;>
    by_cases hba : v.frame_pointer.bytecode_array = 0 <;>
    by_cases ht : v8_ver 8 7 198 ≤ ver <;>
    simp [backfill, rule_code, h, hba, ht] <;> (try split_ifs) <;> (try simp_all) <;> (try tauto)

theorem post_jsfunction_type (ver : Nat) (v : VMData) :
    (backfill ver v).fixed.first_jsfunction_type ≠ 0 ∨
    ((backfill ver v).fixed.first_jsfunction_type = (backfill ver v).typ.js_function ∧
     (backfill ver v).fixed.last_jsfunction_type =
       sub16 (add16 (backfill ver v).typ.js_function
         (if v8_ver 9 6 138 ≤ ver then 15 else if v8_ver 9 0 14 ≤ ver then 14 else 1)) 1) := by
  by_cases h : v.fixed.first_jsfunction_type = 0 <;>
    by_cases ht1 : v8_ver 9 6 138 ≤ ver <;> by_cases ht2 : v8_ver 9 0 14 ≤ ver <;>
    simp [backfill, rule_code, h, ht1, ht2] <;> (try split_ifs) <;> (try simp_all) <;> (try tauto)

theorem post_jsfunction_code (ver : Nat) (v : VMData) :
    (backfill ver v).jsfunction.code ≠ 0 ∨
    (backfill ver v).jsfunction.code =
      (if v8_ver 11 7 368 ≤ ver then
        sub16 (backfill ver v).jsfunction.shared_function_info pointer_size
      else add16 (backfill ver v).jsfunction.shared_function_info (3 * pointer_size)) := by
  by_cases h : v.jsfunction.code = 0 <;>
    by_cases ht : v8_ver 11 7 368 ≤ ver <;>
    simp [backfill, rule_code, h, ht] <;> (try split_ifs) <;> (try simp_all) <;> (try tauto)

theorem post_code_spt (ver : Nat) (v : VMData) :
    (backfill ver v).code.instruction_size ≠ 0 →
      ((backfill ver v).code.source_position_table ≠ 0 ∨
       (backfill ver v).code.source_position_table =
         sub16 (backfill ver v).code.instruction_size (2 * pointer_size)) := by
  rw [backfill_code ver v]
  exact cp_spt ver v.code

theorem post_code_flags (ver : Nat) (v : VMData)
    (H : v.code.instruction_size ≠ 0 ∨ (backfill ver v).code.flags ≠ 0 ∨
         (backfill ver v).code.instruction_size = 0) :
    (backfill ver v).code.instruction_size ≠ 0 →
      ((backfill ver v).code.flags ≠ 0 ∨
       (backfill ver v).code.flags = add16 (backfill ver v).code.instruction_size (2 * 4)) := by
  rw [backfill_code ver v] at H ⊢
  exact cp_flags ver v.code H

theorem post_code_deopt (ver : Nat) (v : VMData) :
    (backfill ver v).code.deoptimization_data ≠ 0 ∨
    (backfill ver v).code.source_position_table = 0 ∨
    (backfill ver v).code.deoptimization_data =
      sub16 (backfill ver v).code.source_position_table pointer_size := by
  rw [backfill_code ver v]
  exact cp_deopt ver v.code

theorem post_code_else_start (ver : Nat) (v : VMData) :
    (backfill ver v).code.instruction_size = 0 →
    (backfill ver v).code.source_position_table ≠ 0 →
      ((backfill ver v).code.instruction_start ≠ 0 ∨
       (backfill ver v).code.instruction_start =
         add16 (backfill ver v).code.source_position_table (2 * pointer_size)) := by
  rw [backfill_code ver v]
  exact cp_else_start ver v.code

theorem post_code_else_flags (ver : Nat) (v : VMData) :
    (backfill ver v).code.instruction_size = 0 →
    (backfill ver v).code.source_position_table ≠ 0 →
      ((backfill ver v).code.flags ≠ 0 ∨
       (backfill ver v).code.flags =
         add16 (backfill ver v).code.instruction_start pointer_size) := by
  rw [backfill_code ver v]
  exact cp_else_flags ver v.code

theorem post_code_else_size (ver : Nat) (v : VMData) :
    (backfill ver v).code.instruction_size = 0 →
    (backfill ver v).code.source_position_table ≠ 0 →
      (backfill ver v).code.instruction_size =
        (if v8_ver 11 4 59 ≤ ver then add16 (add16 (backfill ver v).code.flags 4) (2 + 2)
         else add16 (backfill ver v).code.flags 4) := by
  rw [backfill_code ver v]
  exact cp_else_size ver v.code

theorem post_script_source (ver : Nat) (v : VMData) :
    (backfill ver v).script.source ≠ 0 ∨
    (backfill ver v).script.source = sub16 (backfill ver v).script.name pointer_size := by
  by_cases h : v.script.source = 0 <;>
    simp [backfill, rule_code, h] <;> (try split_ifs) <;> (try simp_all) <;> (try tauto)

theorem post_ba_spt (ver : Nat) (v : VMData) :
    (backfill ver v).bytecode_array.source_position_table ≠ 0 ∨
    (backfill ver v).bytecode_array.source_position_table =
      add16 (backfill ver v).fixed_array_base.length (3 * pointer_size) := by
  by_cases h : v.bytecode_array.source_position_table = 0 <;>
    simp [backfill, rule_code, h] <;> (try split_ifs) <;> (try simp_all) <;> (try tauto)

theorem post_ba_data (ver : Nat) (v : VMData) :
    (backfill ver v).bytecode_array.data ≠ 0 ∨
    (backfill ver v).bytecode_array.data =
      add16 (add16 (backfill ver v).bytecode_array.source_position_table pointer_size) 14 := by
  by_cases h : v.bytecode_array.data = 0 <;>
    simp [backfill, rule_code, h] <;> (try split_ifs) <;> (try simp_all) <;> (try tauto)

theorem post_deopt_ifc (ver : Nat) (v : VMData) :
    (backfill ver v).deoptimization_data_index.inlined_function_count ≠ 0 := by
  by_cases h : v.deoptimization_data_index.inlined_function_count = 0 <;>
    simp [backfill, rule_code, h]

theorem post_deopt_la (ver : Nat) (v : VMData) :
    (backfill ver v).deoptimization_data_index.literal_array ≠ 0 ∨
    (backfill ver v).deoptimization_data_index.literal_array =
      add8 (backfill ver v).deoptimization_data_index.inlined_function_count 1 := by
  by_cases h : v.deoptimization_data_index.literal_array = 0 <;>
    simp [backfill, rule_code, h] <;> (try split_ifs) <;> (try simp_all) <;> (try tauto)

theorem post_deopt_sfi (ver : Nat) (v : VMData) :
    (backfill ver v).deoptimization_data_index.shared_function_info ≠ 0 := by
  by_cases h : v.deoptimization_data_index.shared_function_info = 0 <;>
    simp [backfill, rule_code, h]

theorem post_deopt_ip (ver : Nat) (v : VMData) :
    (backfill ver v).deoptimization_data_index.inlining_positions ≠ 0 ∨
    (backfill ver v).deoptimization_data_index.inlining_positions =
      add8 (backfill ver v).deoptimization_data_index.shared_function_info 1 := by
  by_cases h : v.deoptimization_data_index.inlining_positions = 0 <;>
    simp [backfill, rule_code, h] <;> (try split_ifs) <;> (try simp_all) <;> (try tauto)

theorem post_code_kind (ver : Nat) (v : VMData) :
    (backfill ver v).code_kind.baseline ≠ 0 := by
  by_cases h : v.code_kind.baseline = 0 <;>
    by_cases ht : v8_ver 9 0 240 ≤ ver <;>
    simp [backfill, rule_code, h, ht]

theorem post_baseline_data (ver : Nat) (v : VMData) :
    (backfill ver v).baseline_data.data ≠ 0 ∨
    (backfill ver v).code_kind.field_mask = 0 ∨
    (backfill ver v).baseline_data.data =
      add16 (backfill ver v).heap_object.map (2 * pointer_size) := by
  by_cases h : v.baseline_data.data = 0 <;>
    by_cases h2 : v.code_kind.baseline = 0 <;>
    by_cases ht : v8_ver 9 0 240 ≤ ver <;>
    simp [backfill, rule_code, h, h2, ht] <;> (try split_ifs) <;> (try simp_all) <;> (try tauto)

-- Pass-2 identity lemmas: a rule applied to a state satisfying its
-- post-fact leaves the state unchanged.

theorem id_fp_ba (ver : Nat) (s : VMData)
    (h : s.frame_pointer.bytecode_array ≠ 0 ∨
      s.frame_pointer.bytecode_array =
        (if v8_ver 8 7 198 ≤ ver then sub8 s.frame_pointer.function (2 * pointer_size)
         else sub8 s.frame_pointer.function (1 * pointer_size))) :
    rule_fp_bytecode_array ver s = s := by
  unfold rule_fp_bytecode_array
  rcases h with h | h
  · rw [if_neg h]
  · by_cases g : s.frame_pointer.bytecode_array = 0
    · by_cases t : v8_ver 8 7 198 ≤ ver
      · rw [if_pos t] at h
        rw [if_pos g, if_pos t, ← h]
      · rw [if_neg t] at h
        rw [if_pos g, if_neg t, ← h]
    · rw [if_neg g]

theorem id_fp_bo (s : VMData)
    (h : s.frame_pointer.bytecode_offset ≠ 0 ∨
      s.frame_pointer.bytecode_offset = sub8 s.frame_pointer.bytecode_array pointer_size) :
    rule_fp_bytecode_offset s = s := by
  unfold rule_fp_bytecode_offset
  rcases h with h | h
  · rw [if_neg h]
  · by_cases g : s.frame_pointer.bytecode_offset = 0
    · rw [if_pos g, ← h]
    · rw [if_neg g]

theorem id_jsfunction_type (ver : Nat) (s : VMData)
    (h : s.fixed.first_jsfunction_type ≠ 0 ∨
      (s.fixed.first_jsfunction_type = s.typ.js_function ∧
       s.fixed.last_jsfunction_type =
         sub16 (add16 s.typ.js_function
           (if v8_ver 9 6 138 ≤ ver then 15 else if v8_ver 9 0 14 ≤ ver then 14 else 1)) 1)) :
    rule_jsfunction_type ver s = s := by
  unfold rule_jsfunction_type
  rcases h with h | ⟨h1, h2⟩
  · rw [if_neg h]
  · by_cases g : s.fixed.first_jsfunction_type = 0
    · rw [if_pos g, ← h2, ← h1]
    · rw [if_neg g]

theorem id_jsfunction_code (ver : Nat) (s : VMData)
    (h : s.jsfunction.code ≠ 0 ∨
      s.jsfunction.code =
        (if v8_ver 11 7 368 ≤ ver then sub16 s.jsfunction.shared_function_info pointer_size
         else add16 s.jsfunction.shared_function_info (3 * pointer_size))) :
    rule_jsfunction_code ver s = s := by
  unfold rule_jsfunction_code
  rcases h with h | h
  · rw [if_neg h]
  · by_cases g : s.jsfunction.code = 0
    · by_cases t : v8_ver 11 7 368 ≤ ver
      · rw [if_pos t] at h
        rw [if_pos g, if_pos t, ← h]
      · rw [if_neg t] at h
        rw [if_pos g, if_neg t, ← h]
    · rw [if_neg g]

theorem id_then_spt (s : VMData)
    (h : s.code.source_position_table ≠ 0 ∨
      s.code.source_position_table = sub16 s.code.instruction_size (2 * pointer_size)) :
    rule_code_then_spt s = s := by
  unfold rule_code_then_spt
  rcases h with h | h
  · rw [if_neg h]
  · by_cases g : s.code.source_position_table = 0
    · rw [if_pos g, ← h]
    · rw [if_neg g]

theorem id_then_flags (s : VMData)
    (h : s.code.flags ≠ 0 ∨ s.code.flags = add16 s.code.instruction_size (2 * 4)) :
    rule_code_then_flags s = s := by
  unfold rule_code_then_flags
  rcases h with h | h
  · rw [if_neg h]
  · by_cases g : s.code.flags = 0
    · rw [if_pos g, ← h]
    · rw [if_neg g]

theorem id_else_deopt (s : VMData)
    (h : s.code.deoptimization_data ≠ 0 ∨
      s.code.deoptimization_data = sub16 s.code.source_position_table pointer_size) :
    rule_code_else_deopt s = s := by
  unfold rule_code_else_deopt
  rcases h with h | h
  · rw [if_neg h]
  · by_cases g : s.code.deoptimization_data = 0
    · rw [if_pos g, ← h]
    · rw [if_neg g]

theorem id_else_start (s : VMData)
    (h : s.code.instruction_start ≠ 0 ∨
      s.code.instruction_start = add16 s.code.source_position_table (2 * pointer_size)) :
    rule_code_else_start s = s := by
  unfold rule_code_else_start
  rcases h with h | h
  · rw [if_neg h]
  · by_cases g : s.code.instruction_start = 0
    · rw [if_pos g, ← h]
    · rw [if_neg g]

theorem id_else_flags (s : VMData)
    (h : s.code.flags ≠ 0 ∨ s.code.flags = add16 s.code.instruction_start pointer_size) :
    rule_code_else_flags s = s := by
  unfold rule_code_else_flags
  rcases h with h | h
  · rw [if_neg h]
  · by_cases g : s.code.flags = 0
    · rw [if_pos g, ← h]
    · rw [if_neg g]

theorem id_else_size (ver : Nat) (s : VMData)
    (h : s.code.instruction_size ≠ 0 ∨
      s.code.instruction_size =
        (if v8_ver 11 4 59 ≤ ver then add16 (add16 s.code.flags 4) (2 + 2)
         else add16 s.code.flags 4)) :
    rule_code_else_size ver s = s := by
  unfold rule_code_else_size
  rcases h with h | h
  · rw [if_neg h]
  · by_cases g : s.code.instruction_size = 0
    · rw [if_pos g, ← h]
    · rw [if_neg g]

theorem id_rule_code (ver : Nat) (s : VMData)
    (hspt : s.code.instruction_size ≠ 0 →
      (s.code.source_position_table ≠ 0 ∨
       s.code.source_position_table = sub16 s.code.instruction_size (2 * pointer_size)))
    (hflags : s.code.instruction_size ≠ 0 →
      (s.code.flags ≠ 0 ∨ s.code.flags = add16 s.code.instruction_size (2 * 4)))
    (hdd : s.code.deoptimization_data ≠ 0 ∨ s.code.source_position_table = 0 ∨
      s.code.deoptimization_data = sub16 s.code.source_position_table pointer_size)
    (histart : s.code.instruction_size = 0 → s.code.source_position_table ≠ 0 →
      (s.code.instruction_start ≠ 0 ∨
       s.code.instruction_start = add16 s.code.source_position_table (2 * pointer_size)))
    (hflags2 : s.code.instruction_size = 0 → s.code.source_position_table ≠ 0 →
      (s.code.flags ≠ 0 ∨ s.code.flags = add16 s.code.instruction_start pointer_size))
    (hsize : s.code.instruction_size = 0 → s.code.source_position_table ≠ 0 →
      s.code.instruction_size =
        (if v8_ver 11 4 59 ≤ ver then add16 (add16 s.code.flags 4) (2 + 2)
         else add16 s.code.flags 4)) :
    rule_code ver s = s := by
  unfold rule_code
  by_cases g : s.code.instruction_size ≠ 0
  · rw [if_pos g, id_then_spt s (hspt g), id_then_flags s (hflags g)]
  · have g0 : s.code.instruction_size = 0 := not_ne_iff.mp g
    rw [if_neg g]
    by_cases g2 : s.code.source_position_table ≠ 0
    · have hd : s.code.deoptimization_data ≠ 0 ∨
          s.code.deoptimization_data = sub16 s.code.source_position_table pointer_size := by
        rcases hdd with h | h | h
        · exact Or.inl h
        · exact absurd h g2
        · exact Or.inr h
      rw [if_pos g2, id_else_deopt s hd, id_else_start s (histart g0 g2),
        id_else_flags s (hflags2 g0 g2), id_else_size ver s (Or.inr (hsize g0 g2))]
    · rw [if_neg g2]

theorem id_code_deopt (s : VMData)
    (h : s.code.deoptimization_data ≠ 0 ∨ s.code.source_position_table = 0 ∨
      s.code.deoptimization_data = sub16 s.code.source_position_table pointer_size) :
    rule_code_deopt s = s := by
  unfold rule_code_deopt
  by_cases g : s.code.deoptimization_data = 0 ∧ s.code.source_position_table ≠ 0
  · rcases h with h | h | h
    · exact absurd g.1 h
    · exact absurd h g.2
    · rw [if_pos g, ← h]
  · rw [if_neg g]

theorem id_script_source (s : VMData)
    (h : s.script.source ≠ 0 ∨ s.script.source = sub16 s.script.name pointer_size) :
    rule_script_source s = s := by
  unfold rule_script_source
  rcases h with h | h
  · rw [if_neg h]
  · by_cases g : s.script.source = 0
    · rw [if_pos g, ← h]
    · rw [if_neg g]

theorem id_ba_spt (s : VMData)
    (h : s.bytecode_array.source_position_table ≠ 0 ∨
      s.bytecode_array.source_position_table =
        add16 s.fixed_array_base.length (3 * pointer_size)) :
    rule_ba_spt s = s := by
  unfold rule_ba_spt
  rcases h with h | h
  · rw [if_neg h]
  · by_cases g : s.bytecode_array.source_position_table = 0
    · rw [if_pos g, ← h]
    · rw [if_neg g]

theorem id_ba_data (s : VMData)
    (h : s.bytecode_array.data ≠ 0 ∨
      s.bytecode_array.data =
        add16 (add16 s.bytecode_array.source_position_table pointer_size) 14) :
    rule_ba_data s = s := by
  unfold rule_ba_data
  rcases h with h | h
  · rw [if_neg h]
  · by_cases g : s.bytecode_array.data = 0
    · rw [if_pos g, ← h]
    · rw [if_neg g]

theorem id_deopt_ifc (s : VMData)
    (h : s.deoptimization_data_index.inlined_function_count ≠ 0) :
    rule_deopt_inlined_function_count s = s := by
  unfold rule_deopt_inlined_function_count
  rw [if_neg h]

theorem id_deopt_la (s : VMData)
    (h : s.deoptimization_data_index.literal_array ≠ 0 ∨
      s.deoptimization_data_index.literal_array =
        add8 s.deoptimization_data_index.inlined_function_count 1) :
    rule_deopt_literal_array s = s := by
  unfold rule_deopt_literal_array
  rcases h with h | h
  · rw [if_neg h]
  · by_cases g : s.deoptimization_data_index.literal_array = 0
    · rw [if_pos g, ← h]
    · rw [if_neg g]

theorem id_deopt_sfi (s : VMData)
    (h : s.deoptimization_data_index.shared_function_info ≠ 0) :
    rule_deopt_shared_function_info s = s := by
  unfold rule_deopt_shared_function_info
  rw [if_neg h]

theorem id_deopt_ip (s : VMData)
    (h : s.deoptimization_data_index.inlining_positions ≠ 0 ∨
      s.deoptimization_data_index.inlining_positions =
        add8 s.deoptimization_data_index.shared_function_info 1) :
    rule_deopt_inlining_positions s = s := by
  unfold rule_deopt_inlining_positions
  rcases h with h | h
  · rw [if_neg h]
  · by_cases g : s.deoptimization_data_index.inlining_positions = 0
    · rw [if_pos g, ← h]
    · rw [if_neg g]

theorem id_code_kind (ver : Nat) (s : VMData)
    (h : s.code_kind.baseline ≠ 0) :
    rule_code_kind ver s = s := by
  unfold rule_code_kind
  rw [if_neg h]

theorem id_baseline_data (s : VMData)
    (h : s.baseline_data.data ≠ 0 ∨ s.code_kind.field_mask = 0 ∨
      s.baseline_data.data = add16 s.heap_object.map (2 * pointer_size)) :
    rule_baseline_data s = s := by
  unfold rule_baseline_data
  by_cases g : s.baseline_data.data = 0 ∧ s.code_kind.field_mask ≠ 0
  · rcases h with h | h | h
    · exact absurd g.1 h
    · exact absurd h g.2
    · rw [if_pos g, ← h]
  · rw [if_neg g]

-- One backfill pass is idempotent, except in the documented wrap-around
-- case: when the pass takes the recovery branch (instruction size absent,
-- source position table present) and the u16 arithmetic leaves the flags
-- offset at zero while deriving a nonzero instruction size.
theorem backfill_idem (ver : Nat) (v : VMData)
    (H : v.code.instruction_size ≠ 0 ∨ (backfill ver v).code.flags ≠ 0 ∨
         (backfill ver v).code.instruction_size = 0) :
    backfill ver (backfill ver v) = backfill ver v := by
  have p1 := post_fp_ba ver v
  have p2 := post_fp_bo ver v
  have p3 := post_jsfunction_type ver v
  have p4 := post_jsfunction_code ver v
  have p5 := post_code_spt ver v
  have p6 := post_code_flags ver v H
  have p7 := post_code_deopt ver v
  have p8 := post_code_else_start ver v
  have p9 := post_code_else_flags ver v
  have p10 := post_code_else_size ver v
  have p11 := post_script_source ver v
  have p12 := post_ba_spt ver v
  have p13 := post_ba_data ver v
  have p14 := post_deopt_ifc ver v
  have p15 := post_deopt_la ver v
  have p16 := post_deopt_sfi ver v
  have p17 := post_deopt_ip ver v
  have p18 := post_code_kind ver v
  have p19 := post_baseline_data ver v
  set r := backfill ver v with hr
  show rule_baseline_data (rule_code_kind ver (rule_deopt_inlining_positions
    (rule_deopt_shared_function_info (rule_deopt_literal_array
    (rule_deopt_inlined_function_count (rule_ba_data (rule_ba_spt
    (rule_script_source (rule_code_deopt (rule_code ver (rule_jsfunction_code ver
    (rule_jsfunction_type ver (rule_fp_bytecode_offset
    (rule_fp_bytecode_array ver r)))))))))))))) = r
  rw [id_fp_ba ver r p1, id_fp_bo r p2, id_jsfunction_type ver r p3,
    id_jsfunction_code ver r p4, id_rule_code ver r p5 p6 p7 p8 p9 p10,
    id_code_deopt r p7, id_script_source r p11, id_ba_spt r p12, id_ba_data r p13,
    id_deopt_ifc r p14, id_deopt_la r p15, id_deopt_sfi r p16, id_deopt_ip r p17,
    id_code_kind ver r p18, id_baseline_data r p19]

-- Helper: one version component read always returns when its symbol is
-- present, and is zero when the memory read fails.
theorem read_version_component_spec (env : Env) (n : String)
    (h : (env.getSymbol n).isSome) :
    ∃ x, read_version_component env n = some x ∧
      (∀ a, env.getSymbol n = some a → env.readAddr a = none → x = 0) := by
  obtain ⟨a, ha⟩ := Option.isSome_iff_exists.mp h
  unfold read_version_component
  rw [ha]
  dsimp only
  cases hr : env.readAddr a
  · refine ⟨0, ?_, fun _ _ _ => rfl⟩
    dsimp only
  · rename_i val
    refine ⟨val % M32, ?_, fun a2 ha2 hr2 => ?_⟩
    · dsimp only
    · injection ha2 with ha3
      rw [← ha3, hr] at hr2
      exact Option.noConfusion hr2

-- Helper: on any target whose process opens, whose process info builds and
-- whose version symbols are present, the driver returns ok with the version
-- it read; the backfilled catalogue is computed and dropped.
theorem v8spy_new_ok (pid : Nat) (env : Env) (vv : Version)
    (ho : env.openOk = true) (hi : env.infoOk = true)
    (hv : get_v8_version env = some vv) :
    v8spy_new pid env = NewResult.ok { pid := pid, version := vv } := by
  obtain ⟨d, hd⟩ := get_v8_data_some env
  simp [v8spy_new, ho, hi, hv, hd]

/-- Claim C1 (counterexample): a probed, non-sentinel code-kind field mask
(31) and field shift (3) are overwritten (to 15 and 0) by the rule that
backfills the baseline code-kind tag when the baseline tag is at its
sentinel and the version is at least 9.0.240. -/
theorem c1_counterexample :
    vms_ck_probed.code_kind.field_mask = 31 ∧
    vms_ck_probed.code_kind.field_mask ≠ 0 ∧
    vms_ck_probed.code_kind.field_shift = 3 ∧
    (backfill (v8_ver 9 0 240) vms_ck_probed).code_kind.field_mask = 15 ∧
    (backfill (v8_ver 9 0 240) vms_ck_probed).code_kind.field_shift = 0 := by
  decide

/-- Claim C1 (amended): the Backfill Engine never overwrites the guard field
of a rule when it is non-sentinel; fields written alongside another guard
field (the last JS-function type, the code-kind field mask and field shift)
are preserved whenever their rule's guard field is also non-sentinel. -/
theorem c1_backfill_preserves_probed (ver : Nat) (v : VMData) :
    (v.frame_pointer.bytecode_array ≠ 0 →
      (backfill ver v).frame_pointer.bytecode_array = v.frame_pointer.bytecode_array) ∧
    (v.frame_pointer.bytecode_offset ≠ 0 →
      (backfill ver v).frame_pointer.bytecode_offset = v.frame_pointer.bytecode_offset) ∧
    (v.fixed.first_jsfunction_type ≠ 0 →
      (backfill ver v).fixed.first_jsfunction_type = v.fixed.first_jsfunction_type ∧
      (backfill ver v).fixed.last_jsfunction_type = v.fixed.last_jsfunction_type) ∧
    (v.jsfunction.code ≠ 0 → (backfill ver v).jsfunction.code = v.jsfunction.code) ∧
    (v.code.source_position_table ≠ 0 →
      (backfill ver v).code.source_position_table = v.code.source_position_table) ∧
    (v.code.flags ≠ 0 → (backfill ver v).code.flags = v.code.flags) ∧
    (v.code.deoptimization_data ≠ 0 →
      (backfill ver v).code.deoptimization_data = v.code.deoptimization_data) ∧
    (v.code.instruction_start ≠ 0 →
      (backfill ver v).code.instruction_start = v.code.instruction_start) ∧
    (v.code.instruction_size ≠ 0 →
      (backfill ver v).code.instruction_size = v.code.instruction_size) ∧
    (v.script.source ≠ 0 → (backfill ver v).script.source = v.script.source) ∧
    (v.bytecode_array.source_position_table ≠ 0 →
      (backfill ver v).bytecode_array.source_position_table =
        v.bytecode_array.source_position_table) ∧
    (v.bytecode_array.data ≠ 0 →
      (backfill ver v).bytecode_array.data = v.bytecode_array.data) ∧
    (v.deoptimization_data_index.inlined_function_count ≠ 0 →
      (backfill ver v).deoptimization_data_index.inlined_function_count =
        v.deoptimization_data_index.inlined_function_count) ∧
    (v.deoptimization_data_index.literal_array ≠ 0 →
      (backfill ver v).deoptimization_data_index.literal_array =
        v.deoptimization_data_index.literal_array) ∧
    (v.deoptimization_data_index.shared_function_info ≠ 0 →
      (backfill ver v).deoptimization_data_index.shared_function_info =
        v.deoptimization_data_index.shared_function_info) ∧
    (v.deoptimization_data_index.inlining_positions ≠ 0 →
      (backfill ver v).deoptimization_data_index.inlining_positions =
        v.deoptimization_data_index.inlining_positions) ∧
    (v.code_kind.baseline ≠ 0 →
      (backfill ver v).code_kind.field_mask = v.code_kind.field_mask ∧
      (backfill ver v).code_kind.field_shift = v.code_kind.field_shift ∧
      (backfill ver v).code_kind.baseline = v.code_kind.baseline) ∧
    (v.baseline_data.data ≠ 0 →
      (backfill ver v).baseline_data.data = v.baseline_data.data) := by
  refine ⟨?_, ?_, ?_, ?_, ?_, ?_, ?_, ?_, ?_, ?_, ?_, ?_, ?_, ?_, ?_, ?_, ?_, ?_⟩
  · intro h
    by_cases ht : v8_ver 8 7 198 ≤ ver <;> simp [backfill, rule_code, h, ht]
  · intro h
    by_cases hba : v.frame_pointer.bytecode_array = 0 <;>
      by_cases ht : v8_ver 8 7 198 ≤ ver <;> simp [backfill, rule_code, h, hba, ht]
  · intro h
    by_cases ht1 : v8_ver 9 6 138 ≤ ver <;> by_cases ht2 : v8_ver 9 0 14 ≤ ver <;>
      simp [backfill, rule_code, h, ht1, ht2]
  · intro h
    by_cases ht : v8_ver 11 7 368 ≤ ver <;> simp [backfill, rule_code, h, ht]
  · intro h
    by_cases ht : v8_ver 11 4 59 ≤ ver <;> simp [backfill, rule_code, h, ht]
  · intro h
    by_cases h1 : v.code.instruction_size = 0 <;>
      by_cases h2 : v.code.source_position_table = 0 <;>
      by_cases ht : v8_ver 11 4 59 ≤ ver <;> simp [backfill, rule_code, h, h1, h2, ht]
  · intro h
    by_cases h1 : v.code.instruction_size = 0 <;>
      by_cases h2 : v.code.source_position_table = 0 <;>
      by_cases ht : v8_ver 11 4 59 ≤ ver <;> simp [backfill, rule_code, h, h1, h2, ht]
  · intro h
    by_cases h1 : v.code.instruction_size = 0 <;>
      by_cases h2 : v.code.source_position_table = 0 <;>
      by_cases ht : v8_ver 11 4 59 ≤ ver <;> simp [backfill, rule_code, h, h1, h2, ht]
  · intro h
    by_cases h2 : v.code.source_position_table = 0 <;>
      by_cases ht : v8_ver 11 4 59 ≤ ver <;> simp [backfill, rule_code, h, h2, ht]
  · intro h
    simp [backfill, rule_code, h]
  · intro h
    simp [backfill, rule_code, h]
  · intro h
    simp [backfill, rule_code, h]
  · intro h
    simp [backfill, rule_code, h]
  · intro h
    simp [backfill, rule_code, h]
  · intro h
    simp [backfill, rule_code, h]
  · intro h
    simp [backfill, rule_code, h]
  · intro h
    by_cases ht : v8_ver 9 0 240 ≤ ver <;> simp [backfill, rule_code, h, ht]
  · intro h
    by_cases hb : v.code_kind.baseline = 0 <;>
      by_cases ht : v8_ver 9 0 240 ≤ ver <;> simp [backfill, rule_code, h, hb, ht]

/-- Claim C1 (witness): a probed, non-sentinel bytecode-array frame-pointer
offset survives the backfill unchanged. -/
theorem c1_witness :
    vms_c1w.frame_pointer.bytecode_array ≠ 0 ∧
    (backfill 0 vms_c1w).frame_pointer.bytecode_array =
      vms_c1w.frame_pointer.bytecode_array :=
  ⟨by decide, (c1_backfill_preserves_probed 0 vms_c1w).1 (by decide)⟩

/-- Claim C2 (counterexample): two targets with identical versions but
different probed (and hence backfilled) catalogues produce identical
V8Spy::new results: the returned value cannot contain the catalogue, which
is printed and dropped. -/
theorem c2_counterexample :
    v8spy_new 42 (env_probe_values 0) = v8spy_new 42 (env_probe_values 7) ∧
    (get_v8_data (env_probe_values 0)).map (backfill (v8_ver 9 9 9)) ≠
      (get_v8_data (env_probe_values 7)).map (backfill (v8_ver 9 9 9)) := by
  decide

/-- Claim C2 (amended): on success the Resolution Driver returns only the
pid, the process handle and the EngineVersion; the backfilled
LayoutCatalogue is computed (and printed) but dropped, not yielded. -/
theorem c2_resolve_returns_version_only (pid : Nat) (env : Env) (vv : Version)
    (ho : env.openOk = true) (hi : env.infoOk = true)
    (hv : get_v8_version env = some vv) :
    v8spy_new pid env = NewResult.ok { pid := pid, version := vv } :=
  v8spy_new_ok pid env vv ho hi hv

/-- Claim C2 (witness): a concrete successful resolution returning pid and
version 9.9.9.9. -/
theorem c2_witness :
    v8spy_new 42 (env_probe_values 0) =
      NewResult.ok { pid := 42, version := ⟨9, 9, 9, 9⟩ } :=
  c2_resolve_returns_version_only 42 (env_probe_values 0) ⟨9, 9, 9, 9⟩ rfl rfl
    (by decide)

/-- Claim C3 (counterexample): when a version symbol is missing, the
`.unwrap()` in get_v8_version panics: the resolution does not continue with
a zero component. -/
theorem c3_counterexample :
    v8spy_new 7 env_missing_all = NewResult.panicked ∧
    env_missing_all.getSymbol "_ZN2v88internal7Version6major_E" = none := by
  decide

/-- Claim C3 (amended): when all four version symbols are present, the
resolution never panics: a failed memory read leaves that component at zero
and the resolution runs to completion. A missing version symbol, however,
panics. -/
theorem c3_version_read_failures_tolerated (pid : Nat) (env : Env)
    (ho : env.openOk = true) (hi : env.infoOk = true)
    (hsym : ∀ n ∈ version_symbol_names, (env.getSymbol n).isSome) :
    ∃ vv, get_v8_version env = some vv ∧
      v8spy_new pid env = NewResult.ok { pid := pid, version := vv } ∧
      (∀ a, env.getSymbol "_ZN2v88internal7Version6major_E" = some a →
        env.readAddr a = none → vv.major = 0) ∧
      (∀ a, env.getSymbol "_ZN2v88internal7Version6minor_E" = some a →
        env.readAddr a = none → vv.minor = 0) ∧
      (∀ a, env.getSymbol "_ZN2v88internal7Version6build_E" = some a →
        env.readAddr a = none → vv.build = 0) ∧
      (∀ a, env.getSymbol "_ZN2v88internal7Version6patch_E" = some a →
        env.readAddr a = none → vv.patch = 0) := by
  obtain ⟨x1, e1, z1⟩ := read_version_component_spec env
    "_ZN2v88internal7Version6major_E" (hsym _ (by decide))
  obtain ⟨x2, e2, z2⟩ := read_version_component_spec env
    "_ZN2v88internal7Version6minor_E" (hsym _ (by decide))
  obtain ⟨x3, e3, z3⟩ := read_version_component_spec env
    "_ZN2v88internal7Version6build_E" (hsym _ (by decide))
  obtain ⟨x4, e4, z4⟩ := read_version_component_spec env
    "_ZN2v88internal7Version6patch_E" (hsym _ (by decide))
  have hv : get_v8_version env = some ⟨x1, x2, x3, x4⟩ := by
    simp [get_v8_version, e1, e2, e3, e4]
  exact ⟨⟨x1, x2, x3, x4⟩, hv, v8spy_new_ok pid env _ ho hi hv, z1, z2, z3, z4⟩

/-- Claim C3 (witness): a target whose version symbols are all present but
unreadable resolves to version 0.0.0.0 and completes. -/
theorem c3_witness :
    ∃ vv, get_v8_version env_reads_fail = some vv ∧
      v8spy_new 3 env_reads_fail = NewResult.ok { pid := 3, version := vv } ∧
      (∀ a, env_reads_fail.getSymbol "_ZN2v88internal7Version6major_E" = some a →
        env_reads_fail.readAddr a = none → vv.major = 0) ∧
      (∀ a, env_reads_fail.getSymbol "_ZN2v88internal7Version6minor_E" = some a →
        env_reads_fail.readAddr a = none → vv.minor = 0) ∧
      (∀ a, env_reads_fail.getSymbol "_ZN2v88internal7Version6build_E" = some a →
        env_reads_fail.readAddr a = none → vv.build = 0) ∧
      (∀ a, env_reads_fail.getSymbol "_ZN2v88internal7Version6patch_E" = some a →
        env_reads_fail.readAddr a = none → vv.patch = 0) :=
  c3_version_read_failures_tolerated 3 env_reads_fail rfl rfl (by decide)

/-- Claim C4 (counterexample): a failed memory read does not abort the
resolution (it completes, returning ok with version 0.0.0.0 even though
every read fails), and read_memory reports a failed read exactly like a
missing symbol: `false` with the destination untouched. -/
theorem c4_counterexample :
    v8spy_new 42 env_reads_fail = NewResult.ok { pid := 42, version := ⟨0, 0, 0, 0⟩ } ∧
    env_reads_fail.getSymbol "v8dbg_SmiTag" = some 0 ∧
    env_reads_fail.readAddr 0 = none ∧
    read_memory env_reads_fail "v8dbg_SmiTag" 2 5 = some (false, 5) ∧
    read_memory env_missing_all "v8dbg_SmiTag" 2 5 = some (false, 5) := by
  decide

/-- Claim C4 (amended): for a non-frame-type symbol, read_memory returns the
same result — `false`, destination left at its sentinel — whether the symbol
is missing or present with unreadable memory; neither case aborts the
resolution. -/
theorem c4_probe_failure_uniform_and_nonfatal (env env2 : Env) (s : String)
    (w d a : Nat) (hw : w = 4 ∨ w = 2 ∨ w = 1)
    (hfound : env.getSymbol s = some a) (hfail : env.readAddr a = none)
    (hmiss : env2.getSymbol s = none)
    (hpre : s.startsWith "v8dbg_frametype_" = false) :
    read_memory env s w d = some (false, d) ∧
    read_memory env2 s w d = some (false, d) := by
  constructor
  · simp only [read_memory, hfound]
    rw [if_pos hw, hfail]
  · simp [read_memory, hmiss, hpre]

/-- Claim C4 (witness): the missing-symbol case and the unreadable-memory
case of the same probe produce the same observable result. -/
theorem c4_witness :
    read_memory env_reads_fail "v8dbg_SmiTag" 2 5 = some (false, 5) ∧
    read_memory env_missing_all "v8dbg_SmiTag" 2 5 = some (false, 5) :=
  c4_probe_failure_uniform_and_nonfatal env_reads_fail env_missing_all
    "v8dbg_SmiTag" 2 5 0 (Or.inr (Or.inl rfl)) (by decide) rfl (by decide)
    (by decide)

-- Helper: the concrete frame-type symbol used below does carry the
-- "v8dbg_frametype_" prefix (the substring loop is unfolded step by step).
theorem startsWith_frametype_wasm :
    "v8dbg_frametype_WasmInterpreterEntryFrame".startsWith "v8dbg_frametype_" = true := by
  have h1 : "v8dbg_frametype_WasmInterpreterEntryFrame".startsWith "v8dbg_frametype_" =
      String.substrEq "v8dbg_frametype_WasmInterpreterEntryFrame" 0 "v8dbg_frametype_" 0 16 := rfl
  rw [h1]
  rw [String.substrEq]
  norm_num
  repeat (rw [String.substrEq.loop]; simp +decide)

/-- Claim C5: a missing symbol with the stack-frame-type prefix resolves to
the maximum representable value of its one-byte destination (255) and the
probe reports success, not zero and not a failure. -/
theorem c5_frametype_absent_max (env : Env) (s : String) (d : Nat)
    (hpre : s.startsWith "v8dbg_frametype_" = true)
    (habs : env.getSymbol s = none) (hd : d < 256) :
    read_memory env s 1 d = some (true, 255) ∧ (255 : Nat) ≠ 0 := by
  refine ⟨?_, by decide⟩
  simp [read_memory, habs, hpre, Nat.mod_eq_of_lt hd]

/-- Claim C5 (witness): the absent WasmInterpreterEntryFrame frame-type
symbol resolves to 255 with success. -/
theorem c5_witness :
    read_memory env_missing_all "v8dbg_frametype_WasmInterpreterEntryFrame" 1 0 =
      some (true, 255) ∧ (255 : Nat) ≠ 0 :=
  c5_frametype_absent_max env_missing_all
    "v8dbg_frametype_WasmInterpreterEntryFrame" 0 startsWith_frametype_wasm rfl (by decide)

/-- Claim C6 (counterexample): the packed ordinal is not monotonic for
arbitrary u32 triples: (0,0,70000) is lexicographically below (0,1,0), but
its packed ordinal 70000 is not below 65536, because the build component
overflows its 16-bit slot. -/
theorem c6_counterexample :
    lex_lt (0, 0, 70000) (0, 1, 0) ∧ ¬ v8_ver 0 0 70000 < v8_ver 0 1 0 := by
  decide

/-- Claim C6 (amended): for triples whose components fit their slots (major
and minor below 256, build below 65536), the packed ordinal is strictly
monotonic with respect to lexicographic comparison; in particular
v8_ver(9,0,14) < v8_ver(9,6,138) < v8_ver(11,7,368), and the patch
component has no effect on the ordinal the driver uses. -/
theorem c6_v8_ver_monotone (m1 n1 b1 m2 n2 b2 : Nat)
    (hm1 : m1 < 256) (hn1 : n1 < 256) (hb1 : b1 < 65536)
    (hm2 : m2 < 256) (hn2 : n2 < 256) (hb2 : b2 < 65536)
    (hlex : lex_lt (m1, n1, b1) (m2, n2, b2)) :
    v8_ver m1 n1 b1 < v8_ver m2 n2 b2 ∧
    v8_ver 9 0 14 < v8_ver 9 6 138 ∧ v8_ver 9 6 138 < v8_ver 11 7 368 ∧
    (∀ (vv : Version) (p : Nat),
      packed_ordinal { vv with patch := p } = packed_ordinal vv) := by
  refine ⟨?_, by decide, by decide, fun vv p => rfl⟩
  simp only [lex_lt] at hlex
  unfold v8_ver M32
  rw [Nat.mod_eq_of_lt (by omega), Nat.mod_eq_of_lt (by omega)]
  rcases hlex with h | ⟨h1, h | ⟨h2, h⟩⟩ <;> omega

/-- Claim C6 (witness): the monotonicity instance for (9,0,14) against
(9,6,138). -/
theorem c6_witness :
    v8_ver 9 0 14 < v8_ver 9 6 138 ∧
    v8_ver 9 0 14 < v8_ver 9 6 138 ∧ v8_ver 9 6 138 < v8_ver 11 7 368 ∧
    (∀ (vv : Version) (p : Nat),
      packed_ordinal { vv with patch := p } = packed_ordinal vv) :=
  c6_v8_ver_monotone 9 0 14 9 6 138 (by decide) (by decide) (by decide)
    (by decide) (by decide) (by decide) (by decide)

/-- Claim C7: for version 9.6.200, a sentinel first-JS-function-type field
with a probed base JS-function tag of 1057 backfills to the inclusive range
[1057, 1071] (15 subclass tags, since 9.6.200 is at least 9.6.138). -/
theorem c7_jsfunction_range (v : VMData)
    (h1 : v.fixed.first_jsfunction_type = 0) (h2 : v.typ.js_function = 1057) :
    (backfill (v8_ver 9 6 200) v).fixed.first_jsfunction_type = 1057 ∧
    (backfill (v8_ver 9 6 200) v).fixed.last_jsfunction_type = 1071 := by
  have ht1 : v8_ver 9 6 138 ≤ v8_ver 9 6 200 := by decide
  simp [backfill, rule_code, h1, h2, ht1, add16, sub16]

/-- Claim C7 (witness): the concrete catalogue with base tag 1057. -/
theorem c7_witness :
    (backfill (v8_ver 9 6 200) vms_c7).fixed.first_jsfunction_type = 1057 ∧
    (backfill (v8_ver 9 6 200) vms_c7).fixed.last_jsfunction_type = 1071 :=
  c7_jsfunction_range vms_c7 (by decide) (by decide)

/-- Claim C8 (counterexample): the backfill pass is not idempotent on every
catalogue: with source position table probed as 0xFFE8 and everything else
at the sentinel, the first pass wraps the derived flags offset to 0 while
deriving a nonzero instruction size, so a second pass rewrites flags. -/
theorem c8_counterexample :
    backfill (v8_ver 8 4 0) (backfill (v8_ver 8 4 0) vms_c8) ≠
      backfill (v8_ver 8 4 0) vms_c8 := by
  decide

/-- Claim C8 (amended): one backfill pass is idempotent for every version
ordinal and catalogue, except when the pass takes the recovery branch
(instruction size absent, source position table present) and the u16
arithmetic wraps the derived flags offset to zero while deriving a nonzero
instruction size. -/
theorem c8_backfill_idempotent (ver : Nat) (v : VMData)
    (H : v.code.instruction_size ≠ 0 ∨ (backfill ver v).code.flags ≠ 0 ∨
         (backfill ver v).code.instruction_size = 0) :
    backfill ver (backfill ver v) = backfill ver v :=
  backfill_idem ver v H

/-- Claim C8 (witness): idempotence on the all-sentinel catalogue at
version 9.6.200. -/
theorem c8_witness :
    backfill (v8_ver 9 6 200) (backfill (v8_ver 9 6 200) (default : VMData)) =
      backfill (v8_ver 9 6 200) (default : VMData) :=
  c8_backfill_idempotent (v8_ver 9 6 200) default (by decide)

/-- Claim C9: the deoptimization-data slot-index defaults are
version-independent: for every version ordinal, a sentinel
inlined-function-count index becomes 1, a sentinel literal-array index
becomes the inlined-function-count index plus 1 (u8), a sentinel
shared-function-info index becomes 6, and a sentinel inlining-positions
index becomes the shared-function-info index plus 1 (u8). -/
theorem c9_deopt_defaults (ver : Nat) (v : VMData) :
    (v.deoptimization_data_index.inlined_function_count = 0 →
      (backfill ver v).deoptimization_data_index.inlined_function_count = 1) ∧
    (v.deoptimization_data_index.literal_array = 0 →
      (backfill ver v).deoptimization_data_index.literal_array =
        add8 (backfill ver v).deoptimization_data_index.inlined_function_count 1) ∧
    (v.deoptimization_data_index.shared_function_info = 0 →
      (backfill ver v).deoptimization_data_index.shared_function_info = 6) ∧
    (v.deoptimization_data_index.inlining_positions = 0 →
      (backfill ver v).deoptimization_data_index.inlining_positions =
        add8 (backfill ver v).deoptimization_data_index.shared_function_info 1) := by
  refine ⟨fun h => ?_, fun h => ?_, fun h => ?_, fun h => ?_⟩ <;>
    simp [backfill, rule_code, h]

/-- Claim C9 (witness): the defaults on the all-sentinel catalogue. -/
theorem c9_witness :
    (backfill 0 (default : VMData)).deoptimization_data_index.inlined_function_count = 1 ∧
    (backfill 0 (default : VMData)).deoptimization_data_index.literal_array =
      add8 (backfill 0 (default : VMData)).deoptimization_data_index.inlined_function_count 1 ∧
    (backfill 0 (default : VMData)).deoptimization_data_index.shared_function_info = 6 ∧
    (backfill 0 (default : VMData)).deoptimization_data_index.inlining_positions =
      add8 (backfill 0 (default : VMData)).deoptimization_data_index.shared_function_info 1 :=
  ⟨(c9_deopt_defaults 0 default).1 rfl, (c9_deopt_defaults 0 default).2.1 rfl,
   (c9_deopt_defaults 0 default).2.2.1 rfl, (c9_deopt_defaults 0 default).2.2.2 rfl⟩

/-- Claim C10: every probe issued during catalogue population targets a
1-, 2- or 4-byte destination, so get_v8_data never reaches the
unsupported-width panic branch on any environment, and read_memory always
returns for those widths. -/
theorem c10_probe_widths_safe :
    (∀ env : Env, (get_v8_data env).isSome) ∧
    (∀ (env : Env) (s : String) (w d : Nat), w = 4 ∨ w = 2 ∨ w = 1 →
      (read_memory env s w d).isSome) := by
  constructor
  · intro env
    obtain ⟨d, hd⟩ := get_v8_data_some env
    simp [hd]
  · intro env s w d hw
    rw [read_memory_eq_total env s w d hw]
    simp

/-- Claim C10 (witness): the probe chain returns on a target with no
symbols at all, and a width-2 probe returns. -/
theorem c10_witness :
    (get_v8_data env_missing_all).isSome ∧
    (read_memory env_missing_all "v8dbg_SmiTag" 2 0).isSome :=
  ⟨c10_probe_widths_safe.1 env_missing_all,
   c10_probe_widths_safe.2 env_missing_all "v8dbg_SmiTag" 2 0 (Or.inr (Or.inl rfl))⟩

end V8spy
